import Mathlib

/-!
Shallow embedding of the mini-react scheduler
(`src/packages/scheduler/src/Scheduler.ts`, the full snapshot containing
`timerQueue`).  Module-level mutable variables of the source become fields of
`SchedulerState`; the host clock (`getCurrentTime`) is an injected list of
readings consumed one per call; the host primitives (`MessageChannel`
postings, `setTimeout` handles) are modelled as bookkeeping fields so that the
number of armed host timers and pending host callbacks is observable.
`SchedulerMinHeap`, `SchedulerPriorities` and `SchedulerFeatureFlags` are
imported by the source but absent from the repository snapshot; they are
modelled from the spec where indicated.
-/

namespace MiniReact

/-- Modelled from the spec: `SchedulerPriorities` is missing from the
repository snapshot.  Priority levels are an enumerated set of numeric codes
(the exact numerals are immaterial; the switch in `getTimeoutForPriority`
only compares codes for equality). -/
def NoPriority : Nat := 0

/-- Modelled from the spec: immediate priority code. -/
def ImmediatePriority : Nat := 1

/-- Modelled from the spec: user-blocking priority code. -/
def UserBlockingPriority : Nat := 2

/-- Modelled from the spec: normal priority code. -/
def NormalPriority : Nat := 3

/-- Modelled from the spec: low priority code. -/
def LowPriority : Nat := 4

/-- Modelled from the spec: idle priority code. -/
def IdlePriority : Nat := 5

/-- `maxSigned31BitInt` from `SchedulerFeatureFlags` (the canonical
2^30 - 1 sentinel used by the source as the idle timeout). -/
def maxSigned31BitInt : Int := 1073741823

/-- Modelled from the spec: `SchedulerFeatureFlags` is missing from the
repository snapshot; the three timeout constants are configuration-supplied
and are therefore threaded as a parameter. -/
structure SchedulerConfig where
  userBlockingPriorityTimeout : Int
  normalPriorityTimeout : Int
  lowPriorityTimeout : Int
deriving DecidableEq, Repr

/-- Modelled from the spec: the qualitative constraints the spec places on
the configuration constants — user-blocking is short (hundreds of ms),
normal is moderate (several seconds), low is long (order of 10 s), and the
chain immediate < user-blocking < normal < low < idle holds. -/
def SpecConfig (cfg : SchedulerConfig) : Prop :=
  100 ≤ cfg.userBlockingPriorityTimeout ∧
  cfg.userBlockingPriorityTimeout < 1000 ∧
  2000 ≤ cfg.normalPriorityTimeout ∧
  cfg.normalPriorityTimeout < 10000 ∧
  10000 ≤ cfg.lowPriorityTimeout ∧
  cfg.lowPriorityTimeout < maxSigned31BitInt

instance (cfg : SchedulerConfig) : Decidable (SpecConfig cfg) := by
  unfold SpecConfig; infer_instance

/-- The concrete configuration used by the upstream React scheduler; it
satisfies `SpecConfig` and serves for concrete evaluations. -/
def reactConfig : SchedulerConfig :=
  { userBlockingPriorityTimeout := 250,
    normalPriorityTimeout := 5000,
    lowPriorityTimeout := 10000 }

/-- A task body: receives `didTimeout` and either throws (the scheduler
itself never catches), finishes (`none`) or returns a continuation. -/
inductive Callback : Type where
  | mk : (Bool → Except Unit (Option Callback)) → Callback

/-- Invoke a task body. -/
def Callback.run : Callback → Bool → Except Unit (Option Callback)
  | .mk f, b => f b

/-- The mutable fields of a `Task` record (its `id` is the key under which
it is stored). -/
structure TaskData where
  callback : Option Callback
  priorityLevel : Nat
  startTime : Int
  expirationTime : Int
  sortIndex : Int

/-- Heap keys: `(sortIndex, id)`.  Id is the second component. -/
abbrev HeapKey := Int × Nat

/-- Modelled from the spec: the min-heap comparison contract of
`SchedulerMinHeap` (missing from the repository snapshot) — ascending
lexicographic on `(sortIndex, id)`. -/
def keyLe (a b : HeapKey) : Prop :=
  a.1 < b.1 ∨ (a.1 = b.1 ∧ a.2 ≤ b.2)

instance : DecidableRel keyLe := fun a b => by
  unfold keyLe; infer_instance

/-- Strict heap order: used to state tie-breaking by strictly ascending id. -/
def keyLt (a b : HeapKey) : Prop :=
  a.1 < b.1 ∨ (a.1 = b.1 ∧ a.2 < b.2)

instance : DecidableRel keyLt := fun a b => by
  unfold keyLt; infer_instance

instance : IsTotal HeapKey keyLe := ⟨by
  intro a b
  unfold keyLe
  omega⟩

instance : IsTrans HeapKey keyLe := ⟨by
  intro a b c
  unfold keyLe
  omega⟩

/-- Modelled from the spec: `push` of `SchedulerMinHeap`.  Because the heap
comparison `(sortIndex, id)` is a total order that is strict on queue
contents (ids are unique), repeated remove-min observes exactly ascending
key order, so the heap is modelled extensionally as an ordered insertion
list: `peek` is the head and `pop` drops the head. -/
def heapPush (q : List HeapKey) (x : HeapKey) : List HeapKey :=
  q.orderedInsert keyLe x

/-- The full scheduler state: every module-level variable of the source,
plus the host-side bookkeeping (armed timers, posted messages, clock). -/
structure SchedulerState where
  store : List (Nat × TaskData)
  taskQueue : List HeapKey
  timerQueue : List HeapKey
  taskIdCounter : Nat
  currentTask : Option Nat
  currentPriorityLevel : Nat
  startTime : Int
  frameInterval : Int
  isPerformingWork : Bool
  isHostCallbackScheduled : Bool
  isMessageLoopRunning : Bool
  isHostTimeoutScheduled : Bool
  taskTimeoutID : Int
  nextTimeoutID : Int
  armedTimers : List (Int × Int)
  postedMessages : Nat
  clock : List Int
  lastTime : Int

/-- Look up a task record by id (total; queue ids always resolve in
reachable states). -/
def findTask (store : List (Nat × TaskData)) (tid : Nat) : TaskData :=
  match store with
  | [] =>
    { callback := none, priorityLevel := 0, startTime := 0,
      expirationTime := 0, sortIndex := 0 }
  | (i, t) :: rest => if i = tid then t else findTask rest tid

/-- Update a task record in place (object mutation through its id). -/
def updTask (store : List (Nat × TaskData)) (tid : Nat)
    (f : TaskData → TaskData) : List (Nat × TaskData) :=
  match store with
  | [] => []
  | (i, t) :: rest =>
    (if i = tid then (i, f t) else (i, t)) :: updTask rest tid f

/-- Set `task.callback`. -/
def setCallback (s : SchedulerState) (tid : Nat) (cb : Option Callback) :
    SchedulerState :=
  { s with store := updTask s.store tid fun t => { t with callback := cb } }

/-- Set `task.sortIndex`. -/
def setSortIndex (s : SchedulerState) (tid : Nat) (v : Int) :
    SchedulerState :=
  { s with store := updTask s.store tid fun t => { t with sortIndex := v } }

/-- `getCurrentTime()`: consume the next injected clock reading (repeating
the last one when the supply is exhausted). -/
def readClock (s : SchedulerState) : Int × SchedulerState :=
  match s.clock with
  | [] => (s.lastTime, s)
  | t :: rest => (t, { s with clock := rest, lastTime := t })

/-- `getTimeoutForPriority` (Scheduler.ts lines 235-250). -/
def getTimeoutForPriority (cfg : SchedulerConfig) (priorityLevel : Nat) :
    Int :=
  if priorityLevel = ImmediatePriority then -1
  else if priorityLevel = UserBlockingPriority then
    cfg.userBlockingPriorityTimeout
  else if priorityLevel = NormalPriority then cfg.normalPriorityTimeout
  else if priorityLevel = LowPriority then cfg.lowPriorityTimeout
  else if priorityLevel = IdlePriority then maxSigned31BitInt
  else 1000

/-- `requestHostCallback` (lines 316-321): sets the message-loop flag and
posts one `performWorkUntilDeadline` message if the loop is not running. -/
def requestHostCallback (s : SchedulerState) : SchedulerState :=
  if s.isMessageLoopRunning then s
  else { s with isMessageLoopRunning := true,
                postedMessages := s.postedMessages + 1 }

/-- `requestHostTimeout` (lines 435-442): arms a fresh one-shot host timer
(`setTimeout`) and records its handle in `taskTimeoutID`; `now` is the
current time at the call site, so the timer's deadline is `now + ms`. -/
def requestHostTimeout (ms now : Int) (s : SchedulerState) :
    SchedulerState :=
  { s with taskTimeoutID := s.nextTimeoutID,
           nextTimeoutID := s.nextTimeoutID + 1,
           armedTimers := s.armedTimers ++ [(s.nextTimeoutID, now + ms)] }

/-- `cancelHostTimeout` (lines 430-433): `clearTimeout(taskTimeoutID)`. -/
def cancelHostTimeout (s : SchedulerState) : SchedulerState :=
  { s with armedTimers := s.armedTimers.filter fun p =>
             decide (p.1 ≠ s.taskTimeoutID)
           taskTimeoutID := -1 }

/-- Pop the delay queue's minimum. -/
def dropTimerHead (s : SchedulerState) : SchedulerState :=
  { s with timerQueue := s.timerQueue.tail }

/-- Promote the delay queue's minimum `tid`: pop it, reassign
`sortIndex := expirationTime` (`exp`), and insert it into the ready
queue. -/
def promoteHead (tid : Nat) (exp : Int) (s : SchedulerState) :
    SchedulerState :=
  let s1 := setSortIndex (dropTimerHead s) tid exp
  { s1 with taskQueue := heapPush s1.taskQueue (exp, tid) }

/-- One step of the `advanceTimers` while-loop, driven by fuel (each
iteration pops one element of `timerQueue`, so `timerQueue.length` fuel is
always enough). -/
def advanceTimersAux : Nat → Int → SchedulerState → SchedulerState
  | 0, _, s => s
  | fuel + 1, currentTime, s =>
    match s.timerQueue with
    | [] => s
    | (_, tid) :: _ =>
      let t := findTask s.store tid
      match t.callback with
      | none => advanceTimersAux fuel currentTime (dropTimerHead s)
      | some _ =>
        if t.startTime ≤ currentTime then
          advanceTimersAux fuel currentTime
            (promoteHead tid t.expirationTime s)
        else s

/-- `advanceTimers` (lines 444-461). -/
def advanceTimers (currentTime : Int) (s : SchedulerState) :
    SchedulerState :=
  advanceTimersAux s.timerQueue.length currentTime s

/-- `scheduleCallback` (lines 257-314).  Note the source returns
`undefined`: no handle to the new task is returned. -/
def scheduleCallback (cfg : SchedulerConfig) (priorityLevel : Nat)
    (callback : Callback) (delay : Option Int) (s : SchedulerState) :
    SchedulerState :=
  let (currentTime, s) := readClock s
  let startTime :=
    match delay with
    | some d => if 0 < d then currentTime + d else currentTime
    | none => currentTime
  let timeout := getTimeoutForPriority cfg priorityLevel
  let expirationTime := startTime + timeout
  let tid := s.taskIdCounter
  let newTask : TaskData :=
    { callback := some callback, priorityLevel := priorityLevel,
      startTime := startTime, expirationTime := expirationTime,
      sortIndex := -1 }
  let s := { s with taskIdCounter := tid + 1
                    store := (tid, newTask) :: s.store }
  if startTime > currentTime then
    let s := setSortIndex s tid startTime
    let s := { s with timerQueue := heapPush s.timerQueue (startTime, tid) }
    if s.taskQueue = [] ∧ (s.timerQueue.head?.map Prod.snd) = some tid then
      let s :=
        if s.isHostTimeoutScheduled then cancelHostTimeout s
        else { s with isHostTimeoutScheduled := true }
      requestHostTimeout (startTime - currentTime) currentTime s
    else s
  else
    let s := setSortIndex s tid expirationTime
    let s := { s with taskQueue := heapPush s.taskQueue (expirationTime, tid) }
    if ¬s.isHostCallbackScheduled ∧ ¬s.isPerformingWork then
      requestHostCallback { s with isHostCallbackScheduled := true }
    else s

/-- `cancelCallback` (lines 367-369): takes no task handle and performs
`currentTask!.callback = null`; when `currentTask` is `null` the non-null
assertion fails at runtime (a `TypeError`), modelled as `none`. -/
def cancelCallback (s : SchedulerState) : Option SchedulerState :=
  match s.currentTask with
  | none => none
  | some tid => some (setCallback s tid none)

/-- `getCurrentPriorityLevel` (lines 371-373). -/
def getCurrentPriorityLevel (s : SchedulerState) : Nat :=
  s.currentPriorityLevel

/-- `shouldYieldToHost` (lines 481-489): compares the time elapsed since
the module-level `startTime` field against `frameInterval`.  Reads the
clock. -/
def shouldYieldToHost (s : SchedulerState) : Bool × SchedulerState :=
  let (t, s) := readClock s
  (decide (¬ t - s.startTime < s.frameInterval), s)

/-- How one `workLoop` (or host-callback) run ended; ghost instrumentation
alongside the faithfully computed boolean result. -/
inductive ExitKind where
  | yielded
  | continuation
  | drained
  | threw
  | skipped
deriving DecidableEq, Repr

/-- Result of a `workLoop` / `flushWork` / `performWorkUntilDeadline` run:
final state, the invocation trace (task id, the `didTimeout` flag passed,
and the loop time against which `didTimeout` was computed), the exit kind
and the returned value (`Except.error` when a task body threw). -/
structure LoopRes where
  st : SchedulerState
  trace : List (Nat × Bool × Int)
  exit : ExitKind
  ret : Except Unit Bool

/-- Set the `currentTask` field (the loop-head assignment
`currentTask = peek(taskQueue)`). -/
def setCurrentTask (s : SchedulerState) (o : Option Nat) : SchedulerState :=
  { s with currentTask := o }

/-- The loop guard `currentTask.expirationTime > currentTime &&
shouldYieldToHost()`, with the short-circuit (the clock is only read when
the first conjunct holds). -/
def yieldCheck (ct : Int) (t : TaskData) (s : SchedulerState) :
    Bool × SchedulerState :=
  if t.expirationTime > ct then shouldYieldToHost s else (false, s)

/-- `pop(taskQueue)`. -/
def popHead (s : SchedulerState) : SchedulerState :=
  { s with taskQueue := s.taskQueue.tail }

/-- The take-priority assignment `currentPriorityLevel =
currentTask.priorityLevel`. -/
def setCurrentPriority (s : SchedulerState) (p : Nat) : SchedulerState :=
  { s with currentPriorityLevel := p }

/-- After a body returned nothing: pop the task if it is still the queue
minimum (the source's defensive identity check), then re-promote. -/
def runBodyDone (ct2 : Int) (tid : Nat) (s : SchedulerState) :
    SchedulerState :=
  advanceTimers ct2
    (if (s.taskQueue.head?.map Prod.snd) = some tid then popHead s else s)

/-- The `workLoop` tail when the queue drained (lines 418-427): if the
delay queue is non-empty, arm a host timer for its minimum, then return
false. -/
def drainedExit (ct : Int) (s : SchedulerState) : LoopRes :=
  match s.timerQueue with
  | [] => ⟨s, [], .drained, .ok false⟩
  | (_, ftid) :: _ =>
    ⟨requestHostTimeout ((findTask s.store ftid).startTime - ct) ct s,
     [], .drained, .ok false⟩

/-- The `workLoop` while-loop (lines 385-416 plus the tail 418-427),
fuel-driven; `none` means the fuel bound was hit, never a real outcome of
the source. -/
def workLoopAux : Nat → Int → SchedulerState → Option LoopRes
  | 0, _, _ => none
  | fuel + 1, currentTime, s0 =>
    match s0.taskQueue with
    | [] => some (drainedExit currentTime (setCurrentTask s0 none))
    | (_, tid) :: _ =>
      let s := setCurrentTask s0 (some tid)
      let t := findTask s.store tid
      let g := yieldCheck currentTime t s
      if g.1 then some ⟨g.2, [], .yielded, .ok true⟩
      else
        match t.callback with
        | none => workLoopAux fuel currentTime (popHead g.2)
        | some cb =>
          let s1 := setCurrentPriority (setCallback g.2 tid none)
                      t.priorityLevel
          let didTimeout := decide (t.expirationTime ≤ currentTime)
          let rc := readClock s1
          match cb.run didTimeout with
          | .error _ =>
            some ⟨rc.2, [(tid, didTimeout, currentTime)], .threw,
                  .error ()⟩
          | .ok (some cont) =>
            some ⟨advanceTimers rc.1 (setCallback rc.2 tid (some cont)),
                  [(tid, didTimeout, currentTime)], .continuation,
                  .ok true⟩
          | .ok none =>
            match workLoopAux fuel rc.1 (runBodyDone rc.1 tid rc.2) with
            | none => none
            | some r =>
              some { r with
                       trace := (tid, didTimeout, currentTime) :: r.trace }

/-- `workLoop` (lines 380-428): promote, then drain. -/
def workLoop (fuel : Nat) (initialTime : Int) (s : SchedulerState) :
    Option LoopRes :=
  workLoopAux fuel initialTime (advanceTimers initialTime s)

/-- The flag assignments at `flushWork` entry. -/
def flushStart (s : SchedulerState) : SchedulerState :=
  { s with isHostCallbackScheduled := false, isPerformingWork := true }

/-- The `finally` block of `flushWork`, applied on every exit path, a
thrown body included. -/
def flushFinish (prev : Nat) (r : LoopRes) : LoopRes :=
  { r with st := { r.st with currentTask := none,
                             currentPriorityLevel := prev,
                             isPerformingWork := false } }

/-- `flushWork` (lines 349-361): flag bookkeeping around `workLoop`. -/
def flushWork (fuel : Nat) (initialTime : Int) (s : SchedulerState) :
    Option LoopRes :=
  (workLoop fuel initialTime (flushStart s)).map
    (flushFinish s.currentPriorityLevel)

/-- The `finally` block of `performWorkUntilDeadline`: repost the message
when more work remains — and also when `flushWork` threw, since
`hasMorkWork` was initialized to `true` and the assignment was skipped. -/
def pwdFinish (r : LoopRes) : LoopRes :=
  if (match r.ret with | .ok b => b | .error _ => true) then
    { r with st := { r.st with postedMessages := r.st.postedMessages + 1 } }
  else { r with st := { r.st with isMessageLoopRunning := false } }

/-- `performWorkUntilDeadline` (lines 323-339).  The source's
`const startTime = currentTime` is a *local* binding that shadows the
module-level `startTime` field, which therefore is never written: the
clock reading is passed to `flushWork` but the `startTime` field consulted
by `shouldYieldToHost` keeps its initial value. -/
def performWorkUntilDeadline (fuel : Nat) (s : SchedulerState) :
    Option LoopRes :=
  if s.isMessageLoopRunning then
    let rc := readClock s
    (flushWork fuel rc.1 rc.2).map pwdFinish
  else some ⟨s, [], .skipped, .ok false⟩

/-- `handleTimeout` (lines 463-479). -/
def handleTimeout (currentTime : Int) (s : SchedulerState) :
    SchedulerState :=
  let s := { s with isHostTimeoutScheduled := false }
  let s := advanceTimers currentTime s
  if s.isHostCallbackScheduled then s
  else
    match s.taskQueue with
    | _ :: _ => requestHostCallback { s with isHostCallbackScheduled := true }
    | [] =>
      match s.timerQueue with
      | (_, ftid) :: _ =>
        let ft := findTask s.store ftid
        requestHostTimeout (ft.startTime - currentTime) currentTime s
      | [] => s

/-- The initial scheduler state with an injected clock tape. -/
def initialState (clock : List Int) : SchedulerState :=
  { store := [],
    taskQueue := [],
    timerQueue := [],
    taskIdCounter := 0,
    currentTask := none,
    currentPriorityLevel := NoPriority,
    startTime := -1,
    frameInterval := 5
    isPerformingWork := false
    isHostCallbackScheduled := false
    isMessageLoopRunning := false
    isHostTimeoutScheduled := false
    taskTimeoutID := -1
    nextTimeoutID := 1
    armedTimers := []
    postedMessages := 0
    clock := clock
    lastTime := 0 }

/-- Environment events driving the scheduler: a producer call, the host
delivering a posted message, the host firing an armed timer, a producer
cancellation. -/
inductive SchedulerEvent where
  | schedule (p : Nat) (cb : Callback) (delay : Option Int)
  | fireMessage (fuel : Nat)
  | fireTimer (handle : Int)
  | cancel

/-- One environment step; `none` when the event is not enabled (no message
posted, timer not armed, fuel exhausted) or the source would crash
(`cancelCallback` with `currentTask === null`). -/
def step (cfg : SchedulerConfig) (ev : SchedulerEvent)
    (s : SchedulerState) : Option SchedulerState :=
  match ev with
  | .schedule p cb d => some (scheduleCallback cfg p cb d s)
  | .fireMessage fuel =>
    match s.postedMessages with
    | 0 => none
    | n + 1 =>
      (performWorkUntilDeadline fuel { s with postedMessages := n }).map
        LoopRes.st
  | .fireTimer h =>
    if s.armedTimers.any fun p => decide (p.1 = h) then
      let s1 := { s with armedTimers := s.armedTimers.filter fun p =>
                    decide (p.1 ≠ h) }
      let rc := readClock s1
      some (handleTimeout rc.1 rc.2)
    else none
  | .cancel => cancelCallback s

/-- Run a list of environment events from a state. -/
def run (cfg : SchedulerConfig) : List SchedulerEvent → SchedulerState →
    Option SchedulerState
  | [], s => some s
  | ev :: evs, s =>
    match step cfg ev s with
    | none => none
    | some s => run cfg evs s


/-- A task body that finishes immediately. -/
def cbDone : Callback := .mk fun _ => .ok none

/-- A task body that throws. -/
def cbThrow : Callback := .mk fun _ => .error ()

/-- Extract the boolean result of a drain, `none` when it threw. -/
def exceptBool : Except Unit Bool → Option Bool
  | .ok b => some b
  | .error _ => none

/-- The result of a host-callback invocation (defaulting on fuel
exhaustion, which concrete witnesses never hit). -/
def pwdRes (fuel : Nat) (s : SchedulerState) : LoopRes :=
  (performWorkUntilDeadline fuel s).getD ⟨s, [], .skipped, .ok false⟩

/-- C3 scenario: a delayed task is scheduled at time 0 (arming a host
timer for its start time 100), an immediate task at time 1 (posting a host
callback), and the host then delivers the callback at time 2. -/
def doubleTimerEvents : List SchedulerEvent :=
  [.schedule NormalPriority cbDone (some 100),
   .schedule ImmediatePriority cbDone none,
   .fireMessage 5]

/-- C4 scenario: one normal-priority task admitted at time 10; the host
callback then fires at time 12, 2 ms later. -/
def shadowedSliceState : SchedulerState :=
  scheduleCallback reactConfig NormalPriority cbDone none
    (initialState [10, 12, 12])

/-- C9 witness scenario: an immediate task whose body throws, admitted at
time 0; the host callback fires at time 1. -/
def throwingBodyState : SchedulerState :=
  scheduleCallback reactConfig ImmediatePriority cbThrow none
    (initialState [0, 1, 1])

/-- C10 witness scenario: a ready queue holding only a tombstoned task
whose deadline is in the future, drained at time 10 (the budget check
yields immediately). -/
def allTombstonesState : SchedulerState :=
  { initialState [10, 10] with
      isMessageLoopRunning := true,
      store := [(0, { callback := none, priorityLevel := NormalPriority,
                      startTime := 0, expirationTime := 100,
                      sortIndex := 100 })],
      taskQueue := [(100, 0)] }


/-- One producer call to `scheduleCallback`. -/
structure ScheduleCall where
  p : Nat
  cb : Callback
  delay : Option Int

/-- A delay option that the source treats as "no delay" (absent, zero or
negative). -/
def zeroDelay : Option Int → Prop
  | none => True
  | some d => d ≤ 0

instance (d : Option Int) : Decidable (zeroDelay d) := by
  cases d <;> simp [zeroDelay] <;> infer_instance

/-- Fold a sequence of `scheduleCallback` calls over a state. -/
def runSchedules (cfg : SchedulerConfig) (calls : List ScheduleCall)
    (s : SchedulerState) : SchedulerState :=
  calls.foldl (fun s c => scheduleCallback cfg c.p c.cb c.delay s) s

/-- The ready queue in repeated remove-min order, each task shown as its
`(expirationTime, id)` pair. -/
def drainedTasks (s : SchedulerState) : List (Int × Nat) :=
  s.taskQueue.map fun p => ((findTask s.store p.2).expirationTime, p.2)

/-- The bookkeeping invariant of the ready queue: heap-sorted, every key
is its task's `expirationTime`, ids are below the counter and distinct. -/
def ReadyOrderInv (s : SchedulerState) : Prop :=
  List.Sorted keyLe s.taskQueue ∧
  (∀ p ∈ s.taskQueue, p.1 = (findTask s.store p.2).expirationTime) ∧
  (∀ p ∈ s.taskQueue, p.2 < s.taskIdCounter) ∧
  (s.taskQueue.map Prod.snd).Nodup

/-- The C1 demonstration calls: idle, immediate, normal, in that order. -/
def demoCalls : List ScheduleCall :=
  [⟨IdlePriority, cbDone, none⟩, ⟨ImmediatePriority, cbDone, none⟩,
   ⟨NormalPriority, cbDone, none⟩]


/-- The result of a `workLoop` drain (defaulting on fuel exhaustion,
which concrete witnesses never hit). -/
def wlRes (fuel : Nat) (ct : Int) (s : SchedulerState) : LoopRes :=
  (workLoop fuel ct s).getD ⟨s, [], .skipped, .ok false⟩

/-- A state whose delay queue holds one tombstoned task. -/
def timerTombState : SchedulerState :=
  { initialState [] with
      store := [(0, { callback := none, priorityLevel := NormalPriority,
                      startTime := 0, expirationTime := 100,
                      sortIndex := 0 })],
      timerQueue := [(0, 0)] }


/-- Monotone-clock assumption: the injected readings are non-decreasing
and never behind the last observed time. -/
def ClockOK (s : SchedulerState) : Prop :=
  List.Pairwise (· ≤ ·) s.clock ∧ ∀ t ∈ s.clock, s.lastTime ≤ t

/-- Every ready-queue task became eligible no later than the last observed
time. -/
def ReadyStartOK (s : SchedulerState) : Prop :=
  ∀ q ∈ s.taskQueue, (findTask s.store q.2).startTime ≤ s.lastTime

/-- Queue ids are below the id counter. -/
def CtrOK (s : SchedulerState) : Prop :=
  (∀ q ∈ s.taskQueue, q.2 < s.taskIdCounter) ∧
  (∀ q ∈ s.timerQueue, q.2 < s.taskIdCounter)

/-- The reachability invariant behind C6. -/
def ReachInv (s : SchedulerState) : Prop :=
  ClockOK s ∧ ReadyStartOK s ∧ CtrOK s

/-- A state holding one pending (non-tombstoned) delayed task whose start
time has passed: task 0 starts at 5, expires at 5005, sits in the delay
queue with `sortIndex = startTime`, and the clock reads 10. -/
def delayedPendingState : SchedulerState :=
  { initialState [10] with
      store := [(0, { callback := some cbDone, priorityLevel := NormalPriority,
                      startTime := 5, expirationTime := 5005, sortIndex := 5 })],
      timerQueue := [(5, 0)],
      taskIdCounter := 1 }

/-- A task body that returns a continuation (which then finishes). -/
def cbCont : Callback := .mk fun _ => .ok (some cbDone)

/-- In a list of invoked task ids, `a` is never hit strictly before `b`:
every entry before the first occurrence of `b` (or the whole list, if `b`
never occurs) differs from `a`. -/
def notBefore (a b : Nat) : List Nat → Prop
  | [] => True
  | x :: xs => x ≠ a ∧ (x = b ∨ notBefore a b xs)

/-- Fallback result used only to extract a total value from a fueled run. -/
def dummyLoopRes : LoopRes := ⟨initialState [], [], .drained, .ok false⟩

/-- A state with ready task 0 (deadline 5, body `cbCont`) and delayed
task 1 (start 50) pending in the delay queue; the clock reads 11. -/
def c7aState : SchedulerState :=
  { initialState [11] with
      store := [(0, { callback := some cbCont, priorityLevel := NormalPriority,
                      startTime := 0, expirationTime := 5, sortIndex := 5 }),
                (1, { callback := some cbDone, priorityLevel := NormalPriority,
                      startTime := 50, expirationTime := 5050, sortIndex := 50 })],
      taskQueue := [(5, 0)],
      timerQueue := [(50, 1)],
      taskIdCounter := 2 }

/-- The drain of `c7aState` at time 10: task 0 returns a continuation. -/
def c7aRes : LoopRes := (workLoopAux 3 10 c7aState).getD dummyLoopRes

/-- A state with two ready tasks: task 0 (deadline 5) ahead of task 1
(deadline 9); the clock tape is empty so in-loop reads return `lastTime`. -/
def c7bState : SchedulerState :=
  { initialState [] with
      store := [(0, { callback := some cbDone, priorityLevel := NormalPriority,
                      startTime := 0, expirationTime := 5, sortIndex := 5 }),
                (1, { callback := some cbDone, priorityLevel := NormalPriority,
                      startTime := 0, expirationTime := 9, sortIndex := 9 })],
      taskQueue := [(5, 0), (9, 1)],
      taskIdCounter := 2 }

/-- The full drain of `c7bState` at time 20. -/
def c7bRes : LoopRes := (workLoopAux 4 20 c7bState).getD dummyLoopRes

/-- A state with one ready task 0 far from its deadline (expires at 100,
body `cbCont`); the clock tape `[1, 5]` feeds the in-slice yield check and
the post-body refresh read. -/
def c7cState : SchedulerState :=
  { initialState [1, 5] with
      store := [(0, { callback := some cbCont, priorityLevel := NormalPriority,
                      startTime := 0, expirationTime := 100, sortIndex := 100 })],
      taskQueue := [(100, 0)],
      taskIdCounter := 1 }

/-- The drain of `c7cState` at time 0: the not-yet-overdue task 0 runs
with `didTimeout = false` and returns a continuation. -/
def c7cRes : LoopRes := (workLoopAux 3 0 c7cState).getD dummyLoopRes

/-- The next drain after `c7cRes`, at time 5 (the last clock reading). -/
def c7dRes : LoopRes := (workLoopAux 3 5 c7cRes.st).getD dummyLoopRes

/-! ## Field-preservation lemmas -/

@[simp] theorem dropTimerHead_store (s : SchedulerState) :
    (dropTimerHead s).store = s.store := rfl

@[simp] theorem dropTimerHead_taskQueue (s : SchedulerState) :
    (dropTimerHead s).taskQueue = s.taskQueue := rfl

@[simp] theorem dropTimerHead_taskIdCounter (s : SchedulerState) :
    (dropTimerHead s).taskIdCounter = s.taskIdCounter := rfl

@[simp] theorem promoteHead_taskIdCounter (tid : Nat) (exp : Int)
    (s : SchedulerState) : (promoteHead tid exp s).taskIdCounter = s.taskIdCounter := rfl

@[simp] theorem dropTimerHead_currentTask (s : SchedulerState) :
    (dropTimerHead s).currentTask = s.currentTask := rfl

@[simp] theorem promoteHead_currentTask (tid : Nat) (exp : Int)
    (s : SchedulerState) : (promoteHead tid exp s).currentTask = s.currentTask := rfl

@[simp] theorem dropTimerHead_currentPriorityLevel (s : SchedulerState) :
    (dropTimerHead s).currentPriorityLevel = s.currentPriorityLevel := rfl

@[simp] theorem promoteHead_currentPriorityLevel (tid : Nat) (exp : Int)
    (s : SchedulerState) : (promoteHead tid exp s).currentPriorityLevel = s.currentPriorityLevel := rfl

@[simp] theorem dropTimerHead_startTime (s : SchedulerState) :
    (dropTimerHead s).startTime = s.startTime := rfl

@[simp] theorem promoteHead_startTime (tid : Nat) (exp : Int)
    (s : SchedulerState) : (promoteHead tid exp s).startTime = s.startTime := rfl

@[simp] theorem dropTimerHead_frameInterval (s : SchedulerState) :
    (dropTimerHead s).frameInterval = s.frameInterval := rfl

@[simp] theorem promoteHead_frameInterval (tid : Nat) (exp : Int)
    (s : SchedulerState) : (promoteHead tid exp s).frameInterval = s.frameInterval := rfl

@[simp] theorem dropTimerHead_isPerformingWork (s : SchedulerState) :
    (dropTimerHead s).isPerformingWork = s.isPerformingWork := rfl

@[simp] theorem promoteHead_isPerformingWork (tid : Nat) (exp : Int)
    (s : SchedulerState) : (promoteHead tid exp s).isPerformingWork = s.isPerformingWork := rfl

@[simp] theorem dropTimerHead_isHostCallbackScheduled (s : SchedulerState) :
    (dropTimerHead s).isHostCallbackScheduled = s.isHostCallbackScheduled := rfl

@[simp] theorem promoteHead_isHostCallbackScheduled (tid : Nat) (exp : Int)
    (s : SchedulerState) : (promoteHead tid exp s).isHostCallbackScheduled = s.isHostCallbackScheduled := rfl

@[simp] theorem dropTimerHead_isMessageLoopRunning (s : SchedulerState) :
    (dropTimerHead s).isMessageLoopRunning = s.isMessageLoopRunning := rfl

@[simp] theorem promoteHead_isMessageLoopRunning (tid : Nat) (exp : Int)
    (s : SchedulerState) : (promoteHead tid exp s).isMessageLoopRunning = s.isMessageLoopRunning := rfl

@[simp] theorem dropTimerHead_isHostTimeoutScheduled (s : SchedulerState) :
    (dropTimerHead s).isHostTimeoutScheduled = s.isHostTimeoutScheduled := rfl

@[simp] theorem promoteHead_isHostTimeoutScheduled (tid : Nat) (exp : Int)
    (s : SchedulerState) : (promoteHead tid exp s).isHostTimeoutScheduled = s.isHostTimeoutScheduled := rfl

@[simp] theorem dropTimerHead_taskTimeoutID (s : SchedulerState) :
    (dropTimerHead s).taskTimeoutID = s.taskTimeoutID := rfl

@[simp] theorem promoteHead_taskTimeoutID (tid : Nat) (exp : Int)
    (s : SchedulerState) : (promoteHead tid exp s).taskTimeoutID = s.taskTimeoutID := rfl

@[simp] theorem dropTimerHead_nextTimeoutID (s : SchedulerState) :
    (dropTimerHead s).nextTimeoutID = s.nextTimeoutID := rfl

@[simp] theorem promoteHead_nextTimeoutID (tid : Nat) (exp : Int)
    (s : SchedulerState) : (promoteHead tid exp s).nextTimeoutID = s.nextTimeoutID := rfl

@[simp] theorem dropTimerHead_armedTimers (s : SchedulerState) :
    (dropTimerHead s).armedTimers = s.armedTimers := rfl

@[simp] theorem promoteHead_armedTimers (tid : Nat) (exp : Int)
    (s : SchedulerState) : (promoteHead tid exp s).armedTimers = s.armedTimers := rfl

@[simp] theorem dropTimerHead_postedMessages (s : SchedulerState) :
    (dropTimerHead s).postedMessages = s.postedMessages := rfl

@[simp] theorem promoteHead_postedMessages (tid : Nat) (exp : Int)
    (s : SchedulerState) : (promoteHead tid exp s).postedMessages = s.postedMessages := rfl

@[simp] theorem dropTimerHead_clock (s : SchedulerState) :
    (dropTimerHead s).clock = s.clock := rfl

@[simp] theorem promoteHead_clock (tid : Nat) (exp : Int)
    (s : SchedulerState) : (promoteHead tid exp s).clock = s.clock := rfl

@[simp] theorem dropTimerHead_lastTime (s : SchedulerState) :
    (dropTimerHead s).lastTime = s.lastTime := rfl

@[simp] theorem promoteHead_lastTime (tid : Nat) (exp : Int)
    (s : SchedulerState) : (promoteHead tid exp s).lastTime = s.lastTime := rfl

@[simp] theorem dropTimerHead_timerQueue (s : SchedulerState) :
    (dropTimerHead s).timerQueue = s.timerQueue.tail := rfl

@[simp] theorem promoteHead_timerQueue (tid : Nat) (exp : Int)
    (s : SchedulerState) :
    (promoteHead tid exp s).timerQueue = s.timerQueue.tail := rfl

@[simp] theorem promoteHead_taskQueue (tid : Nat) (exp : Int)
    (s : SchedulerState) :
    (promoteHead tid exp s).taskQueue =
      heapPush s.taskQueue (exp, tid) := rfl

@[simp] theorem promoteHead_store (tid : Nat) (exp : Int)
    (s : SchedulerState) :
    (promoteHead tid exp s).store =
      (setSortIndex (dropTimerHead s) tid exp).store := rfl



@[simp] theorem readClock_snd_store (s : SchedulerState) :
    ((readClock s).2).store = s.store := by cases h : s.clock <;> simp [readClock, h]

@[simp] theorem readClock_snd_taskQueue (s : SchedulerState) :
    ((readClock s).2).taskQueue = s.taskQueue := by cases h : s.clock <;> simp [readClock, h]

@[simp] theorem readClock_snd_timerQueue (s : SchedulerState) :
    ((readClock s).2).timerQueue = s.timerQueue := by cases h : s.clock <;> simp [readClock, h]

@[simp] theorem readClock_snd_taskIdCounter (s : SchedulerState) :
    ((readClock s).2).taskIdCounter = s.taskIdCounter := by cases h : s.clock <;> simp [readClock, h]

@[simp] theorem readClock_snd_currentTask (s : SchedulerState) :
    ((readClock s).2).currentTask = s.currentTask := by cases h : s.clock <;> simp [readClock, h]

@[simp] theorem readClock_snd_currentPriorityLevel (s : SchedulerState) :
    ((readClock s).2).currentPriorityLevel = s.currentPriorityLevel := by cases h : s.clock <;> simp [readClock, h]

@[simp] theorem readClock_snd_startTime (s : SchedulerState) :
    ((readClock s).2).startTime = s.startTime := by cases h : s.clock <;> simp [readClock, h]

@[simp] theorem readClock_snd_frameInterval (s : SchedulerState) :
    ((readClock s).2).frameInterval = s.frameInterval := by cases h : s.clock <;> simp [readClock, h]

@[simp] theorem readClock_snd_isPerformingWork (s : SchedulerState) :
    ((readClock s).2).isPerformingWork = s.isPerformingWork := by cases h : s.clock <;> simp [readClock, h]

@[simp] theorem readClock_snd_isHostCallbackScheduled (s : SchedulerState) :
    ((readClock s).2).isHostCallbackScheduled = s.isHostCallbackScheduled := by cases h : s.clock <;> simp [readClock, h]

@[simp] theorem readClock_snd_isMessageLoopRunning (s : SchedulerState) :
    ((readClock s).2).isMessageLoopRunning = s.isMessageLoopRunning := by cases h : s.clock <;> simp [readClock, h]

@[simp] theorem readClock_snd_isHostTimeoutScheduled (s : SchedulerState) :
    ((readClock s).2).isHostTimeoutScheduled = s.isHostTimeoutScheduled := by cases h : s.clock <;> simp [readClock, h]

@[simp] theorem readClock_snd_taskTimeoutID (s : SchedulerState) :
    ((readClock s).2).taskTimeoutID = s.taskTimeoutID := by cases h : s.clock <;> simp [readClock, h]

@[simp] theorem readClock_snd_nextTimeoutID (s : SchedulerState) :
    ((readClock s).2).nextTimeoutID = s.nextTimeoutID := by cases h : s.clock <;> simp [readClock, h]

@[simp] theorem readClock_snd_armedTimers (s : SchedulerState) :
    ((readClock s).2).armedTimers = s.armedTimers := by cases h : s.clock <;> simp [readClock, h]

@[simp] theorem readClock_snd_postedMessages (s : SchedulerState) :
    ((readClock s).2).postedMessages = s.postedMessages := by cases h : s.clock <;> simp [readClock, h]

@[simp] theorem requestHostCallback_store (s : SchedulerState) :
    (requestHostCallback s).store = s.store := by unfold requestHostCallback; split <;> rfl

@[simp] theorem requestHostCallback_taskQueue (s : SchedulerState) :
    (requestHostCallback s).taskQueue = s.taskQueue := by unfold requestHostCallback; split <;> rfl

@[simp] theorem requestHostCallback_timerQueue (s : SchedulerState) :
    (requestHostCallback s).timerQueue = s.timerQueue := by unfold requestHostCallback; split <;> rfl

@[simp] theorem requestHostCallback_taskIdCounter (s : SchedulerState) :
    (requestHostCallback s).taskIdCounter = s.taskIdCounter := by unfold requestHostCallback; split <;> rfl

@[simp] theorem requestHostCallback_currentTask (s : SchedulerState) :
    (requestHostCallback s).currentTask = s.currentTask := by unfold requestHostCallback; split <;> rfl

@[simp] theorem requestHostCallback_currentPriorityLevel (s : SchedulerState) :
    (requestHostCallback s).currentPriorityLevel = s.currentPriorityLevel := by unfold requestHostCallback; split <;> rfl

@[simp] theorem requestHostCallback_startTime (s : SchedulerState) :
    (requestHostCallback s).startTime = s.startTime := by unfold requestHostCallback; split <;> rfl

@[simp] theorem requestHostCallback_frameInterval (s : SchedulerState) :
    (requestHostCallback s).frameInterval = s.frameInterval := by unfold requestHostCallback; split <;> rfl

@[simp] theorem requestHostCallback_isPerformingWork (s : SchedulerState) :
    (requestHostCallback s).isPerformingWork = s.isPerformingWork := by unfold requestHostCallback; split <;> rfl

@[simp] theorem requestHostCallback_isHostCallbackScheduled (s : SchedulerState) :
    (requestHostCallback s).isHostCallbackScheduled = s.isHostCallbackScheduled := by unfold requestHostCallback; split <;> rfl

@[simp] theorem requestHostCallback_isHostTimeoutScheduled (s : SchedulerState) :
    (requestHostCallback s).isHostTimeoutScheduled = s.isHostTimeoutScheduled := by unfold requestHostCallback; split <;> rfl

@[simp] theorem requestHostCallback_taskTimeoutID (s : SchedulerState) :
    (requestHostCallback s).taskTimeoutID = s.taskTimeoutID := by unfold requestHostCallback; split <;> rfl

@[simp] theorem requestHostCallback_nextTimeoutID (s : SchedulerState) :
    (requestHostCallback s).nextTimeoutID = s.nextTimeoutID := by unfold requestHostCallback; split <;> rfl

@[simp] theorem requestHostCallback_armedTimers (s : SchedulerState) :
    (requestHostCallback s).armedTimers = s.armedTimers := by unfold requestHostCallback; split <;> rfl

@[simp] theorem requestHostCallback_clock (s : SchedulerState) :
    (requestHostCallback s).clock = s.clock := by unfold requestHostCallback; split <;> rfl

@[simp] theorem requestHostCallback_lastTime (s : SchedulerState) :
    (requestHostCallback s).lastTime = s.lastTime := by unfold requestHostCallback; split <;> rfl

@[simp] theorem requestHostTimeout_store (ms now : Int) (s : SchedulerState) :
    (requestHostTimeout ms now s).store = s.store := rfl

@[simp] theorem requestHostTimeout_taskQueue (ms now : Int) (s : SchedulerState) :
    (requestHostTimeout ms now s).taskQueue = s.taskQueue := rfl

@[simp] theorem requestHostTimeout_timerQueue (ms now : Int) (s : SchedulerState) :
    (requestHostTimeout ms now s).timerQueue = s.timerQueue := rfl

@[simp] theorem requestHostTimeout_taskIdCounter (ms now : Int) (s : SchedulerState) :
    (requestHostTimeout ms now s).taskIdCounter = s.taskIdCounter := rfl

@[simp] theorem requestHostTimeout_currentTask (ms now : Int) (s : SchedulerState) :
    (requestHostTimeout ms now s).currentTask = s.currentTask := rfl

@[simp] theorem requestHostTimeout_currentPriorityLevel (ms now : Int) (s : SchedulerState) :
    (requestHostTimeout ms now s).currentPriorityLevel = s.currentPriorityLevel := rfl

@[simp] theorem requestHostTimeout_startTime (ms now : Int) (s : SchedulerState) :
    (requestHostTimeout ms now s).startTime = s.startTime := rfl

@[simp] theorem requestHostTimeout_frameInterval (ms now : Int) (s : SchedulerState) :
    (requestHostTimeout ms now s).frameInterval = s.frameInterval := rfl

@[simp] theorem requestHostTimeout_isPerformingWork (ms now : Int) (s : SchedulerState) :
    (requestHostTimeout ms now s).isPerformingWork = s.isPerformingWork := rfl

@[simp] theorem requestHostTimeout_isHostCallbackScheduled (ms now : Int) (s : SchedulerState) :
    (requestHostTimeout ms now s).isHostCallbackScheduled = s.isHostCallbackScheduled := rfl

@[simp] theorem requestHostTimeout_isMessageLoopRunning (ms now : Int) (s : SchedulerState) :
    (requestHostTimeout ms now s).isMessageLoopRunning = s.isMessageLoopRunning := rfl

@[simp] theorem requestHostTimeout_isHostTimeoutScheduled (ms now : Int) (s : SchedulerState) :
    (requestHostTimeout ms now s).isHostTimeoutScheduled = s.isHostTimeoutScheduled := rfl

@[simp] theorem requestHostTimeout_postedMessages (ms now : Int) (s : SchedulerState) :
    (requestHostTimeout ms now s).postedMessages = s.postedMessages := rfl

@[simp] theorem requestHostTimeout_clock (ms now : Int) (s : SchedulerState) :
    (requestHostTimeout ms now s).clock = s.clock := rfl

@[simp] theorem requestHostTimeout_lastTime (ms now : Int) (s : SchedulerState) :
    (requestHostTimeout ms now s).lastTime = s.lastTime := rfl

@[simp] theorem cancelHostTimeout_store (s : SchedulerState) :
    (cancelHostTimeout s).store = s.store := rfl

@[simp] theorem cancelHostTimeout_taskQueue (s : SchedulerState) :
    (cancelHostTimeout s).taskQueue = s.taskQueue := rfl

@[simp] theorem cancelHostTimeout_timerQueue (s : SchedulerState) :
    (cancelHostTimeout s).timerQueue = s.timerQueue := rfl

@[simp] theorem cancelHostTimeout_taskIdCounter (s : SchedulerState) :
    (cancelHostTimeout s).taskIdCounter = s.taskIdCounter := rfl

@[simp] theorem cancelHostTimeout_currentTask (s : SchedulerState) :
    (cancelHostTimeout s).currentTask = s.currentTask := rfl

@[simp] theorem cancelHostTimeout_currentPriorityLevel (s : SchedulerState) :
    (cancelHostTimeout s).currentPriorityLevel = s.currentPriorityLevel := rfl

@[simp] theorem cancelHostTimeout_startTime (s : SchedulerState) :
    (cancelHostTimeout s).startTime = s.startTime := rfl

@[simp] theorem cancelHostTimeout_frameInterval (s : SchedulerState) :
    (cancelHostTimeout s).frameInterval = s.frameInterval := rfl

@[simp] theorem cancelHostTimeout_isPerformingWork (s : SchedulerState) :
    (cancelHostTimeout s).isPerformingWork = s.isPerformingWork := rfl

@[simp] theorem cancelHostTimeout_isHostCallbackScheduled (s : SchedulerState) :
    (cancelHostTimeout s).isHostCallbackScheduled = s.isHostCallbackScheduled := rfl

@[simp] theorem cancelHostTimeout_isMessageLoopRunning (s : SchedulerState) :
    (cancelHostTimeout s).isMessageLoopRunning = s.isMessageLoopRunning := rfl

@[simp] theorem cancelHostTimeout_isHostTimeoutScheduled (s : SchedulerState) :
    (cancelHostTimeout s).isHostTimeoutScheduled = s.isHostTimeoutScheduled := rfl

@[simp] theorem cancelHostTimeout_nextTimeoutID (s : SchedulerState) :
    (cancelHostTimeout s).nextTimeoutID = s.nextTimeoutID := rfl

@[simp] theorem cancelHostTimeout_postedMessages (s : SchedulerState) :
    (cancelHostTimeout s).postedMessages = s.postedMessages := rfl

@[simp] theorem cancelHostTimeout_clock (s : SchedulerState) :
    (cancelHostTimeout s).clock = s.clock := rfl

@[simp] theorem cancelHostTimeout_lastTime (s : SchedulerState) :
    (cancelHostTimeout s).lastTime = s.lastTime := rfl

@[simp] theorem setCallback_taskQueue (s : SchedulerState) (tid : Nat)
    (cb : Option Callback) : (setCallback s tid cb).taskQueue = s.taskQueue := rfl

@[simp] theorem setSortIndex_taskQueue (s : SchedulerState) (tid : Nat)
    (v : Int) : (setSortIndex s tid v).taskQueue = s.taskQueue := rfl

@[simp] theorem setCallback_timerQueue (s : SchedulerState) (tid : Nat)
    (cb : Option Callback) : (setCallback s tid cb).timerQueue = s.timerQueue := rfl

@[simp] theorem setSortIndex_timerQueue (s : SchedulerState) (tid : Nat)
    (v : Int) : (setSortIndex s tid v).timerQueue = s.timerQueue := rfl

@[simp] theorem setCallback_taskIdCounter (s : SchedulerState) (tid : Nat)
    (cb : Option Callback) : (setCallback s tid cb).taskIdCounter = s.taskIdCounter := rfl

@[simp] theorem setSortIndex_taskIdCounter (s : SchedulerState) (tid : Nat)
    (v : Int) : (setSortIndex s tid v).taskIdCounter = s.taskIdCounter := rfl

@[simp] theorem setCallback_currentTask (s : SchedulerState) (tid : Nat)
    (cb : Option Callback) : (setCallback s tid cb).currentTask = s.currentTask := rfl

@[simp] theorem setSortIndex_currentTask (s : SchedulerState) (tid : Nat)
    (v : Int) : (setSortIndex s tid v).currentTask = s.currentTask := rfl

@[simp] theorem setCallback_currentPriorityLevel (s : SchedulerState) (tid : Nat)
    (cb : Option Callback) : (setCallback s tid cb).currentPriorityLevel = s.currentPriorityLevel := rfl

@[simp] theorem setSortIndex_currentPriorityLevel (s : SchedulerState) (tid : Nat)
    (v : Int) : (setSortIndex s tid v).currentPriorityLevel = s.currentPriorityLevel := rfl

@[simp] theorem setCallback_startTime (s : SchedulerState) (tid : Nat)
    (cb : Option Callback) : (setCallback s tid cb).startTime = s.startTime := rfl

@[simp] theorem setSortIndex_startTime (s : SchedulerState) (tid : Nat)
    (v : Int) : (setSortIndex s tid v).startTime = s.startTime := rfl

@[simp] theorem setCallback_frameInterval (s : SchedulerState) (tid : Nat)
    (cb : Option Callback) : (setCallback s tid cb).frameInterval = s.frameInterval := rfl

@[simp] theorem setSortIndex_frameInterval (s : SchedulerState) (tid : Nat)
    (v : Int) : (setSortIndex s tid v).frameInterval = s.frameInterval := rfl

@[simp] theorem setCallback_isPerformingWork (s : SchedulerState) (tid : Nat)
    (cb : Option Callback) : (setCallback s tid cb).isPerformingWork = s.isPerformingWork := rfl

@[simp] theorem setSortIndex_isPerformingWork (s : SchedulerState) (tid : Nat)
    (v : Int) : (setSortIndex s tid v).isPerformingWork = s.isPerformingWork := rfl

@[simp] theorem setCallback_isHostCallbackScheduled (s : SchedulerState) (tid : Nat)
    (cb : Option Callback) : (setCallback s tid cb).isHostCallbackScheduled = s.isHostCallbackScheduled := rfl

@[simp] theorem setSortIndex_isHostCallbackScheduled (s : SchedulerState) (tid : Nat)
    (v : Int) : (setSortIndex s tid v).isHostCallbackScheduled = s.isHostCallbackScheduled := rfl

@[simp] theorem setCallback_isMessageLoopRunning (s : SchedulerState) (tid : Nat)
    (cb : Option Callback) : (setCallback s tid cb).isMessageLoopRunning = s.isMessageLoopRunning := rfl

@[simp] theorem setSortIndex_isMessageLoopRunning (s : SchedulerState) (tid : Nat)
    (v : Int) : (setSortIndex s tid v).isMessageLoopRunning = s.isMessageLoopRunning := rfl

@[simp] theorem setCallback_isHostTimeoutScheduled (s : SchedulerState) (tid : Nat)
    (cb : Option Callback) : (setCallback s tid cb).isHostTimeoutScheduled = s.isHostTimeoutScheduled := rfl

@[simp] theorem setSortIndex_isHostTimeoutScheduled (s : SchedulerState) (tid : Nat)
    (v : Int) : (setSortIndex s tid v).isHostTimeoutScheduled = s.isHostTimeoutScheduled := rfl

@[simp] theorem setCallback_taskTimeoutID (s : SchedulerState) (tid : Nat)
    (cb : Option Callback) : (setCallback s tid cb).taskTimeoutID = s.taskTimeoutID := rfl

@[simp] theorem setSortIndex_taskTimeoutID (s : SchedulerState) (tid : Nat)
    (v : Int) : (setSortIndex s tid v).taskTimeoutID = s.taskTimeoutID := rfl

@[simp] theorem setCallback_nextTimeoutID (s : SchedulerState) (tid : Nat)
    (cb : Option Callback) : (setCallback s tid cb).nextTimeoutID = s.nextTimeoutID := rfl

@[simp] theorem setSortIndex_nextTimeoutID (s : SchedulerState) (tid : Nat)
    (v : Int) : (setSortIndex s tid v).nextTimeoutID = s.nextTimeoutID := rfl

@[simp] theorem setCallback_armedTimers (s : SchedulerState) (tid : Nat)
    (cb : Option Callback) : (setCallback s tid cb).armedTimers = s.armedTimers := rfl

@[simp] theorem setSortIndex_armedTimers (s : SchedulerState) (tid : Nat)
    (v : Int) : (setSortIndex s tid v).armedTimers = s.armedTimers := rfl

@[simp] theorem setCallback_postedMessages (s : SchedulerState) (tid : Nat)
    (cb : Option Callback) : (setCallback s tid cb).postedMessages = s.postedMessages := rfl

@[simp] theorem setSortIndex_postedMessages (s : SchedulerState) (tid : Nat)
    (v : Int) : (setSortIndex s tid v).postedMessages = s.postedMessages := rfl

@[simp] theorem setCallback_clock (s : SchedulerState) (tid : Nat)
    (cb : Option Callback) : (setCallback s tid cb).clock = s.clock := rfl

@[simp] theorem setSortIndex_clock (s : SchedulerState) (tid : Nat)
    (v : Int) : (setSortIndex s tid v).clock = s.clock := rfl

@[simp] theorem setCallback_lastTime (s : SchedulerState) (tid : Nat)
    (cb : Option Callback) : (setCallback s tid cb).lastTime = s.lastTime := rfl

@[simp] theorem setSortIndex_lastTime (s : SchedulerState) (tid : Nat)
    (v : Int) : (setSortIndex s tid v).lastTime = s.lastTime := rfl

@[simp] theorem advanceTimersAux_taskIdCounter (n : Nat) (ct : Int)
    (s : SchedulerState) : (advanceTimersAux n ct s).taskIdCounter = s.taskIdCounter := by
  induction n generalizing s with
  | zero => rfl
  | succ n ih =>
    rw [advanceTimersAux]
    rcases h : s.timerQueue with _ | ⟨⟨k, tid⟩, rest⟩
    · rfl
    · rcases hc : (findTask s.store tid).callback with _ | cb
      · simp [hc, ih]
      · by_cases ht : (findTask s.store tid).startTime ≤ ct <;>
          simp [hc, ht, ih]

@[simp] theorem advanceTimers_taskIdCounter (ct : Int) (s : SchedulerState) :
    (advanceTimers ct s).taskIdCounter = s.taskIdCounter := by
  unfold advanceTimers; simp

@[simp] theorem advanceTimersAux_currentTask (n : Nat) (ct : Int)
    (s : SchedulerState) : (advanceTimersAux n ct s).currentTask = s.currentTask := by
  induction n generalizing s with
  | zero => rfl
  | succ n ih =>
    rw [advanceTimersAux]
    rcases h : s.timerQueue with _ | ⟨⟨k, tid⟩, rest⟩
    · rfl
    · rcases hc : (findTask s.store tid).callback with _ | cb
      · simp [hc, ih]
      · by_cases ht : (findTask s.store tid).startTime ≤ ct <;>
          simp [hc, ht, ih]

@[simp] theorem advanceTimers_currentTask (ct : Int) (s : SchedulerState) :
    (advanceTimers ct s).currentTask = s.currentTask := by
  unfold advanceTimers; simp

@[simp] theorem advanceTimersAux_currentPriorityLevel (n : Nat) (ct : Int)
    (s : SchedulerState) : (advanceTimersAux n ct s).currentPriorityLevel = s.currentPriorityLevel := by
  induction n generalizing s with
  | zero => rfl
  | succ n ih =>
    rw [advanceTimersAux]
    rcases h : s.timerQueue with _ | ⟨⟨k, tid⟩, rest⟩
    · rfl
    · rcases hc : (findTask s.store tid).callback with _ | cb
      · simp [hc, ih]
      · by_cases ht : (findTask s.store tid).startTime ≤ ct <;>
          simp [hc, ht, ih]

@[simp] theorem advanceTimers_currentPriorityLevel (ct : Int) (s : SchedulerState) :
    (advanceTimers ct s).currentPriorityLevel = s.currentPriorityLevel := by
  unfold advanceTimers; simp

@[simp] theorem advanceTimersAux_startTime (n : Nat) (ct : Int)
    (s : SchedulerState) : (advanceTimersAux n ct s).startTime = s.startTime := by
  induction n generalizing s with
  | zero => rfl
  | succ n ih =>
    rw [advanceTimersAux]
    rcases h : s.timerQueue with _ | ⟨⟨k, tid⟩, rest⟩
    · rfl
    · rcases hc : (findTask s.store tid).callback with _ | cb
      · simp [hc, ih]
      · by_cases ht : (findTask s.store tid).startTime ≤ ct <;>
          simp [hc, ht, ih]

@[simp] theorem advanceTimers_startTime (ct : Int) (s : SchedulerState) :
    (advanceTimers ct s).startTime = s.startTime := by
  unfold advanceTimers; simp

@[simp] theorem advanceTimersAux_frameInterval (n : Nat) (ct : Int)
    (s : SchedulerState) : (advanceTimersAux n ct s).frameInterval = s.frameInterval := by
  induction n generalizing s with
  | zero => rfl
  | succ n ih =>
    rw [advanceTimersAux]
    rcases h : s.timerQueue with _ | ⟨⟨k, tid⟩, rest⟩
    · rfl
    · rcases hc : (findTask s.store tid).callback with _ | cb
      · simp [hc, ih]
      · by_cases ht : (findTask s.store tid).startTime ≤ ct <;>
          simp [hc, ht, ih]

@[simp] theorem advanceTimers_frameInterval (ct : Int) (s : SchedulerState) :
    (advanceTimers ct s).frameInterval = s.frameInterval := by
  unfold advanceTimers; simp

@[simp] theorem advanceTimersAux_isPerformingWork (n : Nat) (ct : Int)
    (s : SchedulerState) : (advanceTimersAux n ct s).isPerformingWork = s.isPerformingWork := by
  induction n generalizing s with
  | zero => rfl
  | succ n ih =>
    rw [advanceTimersAux]
    rcases h : s.timerQueue with _ | ⟨⟨k, tid⟩, rest⟩
    · rfl
    · rcases hc : (findTask s.store tid).callback with _ | cb
      · simp [hc, ih]
      · by_cases ht : (findTask s.store tid).startTime ≤ ct <;>
          simp [hc, ht, ih]

@[simp] theorem advanceTimers_isPerformingWork (ct : Int) (s : SchedulerState) :
    (advanceTimers ct s).isPerformingWork = s.isPerformingWork := by
  unfold advanceTimers; simp

@[simp] theorem advanceTimersAux_isHostCallbackScheduled (n : Nat) (ct : Int)
    (s : SchedulerState) : (advanceTimersAux n ct s).isHostCallbackScheduled = s.isHostCallbackScheduled := by
  induction n generalizing s with
  | zero => rfl
  | succ n ih =>
    rw [advanceTimersAux]
    rcases h : s.timerQueue with _ | ⟨⟨k, tid⟩, rest⟩
    · rfl
    · rcases hc : (findTask s.store tid).callback with _ | cb
      · simp [hc, ih]
      · by_cases ht : (findTask s.store tid).startTime ≤ ct <;>
          simp [hc, ht, ih]

@[simp] theorem advanceTimers_isHostCallbackScheduled (ct : Int) (s : SchedulerState) :
    (advanceTimers ct s).isHostCallbackScheduled = s.isHostCallbackScheduled := by
  unfold advanceTimers; simp

@[simp] theorem advanceTimersAux_isMessageLoopRunning (n : Nat) (ct : Int)
    (s : SchedulerState) : (advanceTimersAux n ct s).isMessageLoopRunning = s.isMessageLoopRunning := by
  induction n generalizing s with
  | zero => rfl
  | succ n ih =>
    rw [advanceTimersAux]
    rcases h : s.timerQueue with _ | ⟨⟨k, tid⟩, rest⟩
    · rfl
    · rcases hc : (findTask s.store tid).callback with _ | cb
      · simp [hc, ih]
      · by_cases ht : (findTask s.store tid).startTime ≤ ct <;>
          simp [hc, ht, ih]

@[simp] theorem advanceTimers_isMessageLoopRunning (ct : Int) (s : SchedulerState) :
    (advanceTimers ct s).isMessageLoopRunning = s.isMessageLoopRunning := by
  unfold advanceTimers; simp

@[simp] theorem advanceTimersAux_isHostTimeoutScheduled (n : Nat) (ct : Int)
    (s : SchedulerState) : (advanceTimersAux n ct s).isHostTimeoutScheduled = s.isHostTimeoutScheduled := by
  induction n generalizing s with
  | zero => rfl
  | succ n ih =>
    rw [advanceTimersAux]
    rcases h : s.timerQueue with _ | ⟨⟨k, tid⟩, rest⟩
    · rfl
    · rcases hc : (findTask s.store tid).callback with _ | cb
      · simp [hc, ih]
      · by_cases ht : (findTask s.store tid).startTime ≤ ct <;>
          simp [hc, ht, ih]

@[simp] theorem advanceTimers_isHostTimeoutScheduled (ct : Int) (s : SchedulerState) :
    (advanceTimers ct s).isHostTimeoutScheduled = s.isHostTimeoutScheduled := by
  unfold advanceTimers; simp

@[simp] theorem advanceTimersAux_taskTimeoutID (n : Nat) (ct : Int)
    (s : SchedulerState) : (advanceTimersAux n ct s).taskTimeoutID = s.taskTimeoutID := by
  induction n generalizing s with
  | zero => rfl
  | succ n ih =>
    rw [advanceTimersAux]
    rcases h : s.timerQueue with _ | ⟨⟨k, tid⟩, rest⟩
    · rfl
    · rcases hc : (findTask s.store tid).callback with _ | cb
      · simp [hc, ih]
      · by_cases ht : (findTask s.store tid).startTime ≤ ct <;>
          simp [hc, ht, ih]

@[simp] theorem advanceTimers_taskTimeoutID (ct : Int) (s : SchedulerState) :
    (advanceTimers ct s).taskTimeoutID = s.taskTimeoutID := by
  unfold advanceTimers; simp

@[simp] theorem advanceTimersAux_nextTimeoutID (n : Nat) (ct : Int)
    (s : SchedulerState) : (advanceTimersAux n ct s).nextTimeoutID = s.nextTimeoutID := by
  induction n generalizing s with
  | zero => rfl
  | succ n ih =>
    rw [advanceTimersAux]
    rcases h : s.timerQueue with _ | ⟨⟨k, tid⟩, rest⟩
    · rfl
    · rcases hc : (findTask s.store tid).callback with _ | cb
      · simp [hc, ih]
      · by_cases ht : (findTask s.store tid).startTime ≤ ct <;>
          simp [hc, ht, ih]

@[simp] theorem advanceTimers_nextTimeoutID (ct : Int) (s : SchedulerState) :
    (advanceTimers ct s).nextTimeoutID = s.nextTimeoutID := by
  unfold advanceTimers; simp

@[simp] theorem advanceTimersAux_armedTimers (n : Nat) (ct : Int)
    (s : SchedulerState) : (advanceTimersAux n ct s).armedTimers = s.armedTimers := by
  induction n generalizing s with
  | zero => rfl
  | succ n ih =>
    rw [advanceTimersAux]
    rcases h : s.timerQueue with _ | ⟨⟨k, tid⟩, rest⟩
    · rfl
    · rcases hc : (findTask s.store tid).callback with _ | cb
      · simp [hc, ih]
      · by_cases ht : (findTask s.store tid).startTime ≤ ct <;>
          simp [hc, ht, ih]

@[simp] theorem advanceTimers_armedTimers (ct : Int) (s : SchedulerState) :
    (advanceTimers ct s).armedTimers = s.armedTimers := by
  unfold advanceTimers; simp

@[simp] theorem advanceTimersAux_postedMessages (n : Nat) (ct : Int)
    (s : SchedulerState) : (advanceTimersAux n ct s).postedMessages = s.postedMessages := by
  induction n generalizing s with
  | zero => rfl
  | succ n ih =>
    rw [advanceTimersAux]
    rcases h : s.timerQueue with _ | ⟨⟨k, tid⟩, rest⟩
    · rfl
    · rcases hc : (findTask s.store tid).callback with _ | cb
      · simp [hc, ih]
      · by_cases ht : (findTask s.store tid).startTime ≤ ct <;>
          simp [hc, ht, ih]

@[simp] theorem advanceTimers_postedMessages (ct : Int) (s : SchedulerState) :
    (advanceTimers ct s).postedMessages = s.postedMessages := by
  unfold advanceTimers; simp

@[simp] theorem advanceTimersAux_clock (n : Nat) (ct : Int)
    (s : SchedulerState) : (advanceTimersAux n ct s).clock = s.clock := by
  induction n generalizing s with
  | zero => rfl
  | succ n ih =>
    rw [advanceTimersAux]
    rcases h : s.timerQueue with _ | ⟨⟨k, tid⟩, rest⟩
    · rfl
    · rcases hc : (findTask s.store tid).callback with _ | cb
      · simp [hc, ih]
      · by_cases ht : (findTask s.store tid).startTime ≤ ct <;>
          simp [hc, ht, ih]

@[simp] theorem advanceTimers_clock (ct : Int) (s : SchedulerState) :
    (advanceTimers ct s).clock = s.clock := by
  unfold advanceTimers; simp

@[simp] theorem advanceTimersAux_lastTime (n : Nat) (ct : Int)
    (s : SchedulerState) : (advanceTimersAux n ct s).lastTime = s.lastTime := by
  induction n generalizing s with
  | zero => rfl
  | succ n ih =>
    rw [advanceTimersAux]
    rcases h : s.timerQueue with _ | ⟨⟨k, tid⟩, rest⟩
    · rfl
    · rcases hc : (findTask s.store tid).callback with _ | cb
      · simp [hc, ih]
      · by_cases ht : (findTask s.store tid).startTime ≤ ct <;>
          simp [hc, ht, ih]

@[simp] theorem advanceTimers_lastTime (ct : Int) (s : SchedulerState) :
    (advanceTimers ct s).lastTime = s.lastTime := by
  unfold advanceTimers; simp

@[simp] theorem shouldYieldToHost_snd (s : SchedulerState) :
    (shouldYieldToHost s).2 = (readClock s).2 := by
  cases h : s.clock <;> simp [shouldYieldToHost, readClock, h]

@[simp] theorem setCurrentTask_store (s : SchedulerState) (o : Option Nat) :
    (setCurrentTask s o).store = s.store := rfl

@[simp] theorem setCurrentPriority_store (s : SchedulerState) (p : Nat) :
    (setCurrentPriority s p).store = s.store := rfl

@[simp] theorem popHead_store (s : SchedulerState) :
    (popHead s).store = s.store := rfl

@[simp] theorem yieldCheck_snd_store (ct : Int) (t : TaskData)
    (s : SchedulerState) : (yieldCheck ct t s).2.store = s.store := by
  unfold yieldCheck; split <;> simp

@[simp] theorem drainedExit_st_store (ct : Int) (s : SchedulerState) :
    (drainedExit ct s).st.store = s.store := by
  rcases h : s.timerQueue with _ | ⟨⟨a, b⟩, c⟩ <;> simp [drainedExit, h]

@[simp] theorem setCurrentTask_taskQueue (s : SchedulerState) (o : Option Nat) :
    (setCurrentTask s o).taskQueue = s.taskQueue := rfl

@[simp] theorem setCurrentPriority_taskQueue (s : SchedulerState) (p : Nat) :
    (setCurrentPriority s p).taskQueue = s.taskQueue := rfl

@[simp] theorem yieldCheck_snd_taskQueue (ct : Int) (t : TaskData)
    (s : SchedulerState) : (yieldCheck ct t s).2.taskQueue = s.taskQueue := by
  unfold yieldCheck; split <;> simp

@[simp] theorem drainedExit_st_taskQueue (ct : Int) (s : SchedulerState) :
    (drainedExit ct s).st.taskQueue = s.taskQueue := by
  rcases h : s.timerQueue with _ | ⟨⟨a, b⟩, c⟩ <;> simp [drainedExit, h]

@[simp] theorem setCurrentTask_timerQueue (s : SchedulerState) (o : Option Nat) :
    (setCurrentTask s o).timerQueue = s.timerQueue := rfl

@[simp] theorem setCurrentPriority_timerQueue (s : SchedulerState) (p : Nat) :
    (setCurrentPriority s p).timerQueue = s.timerQueue := rfl

@[simp] theorem popHead_timerQueue (s : SchedulerState) :
    (popHead s).timerQueue = s.timerQueue := rfl

@[simp] theorem yieldCheck_snd_timerQueue (ct : Int) (t : TaskData)
    (s : SchedulerState) : (yieldCheck ct t s).2.timerQueue = s.timerQueue := by
  unfold yieldCheck; split <;> simp

@[simp] theorem drainedExit_st_timerQueue (ct : Int) (s : SchedulerState) :
    (drainedExit ct s).st.timerQueue = s.timerQueue := by
  rcases h : s.timerQueue with _ | ⟨⟨a, b⟩, c⟩ <;> simp [drainedExit, h]

@[simp] theorem setCurrentTask_taskIdCounter (s : SchedulerState) (o : Option Nat) :
    (setCurrentTask s o).taskIdCounter = s.taskIdCounter := rfl

@[simp] theorem setCurrentPriority_taskIdCounter (s : SchedulerState) (p : Nat) :
    (setCurrentPriority s p).taskIdCounter = s.taskIdCounter := rfl

@[simp] theorem popHead_taskIdCounter (s : SchedulerState) :
    (popHead s).taskIdCounter = s.taskIdCounter := rfl

@[simp] theorem yieldCheck_snd_taskIdCounter (ct : Int) (t : TaskData)
    (s : SchedulerState) : (yieldCheck ct t s).2.taskIdCounter = s.taskIdCounter := by
  unfold yieldCheck; split <;> simp

@[simp] theorem runBodyDone_taskIdCounter (ct2 : Int) (tid : Nat)
    (s : SchedulerState) : (runBodyDone ct2 tid s).taskIdCounter = s.taskIdCounter := by
  unfold runBodyDone; split <;> simp

@[simp] theorem drainedExit_st_taskIdCounter (ct : Int) (s : SchedulerState) :
    (drainedExit ct s).st.taskIdCounter = s.taskIdCounter := by
  rcases h : s.timerQueue with _ | ⟨⟨a, b⟩, c⟩ <;> simp [drainedExit, h]

@[simp] theorem setCurrentPriority_currentTask (s : SchedulerState) (p : Nat) :
    (setCurrentPriority s p).currentTask = s.currentTask := rfl

@[simp] theorem popHead_currentTask (s : SchedulerState) :
    (popHead s).currentTask = s.currentTask := rfl

@[simp] theorem yieldCheck_snd_currentTask (ct : Int) (t : TaskData)
    (s : SchedulerState) : (yieldCheck ct t s).2.currentTask = s.currentTask := by
  unfold yieldCheck; split <;> simp

@[simp] theorem runBodyDone_currentTask (ct2 : Int) (tid : Nat)
    (s : SchedulerState) : (runBodyDone ct2 tid s).currentTask = s.currentTask := by
  unfold runBodyDone; split <;> simp

@[simp] theorem drainedExit_st_currentTask (ct : Int) (s : SchedulerState) :
    (drainedExit ct s).st.currentTask = s.currentTask := by
  rcases h : s.timerQueue with _ | ⟨⟨a, b⟩, c⟩ <;> simp [drainedExit, h]

@[simp] theorem setCurrentTask_currentPriorityLevel (s : SchedulerState) (o : Option Nat) :
    (setCurrentTask s o).currentPriorityLevel = s.currentPriorityLevel := rfl

@[simp] theorem popHead_currentPriorityLevel (s : SchedulerState) :
    (popHead s).currentPriorityLevel = s.currentPriorityLevel := rfl

@[simp] theorem yieldCheck_snd_currentPriorityLevel (ct : Int) (t : TaskData)
    (s : SchedulerState) : (yieldCheck ct t s).2.currentPriorityLevel = s.currentPriorityLevel := by
  unfold yieldCheck; split <;> simp

@[simp] theorem runBodyDone_currentPriorityLevel (ct2 : Int) (tid : Nat)
    (s : SchedulerState) : (runBodyDone ct2 tid s).currentPriorityLevel = s.currentPriorityLevel := by
  unfold runBodyDone; split <;> simp

@[simp] theorem drainedExit_st_currentPriorityLevel (ct : Int) (s : SchedulerState) :
    (drainedExit ct s).st.currentPriorityLevel = s.currentPriorityLevel := by
  rcases h : s.timerQueue with _ | ⟨⟨a, b⟩, c⟩ <;> simp [drainedExit, h]

@[simp] theorem setCurrentTask_startTime (s : SchedulerState) (o : Option Nat) :
    (setCurrentTask s o).startTime = s.startTime := rfl

@[simp] theorem setCurrentPriority_startTime (s : SchedulerState) (p : Nat) :
    (setCurrentPriority s p).startTime = s.startTime := rfl

@[simp] theorem popHead_startTime (s : SchedulerState) :
    (popHead s).startTime = s.startTime := rfl

@[simp] theorem yieldCheck_snd_startTime (ct : Int) (t : TaskData)
    (s : SchedulerState) : (yieldCheck ct t s).2.startTime = s.startTime := by
  unfold yieldCheck; split <;> simp

@[simp] theorem runBodyDone_startTime (ct2 : Int) (tid : Nat)
    (s : SchedulerState) : (runBodyDone ct2 tid s).startTime = s.startTime := by
  unfold runBodyDone; split <;> simp

@[simp] theorem drainedExit_st_startTime (ct : Int) (s : SchedulerState) :
    (drainedExit ct s).st.startTime = s.startTime := by
  rcases h : s.timerQueue with _ | ⟨⟨a, b⟩, c⟩ <;> simp [drainedExit, h]

@[simp] theorem setCurrentTask_frameInterval (s : SchedulerState) (o : Option Nat) :
    (setCurrentTask s o).frameInterval = s.frameInterval := rfl

@[simp] theorem setCurrentPriority_frameInterval (s : SchedulerState) (p : Nat) :
    (setCurrentPriority s p).frameInterval = s.frameInterval := rfl

@[simp] theorem popHead_frameInterval (s : SchedulerState) :
    (popHead s).frameInterval = s.frameInterval := rfl

@[simp] theorem yieldCheck_snd_frameInterval (ct : Int) (t : TaskData)
    (s : SchedulerState) : (yieldCheck ct t s).2.frameInterval = s.frameInterval := by
  unfold yieldCheck; split <;> simp

@[simp] theorem runBodyDone_frameInterval (ct2 : Int) (tid : Nat)
    (s : SchedulerState) : (runBodyDone ct2 tid s).frameInterval = s.frameInterval := by
  unfold runBodyDone; split <;> simp

@[simp] theorem drainedExit_st_frameInterval (ct : Int) (s : SchedulerState) :
    (drainedExit ct s).st.frameInterval = s.frameInterval := by
  rcases h : s.timerQueue with _ | ⟨⟨a, b⟩, c⟩ <;> simp [drainedExit, h]

@[simp] theorem setCurrentTask_isPerformingWork (s : SchedulerState) (o : Option Nat) :
    (setCurrentTask s o).isPerformingWork = s.isPerformingWork := rfl

@[simp] theorem setCurrentPriority_isPerformingWork (s : SchedulerState) (p : Nat) :
    (setCurrentPriority s p).isPerformingWork = s.isPerformingWork := rfl

@[simp] theorem popHead_isPerformingWork (s : SchedulerState) :
    (popHead s).isPerformingWork = s.isPerformingWork := rfl

@[simp] theorem yieldCheck_snd_isPerformingWork (ct : Int) (t : TaskData)
    (s : SchedulerState) : (yieldCheck ct t s).2.isPerformingWork = s.isPerformingWork := by
  unfold yieldCheck; split <;> simp

@[simp] theorem runBodyDone_isPerformingWork (ct2 : Int) (tid : Nat)
    (s : SchedulerState) : (runBodyDone ct2 tid s).isPerformingWork = s.isPerformingWork := by
  unfold runBodyDone; split <;> simp

@[simp] theorem drainedExit_st_isPerformingWork (ct : Int) (s : SchedulerState) :
    (drainedExit ct s).st.isPerformingWork = s.isPerformingWork := by
  rcases h : s.timerQueue with _ | ⟨⟨a, b⟩, c⟩ <;> simp [drainedExit, h]

@[simp] theorem setCurrentTask_isHostCallbackScheduled (s : SchedulerState) (o : Option Nat) :
    (setCurrentTask s o).isHostCallbackScheduled = s.isHostCallbackScheduled := rfl

@[simp] theorem setCurrentPriority_isHostCallbackScheduled (s : SchedulerState) (p : Nat) :
    (setCurrentPriority s p).isHostCallbackScheduled = s.isHostCallbackScheduled := rfl

@[simp] theorem popHead_isHostCallbackScheduled (s : SchedulerState) :
    (popHead s).isHostCallbackScheduled = s.isHostCallbackScheduled := rfl

@[simp] theorem yieldCheck_snd_isHostCallbackScheduled (ct : Int) (t : TaskData)
    (s : SchedulerState) : (yieldCheck ct t s).2.isHostCallbackScheduled = s.isHostCallbackScheduled := by
  unfold yieldCheck; split <;> simp

@[simp] theorem runBodyDone_isHostCallbackScheduled (ct2 : Int) (tid : Nat)
    (s : SchedulerState) : (runBodyDone ct2 tid s).isHostCallbackScheduled = s.isHostCallbackScheduled := by
  unfold runBodyDone; split <;> simp

@[simp] theorem drainedExit_st_isHostCallbackScheduled (ct : Int) (s : SchedulerState) :
    (drainedExit ct s).st.isHostCallbackScheduled = s.isHostCallbackScheduled := by
  rcases h : s.timerQueue with _ | ⟨⟨a, b⟩, c⟩ <;> simp [drainedExit, h]

@[simp] theorem setCurrentTask_isMessageLoopRunning (s : SchedulerState) (o : Option Nat) :
    (setCurrentTask s o).isMessageLoopRunning = s.isMessageLoopRunning := rfl

@[simp] theorem setCurrentPriority_isMessageLoopRunning (s : SchedulerState) (p : Nat) :
    (setCurrentPriority s p).isMessageLoopRunning = s.isMessageLoopRunning := rfl

@[simp] theorem popHead_isMessageLoopRunning (s : SchedulerState) :
    (popHead s).isMessageLoopRunning = s.isMessageLoopRunning := rfl

@[simp] theorem yieldCheck_snd_isMessageLoopRunning (ct : Int) (t : TaskData)
    (s : SchedulerState) : (yieldCheck ct t s).2.isMessageLoopRunning = s.isMessageLoopRunning := by
  unfold yieldCheck; split <;> simp

@[simp] theorem runBodyDone_isMessageLoopRunning (ct2 : Int) (tid : Nat)
    (s : SchedulerState) : (runBodyDone ct2 tid s).isMessageLoopRunning = s.isMessageLoopRunning := by
  unfold runBodyDone; split <;> simp

@[simp] theorem drainedExit_st_isMessageLoopRunning (ct : Int) (s : SchedulerState) :
    (drainedExit ct s).st.isMessageLoopRunning = s.isMessageLoopRunning := by
  rcases h : s.timerQueue with _ | ⟨⟨a, b⟩, c⟩ <;> simp [drainedExit, h]

@[simp] theorem setCurrentTask_isHostTimeoutScheduled (s : SchedulerState) (o : Option Nat) :
    (setCurrentTask s o).isHostTimeoutScheduled = s.isHostTimeoutScheduled := rfl

@[simp] theorem setCurrentPriority_isHostTimeoutScheduled (s : SchedulerState) (p : Nat) :
    (setCurrentPriority s p).isHostTimeoutScheduled = s.isHostTimeoutScheduled := rfl

@[simp] theorem popHead_isHostTimeoutScheduled (s : SchedulerState) :
    (popHead s).isHostTimeoutScheduled = s.isHostTimeoutScheduled := rfl

@[simp] theorem yieldCheck_snd_isHostTimeoutScheduled (ct : Int) (t : TaskData)
    (s : SchedulerState) : (yieldCheck ct t s).2.isHostTimeoutScheduled = s.isHostTimeoutScheduled := by
  unfold yieldCheck; split <;> simp

@[simp] theorem runBodyDone_isHostTimeoutScheduled (ct2 : Int) (tid : Nat)
    (s : SchedulerState) : (runBodyDone ct2 tid s).isHostTimeoutScheduled = s.isHostTimeoutScheduled := by
  unfold runBodyDone; split <;> simp

@[simp] theorem drainedExit_st_isHostTimeoutScheduled (ct : Int) (s : SchedulerState) :
    (drainedExit ct s).st.isHostTimeoutScheduled = s.isHostTimeoutScheduled := by
  rcases h : s.timerQueue with _ | ⟨⟨a, b⟩, c⟩ <;> simp [drainedExit, h]

@[simp] theorem setCurrentTask_taskTimeoutID (s : SchedulerState) (o : Option Nat) :
    (setCurrentTask s o).taskTimeoutID = s.taskTimeoutID := rfl

@[simp] theorem setCurrentPriority_taskTimeoutID (s : SchedulerState) (p : Nat) :
    (setCurrentPriority s p).taskTimeoutID = s.taskTimeoutID := rfl

@[simp] theorem popHead_taskTimeoutID (s : SchedulerState) :
    (popHead s).taskTimeoutID = s.taskTimeoutID := rfl

@[simp] theorem yieldCheck_snd_taskTimeoutID (ct : Int) (t : TaskData)
    (s : SchedulerState) : (yieldCheck ct t s).2.taskTimeoutID = s.taskTimeoutID := by
  unfold yieldCheck; split <;> simp

@[simp] theorem runBodyDone_taskTimeoutID (ct2 : Int) (tid : Nat)
    (s : SchedulerState) : (runBodyDone ct2 tid s).taskTimeoutID = s.taskTimeoutID := by
  unfold runBodyDone; split <;> simp

@[simp] theorem setCurrentTask_nextTimeoutID (s : SchedulerState) (o : Option Nat) :
    (setCurrentTask s o).nextTimeoutID = s.nextTimeoutID := rfl

@[simp] theorem setCurrentPriority_nextTimeoutID (s : SchedulerState) (p : Nat) :
    (setCurrentPriority s p).nextTimeoutID = s.nextTimeoutID := rfl

@[simp] theorem popHead_nextTimeoutID (s : SchedulerState) :
    (popHead s).nextTimeoutID = s.nextTimeoutID := rfl

@[simp] theorem yieldCheck_snd_nextTimeoutID (ct : Int) (t : TaskData)
    (s : SchedulerState) : (yieldCheck ct t s).2.nextTimeoutID = s.nextTimeoutID := by
  unfold yieldCheck; split <;> simp

@[simp] theorem runBodyDone_nextTimeoutID (ct2 : Int) (tid : Nat)
    (s : SchedulerState) : (runBodyDone ct2 tid s).nextTimeoutID = s.nextTimeoutID := by
  unfold runBodyDone; split <;> simp

@[simp] theorem setCurrentTask_armedTimers (s : SchedulerState) (o : Option Nat) :
    (setCurrentTask s o).armedTimers = s.armedTimers := rfl

@[simp] theorem setCurrentPriority_armedTimers (s : SchedulerState) (p : Nat) :
    (setCurrentPriority s p).armedTimers = s.armedTimers := rfl

@[simp] theorem popHead_armedTimers (s : SchedulerState) :
    (popHead s).armedTimers = s.armedTimers := rfl

@[simp] theorem yieldCheck_snd_armedTimers (ct : Int) (t : TaskData)
    (s : SchedulerState) : (yieldCheck ct t s).2.armedTimers = s.armedTimers := by
  unfold yieldCheck; split <;> simp

@[simp] theorem runBodyDone_armedTimers (ct2 : Int) (tid : Nat)
    (s : SchedulerState) : (runBodyDone ct2 tid s).armedTimers = s.armedTimers := by
  unfold runBodyDone; split <;> simp

@[simp] theorem setCurrentTask_postedMessages (s : SchedulerState) (o : Option Nat) :
    (setCurrentTask s o).postedMessages = s.postedMessages := rfl

@[simp] theorem setCurrentPriority_postedMessages (s : SchedulerState) (p : Nat) :
    (setCurrentPriority s p).postedMessages = s.postedMessages := rfl

@[simp] theorem popHead_postedMessages (s : SchedulerState) :
    (popHead s).postedMessages = s.postedMessages := rfl

@[simp] theorem yieldCheck_snd_postedMessages (ct : Int) (t : TaskData)
    (s : SchedulerState) : (yieldCheck ct t s).2.postedMessages = s.postedMessages := by
  unfold yieldCheck; split <;> simp

@[simp] theorem runBodyDone_postedMessages (ct2 : Int) (tid : Nat)
    (s : SchedulerState) : (runBodyDone ct2 tid s).postedMessages = s.postedMessages := by
  unfold runBodyDone; split <;> simp

@[simp] theorem drainedExit_st_postedMessages (ct : Int) (s : SchedulerState) :
    (drainedExit ct s).st.postedMessages = s.postedMessages := by
  rcases h : s.timerQueue with _ | ⟨⟨a, b⟩, c⟩ <;> simp [drainedExit, h]

@[simp] theorem setCurrentTask_clock (s : SchedulerState) (o : Option Nat) :
    (setCurrentTask s o).clock = s.clock := rfl

@[simp] theorem setCurrentPriority_clock (s : SchedulerState) (p : Nat) :
    (setCurrentPriority s p).clock = s.clock := rfl

@[simp] theorem popHead_clock (s : SchedulerState) :
    (popHead s).clock = s.clock := rfl

@[simp] theorem runBodyDone_clock (ct2 : Int) (tid : Nat)
    (s : SchedulerState) : (runBodyDone ct2 tid s).clock = s.clock := by
  unfold runBodyDone; split <;> simp

@[simp] theorem drainedExit_st_clock (ct : Int) (s : SchedulerState) :
    (drainedExit ct s).st.clock = s.clock := by
  rcases h : s.timerQueue with _ | ⟨⟨a, b⟩, c⟩ <;> simp [drainedExit, h]

@[simp] theorem setCurrentTask_lastTime (s : SchedulerState) (o : Option Nat) :
    (setCurrentTask s o).lastTime = s.lastTime := rfl

@[simp] theorem setCurrentPriority_lastTime (s : SchedulerState) (p : Nat) :
    (setCurrentPriority s p).lastTime = s.lastTime := rfl

@[simp] theorem popHead_lastTime (s : SchedulerState) :
    (popHead s).lastTime = s.lastTime := rfl

@[simp] theorem runBodyDone_lastTime (ct2 : Int) (tid : Nat)
    (s : SchedulerState) : (runBodyDone ct2 tid s).lastTime = s.lastTime := by
  unfold runBodyDone; split <;> simp

@[simp] theorem drainedExit_st_lastTime (ct : Int) (s : SchedulerState) :
    (drainedExit ct s).st.lastTime = s.lastTime := by
  rcases h : s.timerQueue with _ | ⟨⟨a, b⟩, c⟩ <;> simp [drainedExit, h]

@[simp] theorem setCurrentTask_currentTask (s : SchedulerState)
    (o : Option Nat) : (setCurrentTask s o).currentTask = o := rfl

@[simp] theorem popHead_taskQueue (s : SchedulerState) :
    (popHead s).taskQueue = s.taskQueue.tail := rfl

@[simp] theorem drainedExit_trace (ct : Int) (s : SchedulerState) :
    (drainedExit ct s).trace = [] := by
  rcases h : s.timerQueue with _ | ⟨⟨a, b⟩, c⟩ <;> simp [drainedExit, h]

@[simp] theorem drainedExit_exit (ct : Int) (s : SchedulerState) :
    (drainedExit ct s).exit = ExitKind.drained := by
  rcases h : s.timerQueue with _ | ⟨⟨a, b⟩, c⟩ <;> simp [drainedExit, h]

@[simp] theorem drainedExit_ret (ct : Int) (s : SchedulerState) :
    (drainedExit ct s).ret = Except.ok false := by
  rcases h : s.timerQueue with _ | ⟨⟨a, b⟩, c⟩ <;> simp [drainedExit, h]

@[simp] theorem flushStart_store (s : SchedulerState) :
    (flushStart s).store = s.store := rfl

@[simp] theorem flushStart_taskQueue (s : SchedulerState) :
    (flushStart s).taskQueue = s.taskQueue := rfl

@[simp] theorem flushStart_timerQueue (s : SchedulerState) :
    (flushStart s).timerQueue = s.timerQueue := rfl

@[simp] theorem flushStart_taskIdCounter (s : SchedulerState) :
    (flushStart s).taskIdCounter = s.taskIdCounter := rfl

@[simp] theorem flushStart_currentTask (s : SchedulerState) :
    (flushStart s).currentTask = s.currentTask := rfl

@[simp] theorem flushStart_currentPriorityLevel (s : SchedulerState) :
    (flushStart s).currentPriorityLevel = s.currentPriorityLevel := rfl

@[simp] theorem flushStart_startTime (s : SchedulerState) :
    (flushStart s).startTime = s.startTime := rfl

@[simp] theorem flushStart_frameInterval (s : SchedulerState) :
    (flushStart s).frameInterval = s.frameInterval := rfl

@[simp] theorem flushStart_isMessageLoopRunning (s : SchedulerState) :
    (flushStart s).isMessageLoopRunning = s.isMessageLoopRunning := rfl

@[simp] theorem flushStart_isHostTimeoutScheduled (s : SchedulerState) :
    (flushStart s).isHostTimeoutScheduled = s.isHostTimeoutScheduled := rfl

@[simp] theorem flushStart_taskTimeoutID (s : SchedulerState) :
    (flushStart s).taskTimeoutID = s.taskTimeoutID := rfl

@[simp] theorem flushStart_nextTimeoutID (s : SchedulerState) :
    (flushStart s).nextTimeoutID = s.nextTimeoutID := rfl

@[simp] theorem flushStart_armedTimers (s : SchedulerState) :
    (flushStart s).armedTimers = s.armedTimers := rfl

@[simp] theorem flushStart_postedMessages (s : SchedulerState) :
    (flushStart s).postedMessages = s.postedMessages := rfl

@[simp] theorem flushStart_clock (s : SchedulerState) :
    (flushStart s).clock = s.clock := rfl

@[simp] theorem flushStart_lastTime (s : SchedulerState) :
    (flushStart s).lastTime = s.lastTime := rfl

@[simp] theorem flushStart_isHostCallbackScheduled (s : SchedulerState) :
    (flushStart s).isHostCallbackScheduled = false := rfl

@[simp] theorem flushStart_isPerformingWork (s : SchedulerState) :
    (flushStart s).isPerformingWork = true := rfl

@[simp] theorem flushFinish_trace (prev : Nat) (r : LoopRes) :
    (flushFinish prev r).trace = r.trace := rfl

@[simp] theorem flushFinish_exit (prev : Nat) (r : LoopRes) :
    (flushFinish prev r).exit = r.exit := rfl

@[simp] theorem flushFinish_ret (prev : Nat) (r : LoopRes) :
    (flushFinish prev r).ret = r.ret := rfl

@[simp] theorem flushFinish_st_currentTask (prev : Nat) (r : LoopRes) :
    (flushFinish prev r).st.currentTask = none := rfl

@[simp] theorem flushFinish_st_currentPriorityLevel (prev : Nat)
    (r : LoopRes) : (flushFinish prev r).st.currentPriorityLevel = prev :=
  rfl

@[simp] theorem flushFinish_st_isPerformingWork (prev : Nat) (r : LoopRes) :
    (flushFinish prev r).st.isPerformingWork = false := rfl

@[simp] theorem pwdFinish_trace (r : LoopRes) :
    (pwdFinish r).trace = r.trace := by
  unfold pwdFinish; split <;> rfl

@[simp] theorem pwdFinish_exit (r : LoopRes) :
    (pwdFinish r).exit = r.exit := by
  unfold pwdFinish; split <;> rfl

@[simp] theorem pwdFinish_ret (r : LoopRes) :
    (pwdFinish r).ret = r.ret := by
  unfold pwdFinish; split <;> rfl

@[simp] theorem flushFinish_st_store (prev : Nat) (r : LoopRes) :
    (flushFinish prev r).st.store = r.st.store := rfl

@[simp] theorem pwdFinish_st_store (r : LoopRes) :
    (pwdFinish r).st.store = r.st.store := by
  unfold pwdFinish; split <;> rfl

@[simp] theorem flushFinish_st_taskQueue (prev : Nat) (r : LoopRes) :
    (flushFinish prev r).st.taskQueue = r.st.taskQueue := rfl

@[simp] theorem pwdFinish_st_taskQueue (r : LoopRes) :
    (pwdFinish r).st.taskQueue = r.st.taskQueue := by
  unfold pwdFinish; split <;> rfl

@[simp] theorem flushFinish_st_timerQueue (prev : Nat) (r : LoopRes) :
    (flushFinish prev r).st.timerQueue = r.st.timerQueue := rfl

@[simp] theorem pwdFinish_st_timerQueue (r : LoopRes) :
    (pwdFinish r).st.timerQueue = r.st.timerQueue := by
  unfold pwdFinish; split <;> rfl

@[simp] theorem flushFinish_st_taskIdCounter (prev : Nat) (r : LoopRes) :
    (flushFinish prev r).st.taskIdCounter = r.st.taskIdCounter := rfl

@[simp] theorem pwdFinish_st_taskIdCounter (r : LoopRes) :
    (pwdFinish r).st.taskIdCounter = r.st.taskIdCounter := by
  unfold pwdFinish; split <;> rfl

@[simp] theorem pwdFinish_st_currentTask (r : LoopRes) :
    (pwdFinish r).st.currentTask = r.st.currentTask := by
  unfold pwdFinish; split <;> rfl

@[simp] theorem pwdFinish_st_currentPriorityLevel (r : LoopRes) :
    (pwdFinish r).st.currentPriorityLevel = r.st.currentPriorityLevel := by
  unfold pwdFinish; split <;> rfl

@[simp] theorem flushFinish_st_startTime (prev : Nat) (r : LoopRes) :
    (flushFinish prev r).st.startTime = r.st.startTime := rfl

@[simp] theorem pwdFinish_st_startTime (r : LoopRes) :
    (pwdFinish r).st.startTime = r.st.startTime := by
  unfold pwdFinish; split <;> rfl

@[simp] theorem flushFinish_st_frameInterval (prev : Nat) (r : LoopRes) :
    (flushFinish prev r).st.frameInterval = r.st.frameInterval := rfl

@[simp] theorem pwdFinish_st_frameInterval (r : LoopRes) :
    (pwdFinish r).st.frameInterval = r.st.frameInterval := by
  unfold pwdFinish; split <;> rfl

@[simp] theorem pwdFinish_st_isPerformingWork (r : LoopRes) :
    (pwdFinish r).st.isPerformingWork = r.st.isPerformingWork := by
  unfold pwdFinish; split <;> rfl

@[simp] theorem flushFinish_st_isHostCallbackScheduled (prev : Nat) (r : LoopRes) :
    (flushFinish prev r).st.isHostCallbackScheduled = r.st.isHostCallbackScheduled := rfl

@[simp] theorem pwdFinish_st_isHostCallbackScheduled (r : LoopRes) :
    (pwdFinish r).st.isHostCallbackScheduled = r.st.isHostCallbackScheduled := by
  unfold pwdFinish; split <;> rfl

@[simp] theorem flushFinish_st_isMessageLoopRunning (prev : Nat) (r : LoopRes) :
    (flushFinish prev r).st.isMessageLoopRunning = r.st.isMessageLoopRunning := rfl

@[simp] theorem flushFinish_st_isHostTimeoutScheduled (prev : Nat) (r : LoopRes) :
    (flushFinish prev r).st.isHostTimeoutScheduled = r.st.isHostTimeoutScheduled := rfl

@[simp] theorem pwdFinish_st_isHostTimeoutScheduled (r : LoopRes) :
    (pwdFinish r).st.isHostTimeoutScheduled = r.st.isHostTimeoutScheduled := by
  unfold pwdFinish; split <;> rfl

@[simp] theorem flushFinish_st_taskTimeoutID (prev : Nat) (r : LoopRes) :
    (flushFinish prev r).st.taskTimeoutID = r.st.taskTimeoutID := rfl

@[simp] theorem pwdFinish_st_taskTimeoutID (r : LoopRes) :
    (pwdFinish r).st.taskTimeoutID = r.st.taskTimeoutID := by
  unfold pwdFinish; split <;> rfl

@[simp] theorem flushFinish_st_nextTimeoutID (prev : Nat) (r : LoopRes) :
    (flushFinish prev r).st.nextTimeoutID = r.st.nextTimeoutID := rfl

@[simp] theorem pwdFinish_st_nextTimeoutID (r : LoopRes) :
    (pwdFinish r).st.nextTimeoutID = r.st.nextTimeoutID := by
  unfold pwdFinish; split <;> rfl

@[simp] theorem flushFinish_st_armedTimers (prev : Nat) (r : LoopRes) :
    (flushFinish prev r).st.armedTimers = r.st.armedTimers := rfl

@[simp] theorem pwdFinish_st_armedTimers (r : LoopRes) :
    (pwdFinish r).st.armedTimers = r.st.armedTimers := by
  unfold pwdFinish; split <;> rfl

@[simp] theorem flushFinish_st_postedMessages (prev : Nat) (r : LoopRes) :
    (flushFinish prev r).st.postedMessages = r.st.postedMessages := rfl

@[simp] theorem flushFinish_st_clock (prev : Nat) (r : LoopRes) :
    (flushFinish prev r).st.clock = r.st.clock := rfl

@[simp] theorem pwdFinish_st_clock (r : LoopRes) :
    (pwdFinish r).st.clock = r.st.clock := by
  unfold pwdFinish; split <;> rfl

@[simp] theorem flushFinish_st_lastTime (prev : Nat) (r : LoopRes) :
    (flushFinish prev r).st.lastTime = r.st.lastTime := rfl

@[simp] theorem pwdFinish_st_lastTime (r : LoopRes) :
    (pwdFinish r).st.lastTime = r.st.lastTime := by
  unfold pwdFinish; split <;> rfl

/-! ## Generic store and heap lemmas -/

theorem findTask_updTask_ne (st : List (Nat × TaskData)) (i j : Nat)
    (f : TaskData → TaskData) (h : j ≠ i) :
    findTask (updTask st i f) j = findTask st j := by
  induction st with
  | nil => rfl
  | cons p rest ih =>
    obtain ⟨pi, pt⟩ := p
    by_cases hpi : pi = i
    · subst hpi
      have hij : ¬ pi = j := by omega
      rw [updTask, if_pos rfl, findTask, findTask, if_neg hij, if_neg hij,
          ih]
    · by_cases hpj : pi = j
      · rw [updTask, if_neg hpi, findTask, findTask, if_pos hpj, if_pos hpj]
      · rw [updTask, if_neg hpi, findTask, findTask, if_neg hpj, if_neg hpj,
            ih]

theorem findTask_updTask_field {α : Type} (g : TaskData → α)
    (st : List (Nat × TaskData)) (i j : Nat) (f : TaskData → TaskData)
    (hf : ∀ t, g (f t) = g t) :
    g (findTask (updTask st i f) j) = g (findTask st j) := by
  induction st with
  | nil => rfl
  | cons p rest ih =>
    obtain ⟨pi, pt⟩ := p
    by_cases hpi : pi = i
    · rw [updTask, if_pos hpi, findTask, findTask]
      by_cases hpj : pi = j
      · rw [if_pos hpj, if_pos hpj, hf]
      · rw [if_neg hpj, if_neg hpj, ih]
    · rw [updTask, if_neg hpi, findTask, findTask]
      by_cases hpj : pi = j
      · rw [if_pos hpj, if_pos hpj]
      · rw [if_neg hpj, if_neg hpj, ih]


@[simp] theorem findTask_setSortIndex_callback (s : SchedulerState)
    (tid : Nat) (v : Int) (j : Nat) :
    (findTask (setSortIndex s tid v).store j).callback =
      (findTask s.store j).callback := by
  simp only [setSortIndex]
  exact findTask_updTask_field (fun t => t.callback) _ _ _ _ fun t => rfl

@[simp] theorem findTask_setSortIndex_expirationTime (s : SchedulerState)
    (tid : Nat) (v : Int) (j : Nat) :
    (findTask (setSortIndex s tid v).store j).expirationTime =
      (findTask s.store j).expirationTime := by
  simp only [setSortIndex]
  exact findTask_updTask_field (fun t => t.expirationTime) _ _ _ _
    fun t => rfl

@[simp] theorem findTask_setSortIndex_startTime (s : SchedulerState)
    (tid : Nat) (v : Int) (j : Nat) :
    (findTask (setSortIndex s tid v).store j).startTime =
      (findTask s.store j).startTime := by
  simp only [setSortIndex]
  exact findTask_updTask_field (fun t => t.startTime) _ _ _ _ fun t => rfl

@[simp] theorem findTask_setSortIndex_priorityLevel (s : SchedulerState)
    (tid : Nat) (v : Int) (j : Nat) :
    (findTask (setSortIndex s tid v).store j).priorityLevel =
      (findTask s.store j).priorityLevel := by
  simp only [setSortIndex]
  exact findTask_updTask_field (fun t => t.priorityLevel) _ _ _ _
    fun t => rfl

@[simp] theorem findTask_setCallback_expirationTime (s : SchedulerState)
    (tid : Nat) (cb : Option Callback) (j : Nat) :
    (findTask (setCallback s tid cb).store j).expirationTime =
      (findTask s.store j).expirationTime := by
  simp only [setCallback]
  exact findTask_updTask_field (fun t => t.expirationTime) _ _ _ _
    fun t => rfl

@[simp] theorem findTask_setCallback_startTime (s : SchedulerState)
    (tid : Nat) (cb : Option Callback) (j : Nat) :
    (findTask (setCallback s tid cb).store j).startTime =
      (findTask s.store j).startTime := by
  simp only [setCallback]
  exact findTask_updTask_field (fun t => t.startTime) _ _ _ _ fun t => rfl

@[simp] theorem findTask_setCallback_priorityLevel (s : SchedulerState)
    (tid : Nat) (cb : Option Callback) (j : Nat) :
    (findTask (setCallback s tid cb).store j).priorityLevel =
      (findTask s.store j).priorityLevel := by
  simp only [setCallback]
  exact findTask_updTask_field (fun t => t.priorityLevel) _ _ _ _
    fun t => rfl

theorem findTask_setCallback_ne (s : SchedulerState) (tid : Nat)
    (cb : Option Callback) (j : Nat) (h : j ≠ tid) :
    findTask (setCallback s tid cb).store j = findTask s.store j := by
  simp only [setCallback]
  exact findTask_updTask_ne _ _ _ _ h

@[simp] theorem findTask_promoteHead_callback (tid : Nat) (exp : Int)
    (s : SchedulerState) (j : Nat) :
    (findTask (promoteHead tid exp s).store j).callback =
      (findTask s.store j).callback := by
  rw [promoteHead_store]
  rw [findTask_setSortIndex_callback]
  rfl

@[simp] theorem findTask_promoteHead_expirationTime (tid : Nat) (exp : Int)
    (s : SchedulerState) (j : Nat) :
    (findTask (promoteHead tid exp s).store j).expirationTime =
      (findTask s.store j).expirationTime := by
  rw [promoteHead_store, findTask_setSortIndex_expirationTime]
  rfl

@[simp] theorem findTask_promoteHead_startTime (tid : Nat) (exp : Int)
    (s : SchedulerState) (j : Nat) :
    (findTask (promoteHead tid exp s).store j).startTime =
      (findTask s.store j).startTime := by
  rw [promoteHead_store, findTask_setSortIndex_startTime]
  rfl

@[simp] theorem findTask_promoteHead_priorityLevel (tid : Nat) (exp : Int)
    (s : SchedulerState) (j : Nat) :
    (findTask (promoteHead tid exp s).store j).priorityLevel =
      (findTask s.store j).priorityLevel := by
  rw [promoteHead_store, findTask_setSortIndex_priorityLevel]
  rfl


theorem findTask_cons_ne (st : List (Nat × TaskData)) (i j : Nat)
    (t : TaskData) (h : j ≠ i) :
    findTask ((i, t) :: st) j = findTask st j := by
  simp [findTask, Ne.symm h, h]

theorem heapPush_sorted {q : List HeapKey} (x : HeapKey)
    (h : List.Sorted keyLe q) : List.Sorted keyLe (heapPush q x) :=
  List.Sorted.orderedInsert x q h

theorem heapPush_perm (q : List HeapKey) (x : HeapKey) :
    List.Perm (heapPush q x) (x :: q) :=
  List.perm_orderedInsert keyLe x q

theorem mem_heapPush {q : List HeapKey} {x y : HeapKey} :
    y ∈ heapPush q x ↔ y = x ∨ y ∈ q :=
  (heapPush_perm q x).mem_iff.trans (List.mem_cons)

theorem findTask_updTask_cons_self (store : List (Nat × TaskData))
    (tid : Nat) (t : TaskData) (f : TaskData → TaskData) :
    findTask (updTask ((tid, t) :: store) tid f) tid = f t := by
  rw [updTask, if_pos rfl, findTask, if_pos rfl]

theorem getTimeoutForPriority_immediate (cfg : SchedulerConfig) :
    getTimeoutForPriority cfg ImmediatePriority = -1 := rfl

theorem getTimeoutForPriority_userBlocking (cfg : SchedulerConfig) :
    getTimeoutForPriority cfg UserBlockingPriority =
      cfg.userBlockingPriorityTimeout := rfl

theorem getTimeoutForPriority_normal (cfg : SchedulerConfig) :
    getTimeoutForPriority cfg NormalPriority =
      cfg.normalPriorityTimeout := rfl

theorem getTimeoutForPriority_low (cfg : SchedulerConfig) :
    getTimeoutForPriority cfg LowPriority = cfg.lowPriorityTimeout := rfl

theorem getTimeoutForPriority_idle (cfg : SchedulerConfig) :
    getTimeoutForPriority cfg IdlePriority = maxSigned31BitInt := rfl

theorem getTimeoutForPriority_default (cfg : SchedulerConfig) (p : Nat)
    (h1 : p ≠ ImmediatePriority) (h2 : p ≠ UserBlockingPriority)
    (h3 : p ≠ NormalPriority) (h4 : p ≠ LowPriority)
    (h5 : p ≠ IdlePriority) :
    getTimeoutForPriority cfg p = 1000 := by
  unfold getTimeoutForPriority
  rw [if_neg h1, if_neg h2, if_neg h3, if_neg h4, if_neg h5]

/-- The record of the task created by a zero-delay `scheduleCallback`: it
is admitted to the ready queue with `sortIndex = expirationTime =
startTime + timeout`. -/
theorem scheduleCallback_none_newTask (cfg : SchedulerConfig) (p : Nat)
    (cb : Callback) (s : SchedulerState) :
    findTask (scheduleCallback cfg p cb none s).store s.taskIdCounter =
      { callback := some cb, priorityLevel := p,
        startTime := (readClock s).1,
        expirationTime := (readClock s).1 + getTimeoutForPriority cfg p,
        sortIndex := (readClock s).1 + getTimeoutForPriority cfg p } := by
  unfold scheduleCallback
  rcases hr : readClock s with ⟨ct, s1⟩
  have hctr : s1.taskIdCounter = s.taskIdCounter := by
    have := readClock_snd_taskIdCounter s
    rw [hr] at this; exact this
  simp only [hr, lt_self_iff_false, gt_iff_lt, if_false, ite_false, hctr]
  split
  · rw [requestHostCallback_store]
    simp only [setSortIndex, SchedulerState.mk.injEq]
    rw [findTask_updTask_cons_self]
  · simp only [setSortIndex]
    rw [findTask_updTask_cons_self]

/-! ## C8 — priority-to-timeout mapping -/

/-- C8 counterexample: the claim says an unrecognized priority falls back to
the "normal" timeout; the source's `default` branch returns the hardcoded
constant `1000`, which differs from the configured normal timeout for a
configuration satisfying the spec's qualitative constraints (here the
upstream React constants, with a normal timeout of 5000 ms). -/
theorem c8_default_is_not_normal_timeout :
    SpecConfig reactConfig ∧
    getTimeoutForPriority reactConfig 99 ≠
      getTimeoutForPriority reactConfig NormalPriority := by
  constructor
  · decide
  · decide

/-- C8 (amended): for every configuration satisfying the spec's qualitative
constraints, an unrecognized priority yields the hardcoded 1000 ms timeout
(not necessarily the configured normal timeout); the "immediate" priority
yields a negative timeout, so an immediately-scheduled immediate task has
`expirationTime <= startTime`; and the timeouts are strictly ordered
immediate < user-blocking < normal < low < idle. -/
theorem c8_priority_timeout_table (cfg : SchedulerConfig) (p : Nat)
    (hcfg : SpecConfig cfg)
    (hp : p ≠ ImmediatePriority ∧ p ≠ UserBlockingPriority ∧
          p ≠ NormalPriority ∧ p ≠ LowPriority ∧ p ≠ IdlePriority) :
    getTimeoutForPriority cfg p = 1000 ∧
    getTimeoutForPriority cfg ImmediatePriority < 0 ∧
    (∀ s cb,
      (findTask (scheduleCallback cfg ImmediatePriority cb none s).store
          s.taskIdCounter).expirationTime ≤
        (findTask (scheduleCallback cfg ImmediatePriority cb none s).store
          s.taskIdCounter).startTime) ∧
    getTimeoutForPriority cfg ImmediatePriority <
      getTimeoutForPriority cfg UserBlockingPriority ∧
    getTimeoutForPriority cfg UserBlockingPriority <
      getTimeoutForPriority cfg NormalPriority ∧
    getTimeoutForPriority cfg NormalPriority <
      getTimeoutForPriority cfg LowPriority ∧
    getTimeoutForPriority cfg LowPriority <
      getTimeoutForPriority cfg IdlePriority := by
  obtain ⟨h1, h2, h3, h4, h5⟩ := hp
  obtain ⟨a, b, c, d, e, f⟩ := hcfg
  refine ⟨getTimeoutForPriority_default cfg p h1 h2 h3 h4 h5, ?_, ?_, ?_,
    ?_, ?_, ?_⟩
  · rw [getTimeoutForPriority_immediate]; omega
  · intro s cb
    rw [scheduleCallback_none_newTask, getTimeoutForPriority_immediate]
    simp
  · rw [getTimeoutForPriority_immediate, getTimeoutForPriority_userBlocking]
    omega
  · rw [getTimeoutForPriority_userBlocking, getTimeoutForPriority_normal]
    omega
  · rw [getTimeoutForPriority_normal, getTimeoutForPriority_low]
    omega
  · rw [getTimeoutForPriority_low, getTimeoutForPriority_idle]
    omega

/-- C8 witness: the amended table theorem instantiated at the upstream
React configuration and the unrecognized priority code 99. -/
theorem c8_priority_timeout_table_witness :
    getTimeoutForPriority reactConfig 99 = 1000 ∧
    getTimeoutForPriority reactConfig ImmediatePriority < 0 := by
  have h := c8_priority_timeout_table reactConfig 99 (by decide)
    (by refine ⟨?_, ?_, ?_, ?_, ?_⟩ <;> decide)
  exact ⟨h.1, h.2.1⟩

/-- The drain loop never touches the host-integration flags, the message
count, the id counter, or the slice bookkeeping fields. -/
theorem workLoopAux_fields (fuel : Nat) (ct : Int) (s : SchedulerState)
    (r : LoopRes) (h : workLoopAux fuel ct s = some r) :
    r.st.postedMessages = s.postedMessages ∧
    r.st.isMessageLoopRunning = s.isMessageLoopRunning ∧
    r.st.isPerformingWork = s.isPerformingWork ∧
    r.st.isHostCallbackScheduled = s.isHostCallbackScheduled ∧
    r.st.taskIdCounter = s.taskIdCounter ∧
    r.st.startTime = s.startTime ∧
    r.st.frameInterval = s.frameInterval ∧
    r.st.isHostTimeoutScheduled = s.isHostTimeoutScheduled := by
  induction fuel generalizing ct s r with
  | zero => simp [workLoopAux] at h
  | succ fuel ih =>
    rw [workLoopAux] at h
    rcases hq : s.taskQueue with _ | ⟨⟨k, tid⟩, rest⟩ <;> rw [hq] at h
    · obtain rfl := Option.some.inj h
      simp
    · simp only [] at h
      split at h
      · obtain rfl := Option.some.inj h
        simp
      · split at h
        · have := ih _ _ _ h
          simpa using this
        · split at h
          · obtain rfl := Option.some.inj h
            simp
          · obtain rfl := Option.some.inj h
            simp
          · split at h
            · exact absurd h (by simp)
            · obtain rfl := Option.some.inj h
              rename_i r' hr'
              have := ih _ _ _ hr'
              simpa using this

/-- Exit-kind facts of the drain loop: a thrown body propagates as an
error result; a yield break returns true with the ready queue still
non-empty. -/
theorem workLoopAux_exits (fuel : Nat) (ct : Int) (s : SchedulerState)
    (r : LoopRes) (h : workLoopAux fuel ct s = some r) :
    (r.exit = .threw → r.ret = .error ()) ∧
    (r.exit = .yielded → r.ret = .ok true ∧ r.st.taskQueue ≠ []) := by
  induction fuel generalizing ct s r with
  | zero => simp [workLoopAux] at h
  | succ fuel ih =>
    rw [workLoopAux] at h
    rcases hq : s.taskQueue with _ | ⟨⟨k, tid⟩, rest⟩ <;> rw [hq] at h
    · obtain rfl := Option.some.inj h
      simp
    · simp only [] at h
      split at h
      · obtain rfl := Option.some.inj h
        simp [hq]
      · split at h
        · exact ih _ _ _ h
        · split at h
          · obtain rfl := Option.some.inj h
            simp
          · obtain rfl := Option.some.inj h
            simp
          · split at h
            · exact absurd h (by simp)
            · obtain rfl := Option.some.inj h
              rename_i r' hr'
              have := ih _ _ _ hr'
              simpa using this

/-- `flushWork` always applies its `finally` block: `currentTask` cleared,
priority restored, running flag cleared; results and exit kinds pass
through from the drain loop. -/
theorem flushWork_spec (fuel : Nat) (ct : Int) (s : SchedulerState)
    (r : LoopRes) (h : flushWork fuel ct s = some r) :
    r.st.currentTask = none ∧
    r.st.currentPriorityLevel = s.currentPriorityLevel ∧
    r.st.isPerformingWork = false ∧
    r.st.postedMessages = s.postedMessages ∧
    r.st.isMessageLoopRunning = s.isMessageLoopRunning ∧
    (r.exit = .threw → r.ret = .error ()) ∧
    (r.exit = .yielded → r.ret = .ok true ∧ r.st.taskQueue ≠ []) := by
  rw [flushWork] at h
  rcases hw : workLoop fuel ct (flushStart s) with _ | r0 <;> rw [hw] at h
  · simp [Option.map] at h
  · have hfr : flushFinish s.currentPriorityLevel r0 = r := by
      simpa using h
    subst hfr
    rw [workLoop] at hw
    have hf := workLoopAux_fields _ _ _ _ hw
    have he := workLoopAux_exits _ _ _ _ hw
    simp at hf
    refine ⟨by simp, by simp, by simp, by simp [hf.1], by simp [hf.2.1],
      ?_, ?_⟩
    · intro hth
      simpa using he.1 (by simpa using hth)
    · intro hy
      have := he.2 (by simpa using hy)
      simpa using this

/-- Combined host-callback postcondition: guaranteed cleanup on every exit
path, error propagation, and the repost-on-yield behavior. -/
theorem performWorkUntilDeadline_cleanup (fuel : Nat) (s : SchedulerState)
    (r : LoopRes) (hrun : s.isMessageLoopRunning = true)
    (h : performWorkUntilDeadline fuel s = some r) :
    r.st.currentTask = none ∧
    r.st.currentPriorityLevel = s.currentPriorityLevel ∧
    r.st.isPerformingWork = false ∧
    (r.exit = .threw → r.ret = .error ()) ∧
    (r.exit = .yielded →
      r.ret = .ok true ∧ r.st.taskQueue ≠ [] ∧
      r.st.isMessageLoopRunning = true ∧
      r.st.postedMessages = s.postedMessages + 1) := by
  rw [performWorkUntilDeadline] at h
  rw [hrun] at h
  simp only [if_true] at h
  rcases hf : flushWork fuel (readClock s).1 (readClock s).2 with _ | r0 <;>
    rw [hf] at h
  · simp [Option.map] at h
  · have hfr : pwdFinish r0 = r := by simpa using h
    subst hfr
    have hs := flushWork_spec _ _ _ _ hf
    refine ⟨by simp [hs.1], by simp [hs.2.1], by simp [hs.2.2.1], ?_, ?_⟩
    · intro hth
      simpa using hs.2.2.2.2.2.1 (by simpa using hth)
    · intro hy
      have hy0 : r0.exit = ExitKind.yielded := by simpa using hy
      have hok := hs.2.2.2.2.2.2 hy0
      have hretr : (pwdFinish r0).ret = Except.ok true := by simp [hok.1]
      have hposted : (pwdFinish r0).st.postedMessages =
          r0.st.postedMessages + 1 := by
        unfold pwdFinish
        rw [hok.1]
        simp
      have hml : (pwdFinish r0).st.isMessageLoopRunning =
          r0.st.isMessageLoopRunning := by
        unfold pwdFinish
        rw [hok.1]
        simp
      refine ⟨hretr, by simpa using hok.2, ?_, ?_⟩
      · rw [hml, hs.2.2.2.2.1]
        simpa using hrun
      · rw [hposted, hs.2.2.2.1]
        simp

/-- C9: on every exit path of the host-callback entry point — including
when a task body throws, in which case the exception is not caught and
propagates as an error result — `currentTask` is cleared,
`currentPriorityLevel` is restored to its pre-invocation value, and the
work-loop-running flag is cleared. -/
theorem c9_cleanup_on_every_exit_path (fuel : Nat) (s : SchedulerState)
    (r : LoopRes) (hrun : s.isMessageLoopRunning = true)
    (h : performWorkUntilDeadline fuel s = some r) :
    r.st.currentTask = none ∧
    r.st.currentPriorityLevel = s.currentPriorityLevel ∧
    r.st.isPerformingWork = false ∧
    (r.exit = .threw → r.ret = .error ()) := by
  have hc := performWorkUntilDeadline_cleanup fuel s r hrun h
  exact ⟨hc.1, hc.2.1, hc.2.2.1, hc.2.2.2.1⟩

/-- C9 witness: an immediate task whose body throws; the bookkeeping is
nevertheless restored and the error propagates. -/
theorem c9_cleanup_on_every_exit_path_witness :
    throwingBodyState.isMessageLoopRunning = true ∧
    (pwdRes 5 throwingBodyState).exit = ExitKind.threw ∧
    (pwdRes 5 throwingBodyState).st.currentTask = none ∧
    (pwdRes 5 throwingBodyState).st.currentPriorityLevel =
      throwingBodyState.currentPriorityLevel ∧
    (pwdRes 5 throwingBodyState).st.isPerformingWork = false ∧
    (pwdRes 5 throwingBodyState).ret = .error () := by
  have hc := c9_cleanup_on_every_exit_path 5 throwingBodyState (pwdRes 5 throwingBodyState)
    rfl rfl
  exact ⟨rfl, rfl, hc.1, hc.2.1, hc.2.2.1, hc.2.2.2 rfl⟩

/-- C10: whenever the host callback's drain exits via the yield break (so
the ready queue is non-empty, with no requirement that any task in it be
runnable), it returns more-work-remains true and another host callback
message is posted. -/
theorem c10_yield_break_returns_true_and_reposts (fuel : Nat) (s : SchedulerState)
    (r : LoopRes) (hrun : s.isMessageLoopRunning = true)
    (h : performWorkUntilDeadline fuel s = some r)
    (hy : r.exit = .yielded) :
    r.ret = .ok true ∧ r.st.taskQueue ≠ [] ∧
    r.st.isMessageLoopRunning = true ∧
    r.st.postedMessages = s.postedMessages + 1 :=
  (performWorkUntilDeadline_cleanup fuel s r hrun h).2.2.2.2 hy

/-- C10 witness: a ready queue holding only one tombstoned task still
produces a yield-break exit with result true and a reposted host
callback. -/
theorem c10_yield_break_returns_true_and_reposts_witness :
    allTombstonesState.isMessageLoopRunning = true ∧
    (pwdRes 5 allTombstonesState).exit = ExitKind.yielded ∧
    (findTask allTombstonesState.store 0).callback = none ∧
    allTombstonesState.taskQueue = [(100, 0)] ∧
    (pwdRes 5 allTombstonesState).trace = [] ∧
    (pwdRes 5 allTombstonesState).ret = .ok true ∧
    (pwdRes 5 allTombstonesState).st.postedMessages =
      allTombstonesState.postedMessages + 1 := by
  have hc := c10_yield_break_returns_true_and_reposts 5 allTombstonesState (pwdRes 5 allTombstonesState)
    rfl rfl rfl
  exact ⟨rfl, rfl, rfl, rfl, rfl, hc.1, hc.2.2.2⟩

/-- C2 failing-input demonstration: the source's `cancelCallback` takes no
task handle and dereferences `currentTask!`; called while idle (right
after a task was scheduled, before any drain) it crashes instead of being
a silent no-op.  (`scheduleCallback` likewise returns no handle: its
result type in this embedding is the bare state.) -/
theorem c2_cancel_crashes_when_idle :
    cancelCallback (scheduleCallback reactConfig NormalPriority cbDone none
      (initialState [0])) = none := rfl

/-- C3 failing-input demonstration: schedule a delayed task at time 0 (one
host timer armed for its start time), an immediate task at time 1, and
let the host callback run at time 2: the drain's tail re-arms a host
timer for the delay-queue minimum without cancelling the one already
armed, leaving two armed host timers. -/
theorem c3_two_host_timers_armed :
    (run reactConfig doubleTimerEvents (initialState [0, 1, 2, 3])).map
      (fun s => s.armedTimers) = some [(1, 100), (2, 100)] := rfl

/-- C4 failing-input demonstration: the slice start is never recorded into
the module-level `startTime` field (the local `const startTime` shadows
it), so at a host callback at time 12 with 0 ms elapsed in the slice the
budget check already yields: the pending task is not run (empty trace,
queue unchanged) and the field still holds its initial -1. -/
theorem c4_slice_start_never_recorded :
    (performWorkUntilDeadline 5 shadowedSliceState).map
      (fun r => (r.st.startTime, r.trace, exceptBool r.ret,
                 r.st.taskQueue.map Prod.snd)) =
      some (-1, [], some true, [0]) := rfl

/-- A non-positive delay is treated exactly like an absent one. -/
theorem scheduleCallback_some_nonpos (cfg : SchedulerConfig) (p : Nat)
    (cb : Callback) (dv : Int) (s : SchedulerState) (h : dv ≤ 0) :
    scheduleCallback cfg p cb (some dv) s =
      scheduleCallback cfg p cb none s := by
  unfold scheduleCallback
  rcases hr : readClock s with ⟨ct, s1⟩
  simp only [if_neg (show ¬ 0 < dv by omega)]

/-- Characterization of a zero-delay admission: the new task goes into the
ready queue keyed by its `expirationTime`, with a fresh id; nothing else
about the queues or other tasks changes. -/
theorem scheduleCallback_none_proj (cfg : SchedulerConfig) (p : Nat)
    (cb : Callback) (s : SchedulerState) :
    (scheduleCallback cfg p cb none s).taskQueue =
      heapPush s.taskQueue
        ((readClock s).1 + getTimeoutForPriority cfg p, s.taskIdCounter) ∧
    (scheduleCallback cfg p cb none s).timerQueue = s.timerQueue ∧
    (scheduleCallback cfg p cb none s).taskIdCounter =
      s.taskIdCounter + 1 ∧
    (∀ j, j ≠ s.taskIdCounter →
       findTask (scheduleCallback cfg p cb none s).store j =
         findTask s.store j) ∧
    findTask (scheduleCallback cfg p cb none s).store s.taskIdCounter =
      { callback := some cb, priorityLevel := p,
        startTime := (readClock s).1,
        expirationTime := (readClock s).1 + getTimeoutForPriority cfg p,
        sortIndex := (readClock s).1 + getTimeoutForPriority cfg p } ∧
    (scheduleCallback cfg p cb none s).lastTime =
      (readClock s).2.lastTime ∧
    (scheduleCallback cfg p cb none s).clock = (readClock s).2.clock := by
  unfold scheduleCallback
  rcases hr : readClock s with ⟨ct, s1⟩
  have hst : s1.store = s.store := by
    have := readClock_snd_store s; rw [hr] at this; exact this
  have hctr : s1.taskIdCounter = s.taskIdCounter := by
    have := readClock_snd_taskIdCounter s; rw [hr] at this; exact this
  have htq : s1.taskQueue = s.taskQueue := by
    have := readClock_snd_taskQueue s; rw [hr] at this; exact this
  have htmq : s1.timerQueue = s.timerQueue := by
    have := readClock_snd_timerQueue s; rw [hr] at this; exact this
  simp only [hr, gt_iff_lt, lt_self_iff_false, if_false, ite_false, hctr]
  refine ⟨?_, ?_, ?_, ?_, ?_, ?_, ?_⟩
  · split <;> simp [setSortIndex, htq, hst, hctr]
  · split <;> simp [setSortIndex, htmq]
  · split <;> simp [setSortIndex, hctr]
  · intro j hj
    split <;>
      · simp only [requestHostCallback_store, setSortIndex]
        rw [findTask_updTask_ne _ _ _ _ hj, findTask_cons_ne _ _ _ _ hj,
            hst]
  · split <;>
      · simp only [requestHostCallback_store, setSortIndex]
        rw [findTask_updTask_cons_self]
  · split <;> simp [setSortIndex, hr]
  · split <;> simp [setSortIndex, hr]

/-- Zero-delay admission preserves the ready-queue ordering invariant. -/
theorem scheduleCallback_zeroDelay_inv (cfg : SchedulerConfig)
    (c : ScheduleCall) (s : SchedulerState) (hd : zeroDelay c.delay)
    (hinv : ReadyOrderInv s) :
    ReadyOrderInv (scheduleCallback cfg c.p c.cb c.delay s) := by
  obtain ⟨hs, hk, hc, hn⟩ := hinv
  have key : ∀ d, zeroDelay d →
      ReadyOrderInv (scheduleCallback cfg c.p c.cb d s) := by
    intro d hd
    have heq : scheduleCallback cfg c.p c.cb d s =
        scheduleCallback cfg c.p c.cb none s := by
      rcases d with _ | dv
      · rfl
      · exact scheduleCallback_some_nonpos cfg c.p c.cb dv s
          (by simpa [zeroDelay] using hd)
    rw [heq]
    obtain ⟨h1, h2, h3, h4, h5, h6, h7⟩ :=
      scheduleCallback_none_proj cfg c.p c.cb s
    refine ⟨?_, ?_, ?_, ?_⟩
    · rw [h1]; exact heapPush_sorted _ hs
    · intro q hq
      rw [h1] at hq
      rcases mem_heapPush.mp hq with rfl | hq2
      · rw [h5]
      · have hne : q.2 ≠ s.taskIdCounter := by
          have := hc q hq2; omega
        rw [h4 q.2 hne]
        exact hk q hq2
    · intro q hq
      rw [h1] at hq
      rw [h3]
      rcases mem_heapPush.mp hq with rfl | hq2
      · simp
      · have := hc q hq2; omega
    · rw [h1]
      have hperm := (heapPush_perm s.taskQueue
        ((readClock s).1 + getTimeoutForPriority cfg c.p,
         s.taskIdCounter)).map Prod.snd
      rw [hperm.nodup_iff]
      simp only [List.map_cons, List.nodup_cons]
      refine ⟨?_, hn⟩
      intro hmem
      rcases List.mem_map.mp hmem with ⟨q, hq, hq2⟩
      have := hc q hq
      omega
  exact key c.delay hd

/-- The ready-queue ordering invariant is preserved by any sequence of
zero-delay admissions. -/
theorem runSchedules_inv (cfg : SchedulerConfig) (calls : List ScheduleCall)
    (s : SchedulerState) (hz : ∀ c ∈ calls, zeroDelay c.delay)
    (hinv : ReadyOrderInv s) :
    ReadyOrderInv (runSchedules cfg calls s) := by
  induction calls generalizing s with
  | nil => exact hinv
  | cons c rest ih =>
    rw [runSchedules, List.foldl_cons]
    exact ih _ (fun c hc => hz c (List.mem_cons_of_mem _ hc))
      (scheduleCallback_zeroDelay_inv cfg c s (hz c (List.mem_cons_self c rest))
        hinv)

/-- The initial state satisfies the ready-queue ordering invariant. -/
theorem initialState_readyOrderInv (clock : List Int) :
    ReadyOrderInv (initialState clock) := by
  refine ⟨?_, ?_, ?_, ?_⟩ <;> simp [initialState]

/-- C1: after any sequence of zero-delay `scheduleCallback` calls from the
initial state, repeatedly removing the ready queue's minimum yields the
tasks in non-decreasing `expirationTime` order, ties among equal
`expirationTime` broken by strictly ascending task id (submission
order) — i.e. the drained `(expirationTime, id)` pairs are pairwise
strictly increasing in the lexicographic order `keyLt`. -/
theorem c1_drain_order (cfg : SchedulerConfig)
    (calls : List ScheduleCall) (clock : List Int)
    (hz : ∀ c ∈ calls, zeroDelay c.delay) :
    List.Pairwise keyLt
      (drainedTasks (runSchedules cfg calls (initialState clock))) := by
  obtain ⟨hs, hk, hc, hn⟩ :=
    runSchedules_inv cfg calls (initialState clock) hz
      (initialState_readyOrderInv clock)
  set s := runSchedules cfg calls (initialState clock)
  have hdr : drainedTasks s = s.taskQueue := by
    unfold drainedTasks
    have : ∀ q ∈ s.taskQueue,
        ((findTask s.store q.2).expirationTime, q.2) = q := by
      intro q hq
      have := hk q hq
      ext
      · simp [this]
      · rfl
    calc s.taskQueue.map
          (fun q => ((findTask s.store q.2).expirationTime, q.2))
        = s.taskQueue.map id := List.map_congr_left this
      _ = s.taskQueue := List.map_id s.taskQueue
  rw [hdr]
  have hne : List.Pairwise (fun a b : HeapKey => a.2 ≠ b.2) s.taskQueue :=
    List.pairwise_map.mp hn
  exact (hs.and hne).imp (fun hab => by
    unfold keyLe at hab
    unfold keyLt
    omega)

/-- C1 witness: the idle/immediate/normal scenario scheduled at one
instant drains immediate, normal, idle. -/
theorem c1_drain_order_witness :
    (∀ c ∈ demoCalls, zeroDelay c.delay) ∧
    List.Pairwise keyLt
      (drainedTasks (runSchedules reactConfig demoCalls
        (initialState [0, 0, 0]))) := by
  constructor
  · intro c hc
    fin_cases hc <;> trivial
  · exact c1_drain_order reactConfig demoCalls [0, 0, 0]
      (by intro c hc; fin_cases hc <;> trivial)

/-- Promotion never changes any task's stored body. -/
theorem advanceTimersAux_callback (n : Nat) (ct : Int) (s : SchedulerState)
    (j : Nat) :
    (findTask (advanceTimersAux n ct s).store j).callback =
      (findTask s.store j).callback := by
  induction n generalizing s with
  | zero => rfl
  | succ n ih =>
    rw [advanceTimersAux]
    rcases h : s.timerQueue with _ | ⟨⟨k, tid⟩, rest⟩
    · rfl
    · rcases hc : (findTask s.store tid).callback with _ | cb
      · simp only [hc, ih, dropTimerHead_store]
      · by_cases ht : (findTask s.store tid).startTime ≤ ct
        · simp only [hc, ht, if_true, ih, findTask_promoteHead_callback]
        · simp [hc, ht]

/-- Promotion never changes any task's stored body (wrapper form). -/
theorem advanceTimers_callback (ct : Int) (s : SchedulerState) (j : Nat) :
    (findTask (advanceTimers ct s).store j).callback =
      (findTask s.store j).callback := by
  unfold advanceTimers; exact advanceTimersAux_callback _ _ _ _

/-- Promotion changes only `sortIndex`: deadlines, start times and
priorities are untouched. -/
theorem advanceTimersAux_exp_start (n : Nat) (ct : Int)
    (s : SchedulerState) (j : Nat) :
    (findTask (advanceTimersAux n ct s).store j).expirationTime =
      (findTask s.store j).expirationTime ∧
    (findTask (advanceTimersAux n ct s).store j).startTime =
      (findTask s.store j).startTime ∧
    (findTask (advanceTimersAux n ct s).store j).priorityLevel =
      (findTask s.store j).priorityLevel := by
  induction n generalizing s with
  | zero => exact ⟨rfl, rfl, rfl⟩
  | succ n ih =>
    rw [advanceTimersAux]
    rcases h : s.timerQueue with _ | ⟨⟨k, tid⟩, rest⟩
    · exact ⟨rfl, rfl, rfl⟩
    · rcases hc : (findTask s.store tid).callback with _ | cb
      · simp only [hc]
        obtain ⟨a, b, c⟩ := ih (dropTimerHead s)
        simp only [dropTimerHead_store] at a b c
        exact ⟨a, b, c⟩
      · by_cases ht : (findTask s.store tid).startTime ≤ ct
        · simp only [hc, ht, if_true]
          obtain ⟨a, b, c⟩ :=
            ih (promoteHead tid (findTask s.store tid).expirationTime s)
          simp only [findTask_promoteHead_expirationTime,
            findTask_promoteHead_startTime,
            findTask_promoteHead_priorityLevel] at a b c
          exact ⟨a, b, c⟩
        · simp [hc, ht]

/-- Ids present after a heap insert. -/
theorem mem_snd_heapPush {q : List HeapKey} {x : HeapKey} {j : Nat} :
    j ∈ (heapPush q x).map Prod.snd ↔ j = x.2 ∨ j ∈ q.map Prod.snd := by
  constructor
  · intro hj
    rcases List.mem_map.mp hj with ⟨y, hy, rfl⟩
    rcases mem_heapPush.mp hy with rfl | hy2
    · exact Or.inl rfl
    · exact Or.inr (List.mem_map_of_mem _ hy2)
  · intro hj
    rcases hj with rfl | hj2
    · exact List.mem_map_of_mem _ (mem_heapPush.mpr (Or.inl rfl))
    · rcases List.mem_map.mp hj2 with ⟨y, hy, rfl⟩
      exact List.mem_map_of_mem _ (mem_heapPush.mpr (Or.inr hy))

/-- Promotion never moves a tombstoned task into the ready queue: a
tombstoned delay-queue minimum is dropped, not inserted. -/
theorem advanceTimersAux_no_tombstone_promotion (n : Nat) (ct : Int)
    (s : SchedulerState) (tid : Nat)
    (hts : (findTask s.store tid).callback = none)
    (hnot : tid ∉ s.taskQueue.map Prod.snd) :
    tid ∉ (advanceTimersAux n ct s).taskQueue.map Prod.snd := by
  induction n generalizing s with
  | zero => exact hnot
  | succ n ih =>
    rw [advanceTimersAux]
    rcases h : s.timerQueue with _ | ⟨⟨k, tid2⟩, rest⟩
    · exact hnot
    · rcases hc : (findTask s.store tid2).callback with _ | cb
      · simp only [hc]
        exact ih _ (by simpa using hts) (by simpa using hnot)
      · by_cases ht : (findTask s.store tid2).startTime ≤ ct
        · simp only [hc, ht, if_true]
          have hne : tid2 ≠ tid := by
            intro heq; rw [heq, hts] at hc; exact Option.noConfusion hc
          apply ih
          · simpa using hts
          · simp only [promoteHead_taskQueue]
            intro hmem
            rcases mem_snd_heapPush.mp hmem with heq | hmem2
            · exact hne heq.symm
            · exact hnot hmem2
        · simp only [hc, ht, if_neg ht]
          exact hnot

/-- A task tombstoned before the drain starts is never invoked by the
drain loop, and stays tombstoned. -/
theorem workLoopAux_tombstone_never_invoked (fuel : Nat) (ct : Int)
    (s : SchedulerState) (tid : Nat) (r : LoopRes)
    (hts : (findTask s.store tid).callback = none)
    (h : workLoopAux fuel ct s = some r) :
    (∀ e ∈ r.trace, e.1 ≠ tid) ∧
    (findTask r.st.store tid).callback = none := by
  induction fuel generalizing ct s r with
  | zero => simp [workLoopAux] at h
  | succ fuel ih =>
    rw [workLoopAux] at h
    rcases hq : s.taskQueue with _ | ⟨⟨k, tid2⟩, rest⟩ <;> rw [hq] at h
    · obtain rfl := Option.some.inj h
      refine ⟨by simp, ?_⟩
      rw [drainedExit_st_store]
      simpa using hts
    · simp only [] at h
      split at h
      · obtain rfl := Option.some.inj h
        refine ⟨by simp, ?_⟩
        simp only [LoopRes.st, yieldCheck_snd_store, setCurrentTask_store]
        exact hts
      · split at h
        · exact ih _ _ _ (by simpa using hts) h
        · rename_i cb hcb
          have hne : tid ≠ tid2 := by
            intro heq
            rw [← heq] at hcb
            simp only [setCurrentTask_store] at hcb
            rw [hts] at hcb
            exact Option.noConfusion hcb
          split at h
          · obtain rfl := Option.some.inj h
            refine ⟨by simpa using fun heq => absurd heq hne.symm, ?_⟩
            simp only [LoopRes.st, readClock_snd_store,
              setCurrentPriority_store]
            rw [findTask_setCallback_ne _ _ _ _ hne]
            simp only [yieldCheck_snd_store, setCurrentTask_store]
            exact hts
          · obtain rfl := Option.some.inj h
            refine ⟨by simpa using fun heq => absurd heq hne.symm, ?_⟩
            simp only [LoopRes.st]
            rw [advanceTimers_callback]
            rw [findTask_setCallback_ne _ _ _ _ hne]
            simp only [readClock_snd_store, setCurrentPriority_store]
            rw [findTask_setCallback_ne _ _ _ _ hne]
            simp only [yieldCheck_snd_store, setCurrentTask_store]
            exact hts
          · split at h
            · exact absurd h (by simp)
            · obtain rfl := Option.some.inj h
              rename_i r' hr'
              obtain ⟨ha, hb⟩ := ih _ _ _ (by
                unfold runBodyDone
                rw [advanceTimers_callback]
                split <;>
                  · simp only [popHead_store, readClock_snd_store,
                      setCurrentPriority_store]
                    rw [findTask_setCallback_ne _ _ _ _ hne]
                    simp only [yieldCheck_snd_store, setCurrentTask_store]
                    exact hts) hr'
              refine ⟨?_, by simpa using hb⟩
              intro e he
              simp only [List.mem_cons] at he
              rcases he with rfl | he2
              · exact hne.symm
              · exact ha e he2

/-- C5: a Task whose body has been set to null before it is popped is
never invoked — the drain loop only removes such a Task (its id never
appears in the invocation trace and its body stays null), and the
promotion routine only ever drops it from the delay queue, never moving
it into the ready queue. -/
theorem c5_tombstoned_never_executed :
    (∀ fuel ct s tid r, (findTask s.store tid).callback = none →
       workLoop fuel ct s = some r →
       (∀ e ∈ r.trace, e.1 ≠ tid) ∧
       (findTask r.st.store tid).callback = none) ∧
    (∀ ct s tid, (findTask s.store tid).callback = none →
       tid ∉ s.taskQueue.map Prod.snd →
       tid ∉ (advanceTimers ct s).taskQueue.map Prod.snd) := by
  constructor
  · intro fuel ct s tid r hts h
    rw [workLoop] at h
    refine workLoopAux_tombstone_never_invoked _ _ _ _ _ ?_ h
    rw [advanceTimers_callback]
    exact hts
  · intro ct s tid hts hnot
    unfold advanceTimers
    exact advanceTimersAux_no_tombstone_promotion _ _ _ _ hts hnot

/-- C5 witness: a tombstoned ready task is drained without any invocation
and stays tombstoned; a tombstoned delayed task is dropped by promotion
without entering the ready queue. -/
theorem c5_tombstoned_never_executed_witness :
    (findTask allTombstonesState.store 0).callback = none ∧
    (findTask (wlRes 5 10 allTombstonesState).st.store 0).callback =
      none ∧
    (findTask timerTombState.store 0).callback = none ∧
    0 ∉ (advanceTimers 5 timerTombState).taskQueue.map Prod.snd := by
  refine ⟨rfl, ?_, rfl, ?_⟩
  · exact (c5_tombstoned_never_executed.1 5 10 allTombstonesState 0
      (wlRes 5 10 allTombstonesState) rfl rfl).2
  · exact c5_tombstoned_never_executed.2 5 timerTombState 0 rfl
      (by simp [timerTombState, initialState])


/-! ## C6: delayed-task lifecycle -/

theorem findTask_setSortIndex_ne (s : SchedulerState) (tid : Nat)
    (v : Int) (j : Nat) (h : j ≠ tid) :
    findTask (setSortIndex s tid v).store j = findTask s.store j := by
  simp only [setSortIndex]
  exact findTask_updTask_ne _ _ _ _ h

theorem mem_fst_of_callback_some (st : List (Nat × TaskData)) (tid : Nat)
    (cb : Callback) (h : (findTask st tid).callback = some cb) :
    tid ∈ st.map Prod.fst := by
  induction st with
  | nil => simp [findTask] at h
  | cons p rest ih =>
    obtain ⟨i, t⟩ := p
    by_cases hi : i = tid
    · simp [hi]
    · rw [findTask, if_neg hi] at h
      simp only [List.map_cons, List.mem_cons]
      exact Or.inr (ih h)

theorem findTask_updTask_self_of_mem (st : List (Nat × TaskData))
    (tid : Nat) (f : TaskData → TaskData) (h : tid ∈ st.map Prod.fst) :
    findTask (updTask st tid f) tid = f (findTask st tid) := by
  induction st with
  | nil => simp at h
  | cons p rest ih =>
    obtain ⟨i, t⟩ := p
    by_cases hi : i = tid
    · subst hi
      rw [updTask, if_pos rfl, findTask, if_pos rfl, findTask, if_pos rfl]
    · simp only [List.map_cons, List.mem_cons] at h
      rcases h with rfl | h2
      · exact absurd rfl hi
      · rw [updTask, if_neg hi, findTask, if_neg hi, findTask, if_neg hi]
        exact ih h2

theorem readClock_mono (s : SchedulerState) (hck : ClockOK s) :
    s.lastTime ≤ (readClock s).1 ∧
    (readClock s).2.lastTime = (readClock s).1 ∧
    ClockOK (readClock s).2 := by
  obtain ⟨hp, hl⟩ := hck
  cases hc : s.clock with
  | nil =>
    have he : readClock s = (s.lastTime, s) := by simp [readClock, hc]
    rw [he]
    exact ⟨le_refl _, rfl, hp, hl⟩
  | cons t rest =>
    rw [hc] at hp hl
    have h1 : (readClock s).1 = t := by simp [readClock, hc]
    have h2 : (readClock s).2.lastTime = t := by simp [readClock, hc]
    have h3 : (readClock s).2.clock = rest := by simp [readClock, hc]
    refine ⟨by rw [h1]; exact hl t (by simp), by rw [h1, h2], ?_, ?_⟩
    · rw [h3]
      exact hp.tail
    · intro u hu
      rw [h3] at hu
      rw [h2]
      exact (List.pairwise_cons.mp hp).1 u hu

theorem advanceTimersAux_taskQueue_mono (n : Nat) (ct : Int)
    (s : SchedulerState) (x : HeapKey) (hx : x ∈ s.taskQueue) :
    x ∈ (advanceTimersAux n ct s).taskQueue := by
  induction n generalizing s with
  | zero => exact hx
  | succ n ih =>
    rw [advanceTimersAux]
    rcases h : s.timerQueue with _ | ⟨⟨k, tid⟩, rest⟩
    · exact hx
    · rcases hc : (findTask s.store tid).callback with _ | cb
      · simp only [hc]
        exact ih _ (by simpa using hx)
      · by_cases ht : (findTask s.store tid).startTime ≤ ct
        · simp only [hc, ht, if_true]
          exact ih _ (by
            simp only [promoteHead_taskQueue]
            exact mem_heapPush.mpr (Or.inr hx))
        · simp only [hc, ht, if_false, ite_false, if_neg ht]
          exact hx

theorem advanceTimersAux_stable_of_not_in_timer (n : Nat) (ct : Int)
    (s : SchedulerState) (tid : Nat)
    (hnt : tid ∉ s.timerQueue.map Prod.snd) :
    tid ∉ (advanceTimersAux n ct s).timerQueue.map Prod.snd ∧
    findTask (advanceTimersAux n ct s).store tid = findTask s.store tid := by
  induction n generalizing s with
  | zero => exact ⟨hnt, rfl⟩
  | succ n ih =>
    rw [advanceTimersAux]
    rcases h : s.timerQueue with _ | ⟨⟨k, tid2⟩, rest⟩
    · exact ⟨hnt, rfl⟩
    · rw [h] at hnt
      simp only [List.map_cons, List.mem_cons, not_or] at hnt
      obtain ⟨hne, hnt2⟩ := hnt
      rcases hc : (findTask s.store tid2).callback with _ | cb
      · simp only [hc]
        have := ih (dropTimerHead s) (by
          rw [dropTimerHead_timerQueue, h]
          simpa using hnt2)
        simpa using this
      · by_cases ht : (findTask s.store tid2).startTime ≤ ct
        · simp only [hc, ht, if_true]
          obtain ⟨a, b⟩ := ih
            (promoteHead tid2 (findTask s.store tid2).expirationTime s) (by
              rw [promoteHead_timerQueue, h]
              simpa using hnt2)
          refine ⟨a, ?_⟩
          rw [b, promoteHead_store, findTask_setSortIndex_ne _ _ _ _ hne]
          rfl
        · simp only [hc]
          rw [if_neg ht]
          constructor
          · show tid ∉ s.timerQueue.map Prod.snd
            rw [h]
            simp only [List.map_cons, List.mem_cons, not_or]
            exact ⟨hne, hnt2⟩
          · rfl

theorem ClockOK_of_eq (s1 s2 : SchedulerState) (h1 : s2.clock = s1.clock)
    (h2 : s2.lastTime = s1.lastTime) (h : ClockOK s1) : ClockOK s2 := by
  obtain ⟨a, b⟩ := h
  exact ⟨by rw [h1]; exact a, by rw [h1, h2]; exact b⟩

theorem ReadyStartOK_of_le (s1 s2 : SchedulerState)
    (hq : s2.taskQueue = s1.taskQueue)
    (hs : ∀ j, (findTask s2.store j).startTime =
      (findTask s1.store j).startTime)
    (hl : s1.lastTime ≤ s2.lastTime) (h : ReadyStartOK s1) :
    ReadyStartOK s2 := by
  intro q hq2
  rw [hq] at hq2
  rw [hs]
  exact le_trans (h q hq2) hl

theorem CtrOK_of_eq (s1 s2 : SchedulerState)
    (hq : s2.taskQueue = s1.taskQueue) (ht : s2.timerQueue = s1.timerQueue)
    (hc : s2.taskIdCounter = s1.taskIdCounter) (h : CtrOK s1) : CtrOK s2 := by
  obtain ⟨a, b⟩ := h
  constructor
  · intro q hq2
    rw [hq] at hq2
    rw [hc]
    exact a q hq2
  · intro q hq2
    rw [ht] at hq2
    rw [hc]
    exact b q hq2

theorem yieldCheck_clock (ct : Int) (t : TaskData) (s : SchedulerState)
    (hck : ClockOK s) :
    ClockOK (yieldCheck ct t s).2 ∧
    s.lastTime ≤ (yieldCheck ct t s).2.lastTime := by
  unfold yieldCheck
  split
  · rw [shouldYieldToHost_snd]
    obtain ⟨a, b, c⟩ := readClock_mono s hck
    exact ⟨c, by rw [b]; exact a⟩
  · exact ⟨hck, le_refl _⟩

theorem advanceTimersAux_inv (n : Nat) (ct : Int) (s : SchedulerState)
    (hct : ct ≤ s.lastTime) (hr : ReadyStartOK s) (hc : CtrOK s) :
    ReadyStartOK (advanceTimersAux n ct s) ∧
    CtrOK (advanceTimersAux n ct s) := by
  induction n generalizing s with
  | zero => exact ⟨hr, hc⟩
  | succ n ih =>
    rw [advanceTimersAux]
    rcases h : s.timerQueue with _ | ⟨⟨k, tid2⟩, rest⟩
    · exact ⟨hr, hc⟩
    · rcases hcb : (findTask s.store tid2).callback with _ | cb
      · simp only [hcb]
        apply ih
        · exact hct
        · exact hr
        · refine ⟨hc.1, ?_⟩
          intro q hq
          apply hc.2
          rw [dropTimerHead_timerQueue, h] at hq
          rw [h]
          exact List.mem_cons_of_mem _ hq
      · by_cases ht : (findTask s.store tid2).startTime ≤ ct
        · simp only [hcb, ht, if_true]
          apply ih
          · exact hct
          · intro q hq
            rw [promoteHead_taskQueue] at hq
            rcases mem_heapPush.mp hq with rfl | hq2
            · rw [findTask_promoteHead_startTime]
              exact le_trans ht hct
            · rw [findTask_promoteHead_startTime]
              exact hr q hq2
          · constructor
            · intro q hq
              rw [promoteHead_taskQueue] at hq
              rcases mem_heapPush.mp hq with rfl | hq2
              · rw [promoteHead_taskIdCounter]
                exact hc.2 (k, tid2) (by rw [h]; simp)
              · rw [promoteHead_taskIdCounter]
                exact hc.1 q hq2
            · intro q hq
              rw [promoteHead_timerQueue, h] at hq
              rw [promoteHead_taskIdCounter]
              exact hc.2 q (by rw [h]; exact List.mem_cons_of_mem _ hq)
        · simp only [hcb]
          rw [if_neg ht]
          exact ⟨hr, hc⟩

theorem advanceTimers_inv (ct : Int) (s : SchedulerState)
    (hct : ct ≤ s.lastTime) (hr : ReadyStartOK s) (hc : CtrOK s) :
    ReadyStartOK (advanceTimers ct s) ∧ CtrOK (advanceTimers ct s) := by
  unfold advanceTimers
  exact advanceTimersAux_inv _ _ _ hct hr hc

theorem popHead_inv (s : SchedulerState) (hr : ReadyStartOK s)
    (hc : CtrOK s) : ReadyStartOK (popHead s) ∧ CtrOK (popHead s) := by
  constructor
  · intro q hq
    rw [popHead_taskQueue] at hq
    rw [popHead_store, popHead_lastTime]
    exact hr q (List.mem_of_mem_tail hq)
  · constructor
    · intro q hq
      rw [popHead_taskQueue] at hq
      rw [popHead_taskIdCounter]
      exact hc.1 q (List.mem_of_mem_tail hq)
    · intro q hq
      rw [popHead_timerQueue] at hq
      rw [popHead_taskIdCounter]
      exact hc.2 q hq

theorem runBodyDone_inv (ct2 : Int) (tid : Nat) (s : SchedulerState)
    (hct : ct2 ≤ s.lastTime) (hr : ReadyStartOK s) (hc : CtrOK s) :
    ReadyStartOK (runBodyDone ct2 tid s) ∧ CtrOK (runBodyDone ct2 tid s) := by
  unfold runBodyDone
  split
  · obtain ⟨a, b⟩ := popHead_inv s hr hc
    exact advanceTimers_inv _ _ (by rw [popHead_lastTime]; exact hct) a b
  · exact advanceTimers_inv _ _ hct hr hc

theorem workLoopAux_inv (fuel : Nat) (ct : Int) (s : SchedulerState)
    (r : LoopRes) (hct : ct ≤ s.lastTime) (hck : ClockOK s)
    (hr : ReadyStartOK s) (hc : CtrOK s)
    (h : workLoopAux fuel ct s = some r) :
    ClockOK r.st ∧ ReadyStartOK r.st ∧ CtrOK r.st := by
  induction fuel generalizing ct s r with
  | zero => simp [workLoopAux] at h
  | succ fuel ih =>
    rw [workLoopAux] at h
    rcases hq : s.taskQueue with _ | ⟨⟨k, tid⟩, rest⟩ <;> rw [hq] at h
    · obtain rfl := Option.some.inj h
      refine ⟨ClockOK_of_eq s _ (by simp) (by simp) hck,
        ReadyStartOK_of_le s _ (by simp) (fun j => by simp) (by simp) hr,
        CtrOK_of_eq s _ (by simp) (by simp) (by simp) hc⟩
    · simp only [] at h
      have hyc := yieldCheck_clock ct
        (findTask (setCurrentTask s (some tid)).store tid)
        (setCurrentTask s (some tid))
        (ClockOK_of_eq s _ (by simp) (by simp) hck)
      obtain ⟨yc1, yc2⟩ := hyc
      have yc2' : s.lastTime ≤ (yieldCheck ct
          (findTask (setCurrentTask s (some tid)).store tid)
          (setCurrentTask s (some tid))).2.lastTime := by
        simpa using yc2
      split at h
      · obtain rfl := Option.some.inj h
        refine ⟨yc1, ?_, ?_⟩
        · exact ReadyStartOK_of_le s _ (by simp) (fun j => by simp) yc2' hr
        · exact CtrOK_of_eq s _ (by simp) (by simp) (by simp) hc
      · split at h
        · -- tombstoned head: recurse on popHead
          apply ih _ _ _ _ _ _ _ h
          · rw [popHead_lastTime]
            exact le_trans hct yc2'
          · exact ClockOK_of_eq _ _ (by simp) (by simp) yc1
          · intro q hq2
            rw [popHead_taskQueue] at hq2
            simp only [yieldCheck_snd_taskQueue, setCurrentTask_taskQueue]
              at hq2
            rw [hq] at hq2
            simp only [popHead_store, yieldCheck_snd_store,
              setCurrentTask_store, popHead_lastTime]
            refine le_trans (hr q ?_) yc2'
            rw [hq]
            exact List.mem_cons_of_mem _ hq2
          · refine ⟨?_, ?_⟩ <;> intro q hq2
            · rw [popHead_taskQueue] at hq2
              simp only [yieldCheck_snd_taskQueue,
                setCurrentTask_taskQueue] at hq2
              rw [hq] at hq2
              simp only [popHead_taskIdCounter, yieldCheck_snd_taskIdCounter,
                setCurrentTask_taskIdCounter]
              refine hc.1 q ?_
              rw [hq]
              exact List.mem_cons_of_mem _ hq2
            · rw [popHead_timerQueue] at hq2
              simp only [yieldCheck_snd_timerQueue,
                setCurrentTask_timerQueue] at hq2
              simp only [popHead_taskIdCounter, yieldCheck_snd_taskIdCounter,
                setCurrentTask_taskIdCounter]
              exact hc.2 q hq2
        · -- valid callback
          rename_i cb hcb
          have hck1 : ClockOK (setCurrentPriority (setCallback
              (yieldCheck ct (findTask (setCurrentTask s (some tid)).store
                tid) (setCurrentTask s (some tid))).2 tid none)
              (findTask (setCurrentTask s (some tid)).store
                tid).priorityLevel) :=
            ClockOK_of_eq _ _ (by simp) (by simp) yc1
          have hr1 : ReadyStartOK (setCurrentPriority (setCallback
              (yieldCheck ct (findTask (setCurrentTask s (some tid)).store
                tid) (setCurrentTask s (some tid))).2 tid none)
              (findTask (setCurrentTask s (some tid)).store
                tid).priorityLevel) := by
            intro q hq2
            simp only [setCurrentPriority_taskQueue, setCallback_taskQueue,
              yieldCheck_snd_taskQueue, setCurrentTask_taskQueue] at hq2
            simp only [setCurrentPriority_store, setCurrentPriority_lastTime,
              setCallback_lastTime]
            rw [findTask_setCallback_startTime]
            simp only [yieldCheck_snd_store, setCurrentTask_store]
            exact le_trans (hr q hq2) yc2'
          set s1 := setCurrentPriority (setCallback
            (yieldCheck ct (findTask (setCurrentTask s (some tid)).store
              tid) (setCurrentTask s (some tid))).2 tid none)
            (findTask (setCurrentTask s (some tid)).store
              tid).priorityLevel with hs1
          have hc1 : CtrOK s1 :=
            CtrOK_of_eq s _ (by simp [hs1]) (by simp [hs1]) (by simp [hs1])
              hc
          have hq1 : s1.taskQueue = s.taskQueue := by simp [hs1]
          obtain ⟨m1, m2, m3⟩ := readClock_mono s1 hck1
          have hrc : ReadyStartOK (readClock s1).2 :=
            ReadyStartOK_of_le s1 _ (by simp) (fun j => by simp)
              (by rw [m2]; exact m1) hr1
          have hcc : CtrOK (readClock s1).2 :=
            CtrOK_of_eq s1 _ (by simp) (by simp) (by simp) hc1
          split at h
          · obtain rfl := Option.some.inj h
            exact ⟨m3, hrc, hcc⟩
          · rename_i cont hrun
            obtain rfl := Option.some.inj h
            have hck2 : ClockOK (setCallback (readClock s1).2 tid
                (some cont)) := ClockOK_of_eq _ _ (by simp) (by simp) m3
            have h2 := advanceTimers_inv (readClock s1).1
              (setCallback (readClock s1).2 tid (some cont))
              (by rw [setCallback_lastTime, m2])
              (by
                intro q hq2
                simp only [setCallback_taskQueue] at hq2
                rw [findTask_setCallback_startTime]
                simp only [setCallback_lastTime]
                exact hrc q hq2)
              (CtrOK_of_eq _ _ (by simp) (by simp) (by simp) hcc)
            exact ⟨ClockOK_of_eq _ _ (by simp) (by simp) hck2, h2.1, h2.2⟩
          · split at h
            · exact absurd h (by simp)
            · obtain rfl := Option.some.inj h
              rename_i r' hr'
              obtain ⟨hrb1, hrb2⟩ := runBodyDone_inv (readClock s1).1 tid
                (readClock s1).2 (le_of_eq m2.symm) hrc hcc
              have hres := ih _ _ _
                (by rw [runBodyDone_lastTime]; exact le_of_eq m2.symm)
                (ClockOK_of_eq _ _ (by simp) (by simp) m3) hrb1 hrb2 hr'
              simpa using hres

theorem scheduleCallback_pos_proj (cfg : SchedulerConfig) (p : Nat)
    (cb : Callback) (dv : Int) (s : SchedulerState) (hdv : 0 < dv) :
    (scheduleCallback cfg p cb (some dv) s).taskQueue = s.taskQueue ∧
    (scheduleCallback cfg p cb (some dv) s).timerQueue =
      heapPush s.timerQueue ((readClock s).1 + dv, s.taskIdCounter) ∧
    (scheduleCallback cfg p cb (some dv) s).taskIdCounter =
      s.taskIdCounter + 1 ∧
    (∀ j, j ≠ s.taskIdCounter →
       findTask (scheduleCallback cfg p cb (some dv) s).store j =
         findTask s.store j) ∧
    findTask (scheduleCallback cfg p cb (some dv) s).store
        s.taskIdCounter =
      { callback := some cb, priorityLevel := p,
        startTime := (readClock s).1 + dv,
        expirationTime := (readClock s).1 + dv +
          getTimeoutForPriority cfg p,
        sortIndex := (readClock s).1 + dv } ∧
    (scheduleCallback cfg p cb (some dv) s).lastTime =
      (readClock s).2.lastTime ∧
    (scheduleCallback cfg p cb (some dv) s).clock =
      (readClock s).2.clock := by
  unfold scheduleCallback
  rcases hr : readClock s with ⟨ct, s1⟩
  have hst : s1.store = s.store := by
    have := readClock_snd_store s; rw [hr] at this; exact this
  have hctr : s1.taskIdCounter = s.taskIdCounter := by
    have := readClock_snd_taskIdCounter s; rw [hr] at this; exact this
  have htq : s1.taskQueue = s.taskQueue := by
    have := readClock_snd_taskQueue s; rw [hr] at this; exact this
  have htmq : s1.timerQueue = s.timerQueue := by
    have := readClock_snd_timerQueue s; rw [hr] at this; exact this
  simp only [hr, if_pos hdv, gt_iff_lt, hctr]
  have hgt : ct < ct + dv := by omega
  simp only [if_pos hgt]
  refine ⟨?_, ?_, ?_, ?_, ?_, ?_, ?_⟩
  · split <;> (try split) <;> simp [setSortIndex, htq]
  · split <;> (try split) <;> simp [setSortIndex, htmq, hctr]
  · split <;> (try split) <;> simp [setSortIndex, hctr]
  · intro j hj
    split <;> (try split) <;>
      (simp only [requestHostTimeout_store, cancelHostTimeout_store,
          setSortIndex];
       rw [findTask_updTask_ne _ _ _ _ hj, findTask_cons_ne _ _ _ _ hj,
           hst])
  · split <;> (try split) <;>
      (simp only [requestHostTimeout_store, cancelHostTimeout_store,
          setSortIndex];
       rw [findTask_updTask_cons_self])
  · split <;> (try split) <;> simp [setSortIndex, hr]
  · split <;> (try split) <;> simp [setSortIndex, hr]

theorem scheduleCallback_inv (cfg : SchedulerConfig) (p : Nat)
    (cb : Callback) (d : Option Int) (s : SchedulerState)
    (hck : ClockOK s) (hr : ReadyStartOK s) (hc : CtrOK s) :
    ClockOK (scheduleCallback cfg p cb d s) ∧
    ReadyStartOK (scheduleCallback cfg p cb d s) ∧
    CtrOK (scheduleCallback cfg p cb d s) := by
  obtain ⟨m1, m2, m3⟩ := readClock_mono s hck
  have key0 : ∀ d2, scheduleCallback cfg p cb d2 s =
      scheduleCallback cfg p cb none s ∨
      (∃ dv, d2 = some dv ∧ 0 < dv) := by
    intro d2
    rcases d2 with _ | dv
    · exact Or.inl rfl
    · by_cases hdv : 0 < dv
      · exact Or.inr ⟨dv, rfl, hdv⟩
      · exact Or.inl (scheduleCallback_some_nonpos cfg p cb dv s
          (by omega))
  rcases key0 d with heq | ⟨dv, rfl, hdv⟩
  · rw [heq]
    obtain ⟨h1, h2, h3, h4, h5, h6, h7⟩ :=
      scheduleCallback_none_proj cfg p cb s
    refine ⟨ClockOK_of_eq (readClock s).2 _ h7 h6 m3, ?_, ?_, ?_⟩
    · intro q hq
      rw [h1] at hq
      rw [h6, m2]
      rcases mem_heapPush.mp hq with rfl | hq2
      · rw [h5]
      · have hne : q.2 ≠ s.taskIdCounter := by
          have := hc.1 q hq2; omega
        rw [h4 q.2 hne]
        exact le_trans (hr q hq2) m1
    · intro q hq
      rw [h1] at hq
      rw [h3]
      rcases mem_heapPush.mp hq with rfl | hq2
      · simp
      · have := hc.1 q hq2; omega
    · intro q hq
      rw [h2] at hq
      rw [h3]
      have := hc.2 q hq
      omega
  · obtain ⟨h1, h2, h3, h4, h5, h6, h7⟩ :=
      scheduleCallback_pos_proj cfg p cb dv s hdv
    refine ⟨ClockOK_of_eq (readClock s).2 _ h7 h6 m3, ?_, ?_, ?_⟩
    · intro q hq
      rw [h1] at hq
      rw [h6, m2]
      have hne : q.2 ≠ s.taskIdCounter := by
        have := hc.1 q hq; omega
      rw [h4 q.2 hne]
      exact le_trans (hr q hq) m1
    · intro q hq
      rw [h1] at hq
      rw [h3]
      have := hc.1 q hq
      omega
    · intro q hq
      rw [h2] at hq
      rw [h3]
      rcases mem_heapPush.mp hq with rfl | hq2
      · simp
      · have := hc.2 q hq2; omega

theorem handleTimeout_taskQueue (ct : Int) (s : SchedulerState) :
    (handleTimeout ct s).taskQueue =
      (advanceTimers ct { s with isHostTimeoutScheduled := false
        }).taskQueue := by
  unfold handleTimeout
  dsimp only
  split
  · rfl
  · split
    · simp
    · split <;> simp

theorem handleTimeout_timerQueue (ct : Int) (s : SchedulerState) :
    (handleTimeout ct s).timerQueue =
      (advanceTimers ct { s with isHostTimeoutScheduled := false
        }).timerQueue := by
  unfold handleTimeout
  dsimp only
  split
  · rfl
  · split
    · simp
    · split <;> simp

theorem handleTimeout_store (ct : Int) (s : SchedulerState) :
    (handleTimeout ct s).store =
      (advanceTimers ct { s with isHostTimeoutScheduled := false
        }).store := by
  unfold handleTimeout
  dsimp only
  split
  · rfl
  · split
    · simp
    · split <;> simp

theorem handleTimeout_taskIdCounter (ct : Int) (s : SchedulerState) :
    (handleTimeout ct s).taskIdCounter =
      (advanceTimers ct { s with isHostTimeoutScheduled := false
        }).taskIdCounter := by
  unfold handleTimeout
  dsimp only
  split
  · rfl
  · split
    · simp
    · split <;> simp

theorem handleTimeout_clock (ct : Int) (s : SchedulerState) :
    (handleTimeout ct s).clock =
      (advanceTimers ct { s with isHostTimeoutScheduled := false
        }).clock := by
  unfold handleTimeout
  dsimp only
  split
  · rfl
  · split
    · simp
    · split <;> simp

theorem handleTimeout_lastTime (ct : Int) (s : SchedulerState) :
    (handleTimeout ct s).lastTime =
      (advanceTimers ct { s with isHostTimeoutScheduled := false
        }).lastTime := by
  unfold handleTimeout
  dsimp only
  split
  · rfl
  · split
    · simp
    · split <;> simp

theorem handleTimeout_inv (ct : Int) (s : SchedulerState)
    (hct : ct ≤ s.lastTime) (hck : ClockOK s) (hr : ReadyStartOK s)
    (hc : CtrOK s) :
    ClockOK (handleTimeout ct s) ∧ ReadyStartOK (handleTimeout ct s) ∧
    CtrOK (handleTimeout ct s) := by
  have hck2 : ClockOK (advanceTimers ct
      { s with isHostTimeoutScheduled := false }) :=
    ClockOK_of_eq s _ (by simp) (by simp) hck
  obtain ⟨ha, hb⟩ := advanceTimers_inv ct
    { s with isHostTimeoutScheduled := false } (by simpa using hct)
    (by intro q hq; simpa using hr q (by simpa using hq))
    (by
      constructor <;> intro q hq
      · simpa using hc.1 q (by simpa using hq)
      · simpa using hc.2 q (by simpa using hq))
  refine ⟨ClockOK_of_eq _ _ (handleTimeout_clock ct s)
      (handleTimeout_lastTime ct s) hck2, ?_, ?_⟩
  · intro q hq
    rw [handleTimeout_taskQueue] at hq
    rw [handleTimeout_store, handleTimeout_lastTime]
    exact ha q hq
  · constructor <;> intro q hq
    · rw [handleTimeout_taskQueue] at hq
      rw [handleTimeout_taskIdCounter]
      exact hb.1 q hq
    · rw [handleTimeout_timerQueue] at hq
      rw [handleTimeout_taskIdCounter]
      exact hb.2 q hq

theorem performWorkUntilDeadline_inv (fuel : Nat) (s : SchedulerState)
    (r : LoopRes) (hck : ClockOK s) (hr : ReadyStartOK s) (hc : CtrOK s)
    (h : performWorkUntilDeadline fuel s = some r) :
    ClockOK r.st ∧ ReadyStartOK r.st ∧ CtrOK r.st := by
  rw [performWorkUntilDeadline] at h
  split at h
  · dsimp only at h
    rcases hf : flushWork fuel (readClock s).1 (readClock s).2 with _ | r0 <;>
      rw [hf] at h
    · simp [Option.map] at h
    · have hfr : pwdFinish r0 = r := by simpa using h
      subst hfr
      rw [flushWork] at hf
      rcases hw : workLoop fuel (readClock s).1
          (flushStart (readClock s).2) with _ | r1 <;> rw [hw] at hf
      · simp [Option.map] at hf
      · have hfr1 : flushFinish (readClock s).2.currentPriorityLevel r1 =
            r0 := by simpa using hf
        subst hfr1
        obtain ⟨m1, m2, m3⟩ := readClock_mono s hck
        rw [workLoop] at hw
        have hati : ClockOK (advanceTimers (readClock s).1
            (flushStart (readClock s).2)) :=
          ClockOK_of_eq _ _ (by simp) (by simp) m3
        obtain ⟨ha, hb⟩ := advanceTimers_inv (readClock s).1
          (flushStart (readClock s).2)
          (by rw [flushStart_lastTime, m2])
          (by
            intro q hq
            simp only [flushStart_taskQueue] at hq
            simp only [flushStart_store, flushStart_lastTime]
            rw [m2]
            refine le_trans ?_ m1
            have hnq : q ∈ s.taskQueue := by simpa using hq
            simpa using hr q hnq)
          (by
            constructor <;> intro q hq
            · simp only [flushStart_taskQueue] at hq
              simp only [flushStart_taskIdCounter]
              have hnq : q ∈ s.taskQueue := by simpa using hq
              simpa using hc.1 q hnq
            · simp only [flushStart_timerQueue] at hq
              simp only [flushStart_taskIdCounter]
              have hnq : q ∈ s.timerQueue := by simpa using hq
              simpa using hc.2 q hnq)
        obtain ⟨w1, w2, w3⟩ := workLoopAux_inv _ _ _ _
          (by rw [advanceTimers_lastTime, flushStart_lastTime, m2]) hati
          ha hb hw
        refine ⟨ClockOK_of_eq r1.st _ (by simp) (by simp) w1, ?_, ?_⟩
        · intro q hq
          simp only [pwdFinish_st_taskQueue, flushFinish_st_taskQueue]
            at hq
          simp only [pwdFinish_st_store, flushFinish_st_store,
            pwdFinish_st_lastTime, flushFinish_st_lastTime]
          exact w2 q hq
        · constructor <;> intro q hq
          · simp only [pwdFinish_st_taskQueue, flushFinish_st_taskQueue]
              at hq
            simp only [pwdFinish_st_taskIdCounter,
              flushFinish_st_taskIdCounter]
            exact w3.1 q hq
          · simp only [pwdFinish_st_timerQueue, flushFinish_st_timerQueue]
              at hq
            simp only [pwdFinish_st_taskIdCounter,
              flushFinish_st_taskIdCounter]
            exact w3.2 q hq
  · obtain rfl := Option.some.inj h
    exact ⟨hck, hr, hc⟩


theorem cancelStep_inv (cfg : SchedulerConfig) (s s2 : SchedulerState)
    (hck : ClockOK s) (hr : ReadyStartOK s) (hc : CtrOK s)
    (h : step cfg SchedulerEvent.cancel s = some s2) :
    ClockOK s2 ∧ ReadyStartOK s2 ∧ CtrOK s2 := by
  rw [step] at h
  unfold cancelCallback at h
  rcases hcur : s.currentTask with _ | tid <;> rw [hcur] at h
  · simp at h
  · obtain rfl := Option.some.inj h
    refine ⟨ClockOK_of_eq s _ (by simp) (by simp) hck, ?_, ?_⟩
    · intro q hq
      simp only [setCallback_taskQueue] at hq
      rw [findTask_setCallback_startTime]
      simp only [setCallback_lastTime]
      exact hr q hq
    · exact CtrOK_of_eq s _ (by simp) (by simp) (by simp) hc

theorem fireTimerStep_inv (cfg : SchedulerConfig) (hd : Int)
    (s s2 : SchedulerState) (hck : ClockOK s) (hr : ReadyStartOK s)
    (hc : CtrOK s)
    (h : step cfg (SchedulerEvent.fireTimer hd) s = some s2) :
    ClockOK s2 ∧ ReadyStartOK s2 ∧ CtrOK s2 := by
  rw [step] at h
  split at h
  case isFalse => exact absurd h (by simp)
  case isTrue =>
    dsimp only at h
    obtain rfl := Option.some.inj h
    have hck1 : ClockOK { s with armedTimers := s.armedTimers.filter (fun p => decide (p.1 ≠ hd)) } :=
      ClockOK_of_eq s _ (by simp) (by simp) hck
    obtain ⟨m1, m2, m3⟩ := readClock_mono _ hck1
    refine handleTimeout_inv _ _ (le_of_eq m2.symm) m3 ?_ ?_
    · refine ReadyStartOK_of_le s _ (by simp) (fun j => by simp) ?_ hr
      rw [m2]
      exact le_trans (by simp) m1
    · exact CtrOK_of_eq s _ (by simp) (by simp) (by simp) hc

theorem fireMessageStep_inv (cfg : SchedulerConfig) (fuel : Nat)
    (s s2 : SchedulerState) (hck : ClockOK s) (hr : ReadyStartOK s)
    (hc : CtrOK s)
    (h : step cfg (SchedulerEvent.fireMessage fuel) s = some s2) :
    ClockOK s2 ∧ ReadyStartOK s2 ∧ CtrOK s2 := by
  rw [step] at h
  rcases hpm : s.postedMessages with _ | n <;> rw [hpm] at h
  · simp at h
  · dsimp only at h
    rcases hp : performWorkUntilDeadline fuel
        { s with postedMessages := n } with _ | r <;> rw [hp] at h
    · simp [Option.map] at h
    · have hrs : r.st = s2 := by simpa using h
      subst hrs
      exact performWorkUntilDeadline_inv fuel _ r
        (ClockOK_of_eq s _ (by simp) (by simp) hck)
        (by intro q hq; simpa using hr q (by simpa using hq))
        (by
          constructor <;> intro q hq
          · simpa using hc.1 q (by simpa using hq)
          · simpa using hc.2 q (by simpa using hq))
        hp

theorem step_inv (cfg : SchedulerConfig) (ev : SchedulerEvent)
    (s s2 : SchedulerState) (hck : ClockOK s) (hr : ReadyStartOK s)
    (hc : CtrOK s) (h : step cfg ev s = some s2) :
    ClockOK s2 ∧ ReadyStartOK s2 ∧ CtrOK s2 := by
  cases ev
  case schedule p cb d =>
    obtain rfl := Option.some.inj h
    exact scheduleCallback_inv cfg p cb d s hck hr hc
  case fireMessage fuel => exact fireMessageStep_inv cfg fuel s s2 hck hr hc h
  case fireTimer hd => exact fireTimerStep_inv cfg hd s s2 hck hr hc h
  case cancel => exact cancelStep_inv cfg s s2 hck hr hc h

theorem run_inv (cfg : SchedulerConfig) (evs : List SchedulerEvent)
    (s s2 : SchedulerState) (hck : ClockOK s) (hr : ReadyStartOK s)
    (hc : CtrOK s) (h : run cfg evs s = some s2) :
    ClockOK s2 ∧ ReadyStartOK s2 ∧ CtrOK s2 := by
  induction evs generalizing s with
  | nil =>
    rw [run] at h
    obtain rfl := Option.some.inj h
    exact ⟨hck, hr, hc⟩
  | cons ev rest ih =>
    rw [run] at h
    rcases hs : step cfg ev s with _ | s1 <;> rw [hs] at h
    · simp at h
    · obtain ⟨a, b, c⟩ := step_inv cfg ev s s1 hck hr hc hs
      exact ih s1 a b c h

theorem initialState_reachInv (clock : List Int)
    (h1 : List.Pairwise (· ≤ ·) clock) (h2 : ∀ t ∈ clock, 0 ≤ t) :
    ClockOK (initialState clock) ∧ ReadyStartOK (initialState clock) ∧
    CtrOK (initialState clock) := by
  refine ⟨⟨?_, ?_⟩, ?_, ?_, ?_⟩
  · simpa [initialState] using h1
  · intro t ht
    simp only [initialState] at ht ⊢
    exact h2 t ht
  · intro q hq
    simp [initialState] at hq
  · intro q hq
    simp [initialState] at hq
  · intro q hq
    simp [initialState] at hq

/-- C6: a task scheduled with `delay > 0` goes only into the delay queue
with `sortIndex = startTime`; when promotion runs at or after its start
time on the delay-queue minimum, the task is popped from the delay queue,
its `sortIndex` is reassigned to its `expirationTime`, and it is inserted
into the ready queue; and in every reachable state (monotone non-negative
clock) every ready-queue task has `startTime` at most the last observed
time, so a delayed task never sits in the ready queue before its start
time. -/
theorem c6_delayed_task_lifecycle :
    (∀ cfg p cb dv s, 0 < dv →
      s.taskIdCounter ∉ s.taskQueue.map Prod.snd →
      (s.taskIdCounter ∉
        (scheduleCallback cfg p cb (some dv) s).taskQueue.map Prod.snd ∧
       s.taskIdCounter ∈
        (scheduleCallback cfg p cb (some dv) s).timerQueue.map Prod.snd ∧
       (findTask (scheduleCallback cfg p cb (some dv) s).store
          s.taskIdCounter).sortIndex =
        (findTask (scheduleCallback cfg p cb (some dv) s).store
          s.taskIdCounter).startTime)) ∧
    (∀ ct s k tid rest, s.timerQueue = (k, tid) :: rest →
      (∃ cb, (findTask s.store tid).callback = some cb) →
      (findTask s.store tid).startTime ≤ ct →
      tid ∉ rest.map Prod.snd →
      (((findTask s.store tid).expirationTime, tid) ∈
         (advanceTimers ct s).taskQueue ∧
       tid ∉ (advanceTimers ct s).timerQueue.map Prod.snd ∧
       (findTask (advanceTimers ct s).store tid).sortIndex =
         (findTask s.store tid).expirationTime)) ∧
    (∀ cfg evs clock s, List.Pairwise (· ≤ ·) clock →
      (∀ t ∈ clock, 0 ≤ t) →
      run cfg evs (initialState clock) = some s →
      ∀ q ∈ s.taskQueue, (findTask s.store q.2).startTime ≤ s.lastTime) := by
  refine ⟨?_, ?_, ?_⟩
  · intro cfg p cb dv s hdv hnot
    obtain ⟨h1, h2, h3, h4, h5, h6, h7⟩ :=
      scheduleCallback_pos_proj cfg p cb dv s hdv
    refine ⟨by rw [h1]; exact hnot, ?_, ?_⟩
    · rw [h2]
      exact mem_snd_heapPush.mpr (Or.inl rfl)
    · rw [h5]
  · intro ct s k tid rest hq ⟨cb, hcb⟩ hst hnr
    unfold advanceTimers
    rw [hq, List.length_cons, advanceTimersAux, hq]
    simp only [hcb]
    rw [if_pos hst]
    have hmem : tid ∈ s.store.map Prod.fst :=
      mem_fst_of_callback_some _ _ _ hcb
    have hpq : tid ∉ (promoteHead tid
        (findTask s.store tid).expirationTime s).timerQueue.map
        Prod.snd := by
      rw [promoteHead_timerQueue, hq]
      exact hnr
    obtain ⟨st1, st2⟩ := advanceTimersAux_stable_of_not_in_timer
      rest.length ct _ tid hpq
    refine ⟨?_, st1, ?_⟩
    · apply advanceTimersAux_taskQueue_mono
      rw [promoteHead_taskQueue]
      exact mem_heapPush.mpr (Or.inl rfl)
    · rw [st2, promoteHead_store]
      simp only [setSortIndex]
      rw [findTask_updTask_self_of_mem _ _ _ (by simpa using hmem)]
  · intro cfg evs clock s hp h0 hrun
    obtain ⟨a, b, c⟩ := initialState_reachInv clock hp h0
    exact (run_inv cfg evs _ s a b c hrun).2.1

/-- C6 witness: scheduling with delay 100 at time 0 files task 0 under the
delay queue only; promotion at time 10 moves the pending delayed task of
`delayedPendingState` into the ready queue re-keyed by its expiration
time; and after a zero-delay schedule from the initial state the sole
ready task satisfies the start-time bound. -/
theorem c6_delayed_task_lifecycle_witness :
    (0 ∉ (scheduleCallback reactConfig NormalPriority cbDone (some 100)
        (initialState [0])).taskQueue.map Prod.snd ∧
     0 ∈ (scheduleCallback reactConfig NormalPriority cbDone (some 100)
        (initialState [0])).timerQueue.map Prod.snd ∧
     (findTask (scheduleCallback reactConfig NormalPriority cbDone (some 100)
        (initialState [0])).store 0).sortIndex =
     (findTask (scheduleCallback reactConfig NormalPriority cbDone (some 100)
        (initialState [0])).store 0).startTime) ∧
    (((findTask delayedPendingState.store 0).expirationTime, 0) ∈
       (advanceTimers 10 delayedPendingState).taskQueue ∧
     0 ∉ (advanceTimers 10 delayedPendingState).timerQueue.map Prod.snd ∧
     (findTask (advanceTimers 10 delayedPendingState).store 0).sortIndex =
       (findTask delayedPendingState.store 0).expirationTime) ∧
    (findTask (scheduleCallback reactConfig NormalPriority cbDone none
        (initialState [0])).store 0).startTime ≤
      (scheduleCallback reactConfig NormalPriority cbDone none
        (initialState [0])).lastTime := by
  refine ⟨?_, ?_, ?_⟩
  · exact c6_delayed_task_lifecycle.1 reactConfig NormalPriority cbDone 100
      (initialState [0]) (by decide) (by decide)
  · exact c6_delayed_task_lifecycle.2.1 10 delayedPendingState 5 0 []
      rfl ⟨cbDone, rfl⟩ (by decide) (by decide)
  · exact (c6_delayed_task_lifecycle.2.2 reactConfig
      [SchedulerEvent.schedule NormalPriority cbDone none] [0] _
      (by decide) (by decide) rfl) (5000, 0) (by decide)


/-! ## C7: continuation handling -/

theorem readClock_snd_lastTime_eq (s : SchedulerState) :
    (readClock s).2.lastTime = (readClock s).1 := by
  rw [readClock]
  rcases s.clock with _ | ⟨t, rest⟩ <;> rfl

theorem updTask_map_fst (st : List (Nat × TaskData)) (i : Nat)
    (f : TaskData → TaskData) :
    (updTask st i f).map Prod.fst = st.map Prod.fst := by
  induction st with
  | nil => rfl
  | cons p rest ih =>
    obtain ⟨pi, pt⟩ := p
    by_cases hpi : pi = i
    · rw [updTask, if_pos hpi]
      simp [ih]
    · rw [updTask, if_neg hpi]
      simp [ih]

theorem advanceTimersAux_sorted (n : Nat) (ct : Int) (s : SchedulerState)
    (hs : List.Sorted keyLe s.taskQueue) :
    List.Sorted keyLe (advanceTimersAux n ct s).taskQueue := by
  induction n generalizing s with
  | zero => exact hs
  | succ n ih =>
    rw [advanceTimersAux]
    rcases h : s.timerQueue with _ | ⟨⟨k, tid⟩, rest⟩
    · exact hs
    · rcases hc : (findTask s.store tid).callback with _ | cb
      · simp only [hc]
        exact ih _ (by rw [dropTimerHead_taskQueue]; exact hs)
      · by_cases ht : (findTask s.store tid).startTime ≤ ct
        · simp only [hc, ht, if_true]
          exact ih _ (by
            rw [promoteHead_taskQueue]
            exact heapPush_sorted _ hs)
        · simp only [hc]
          rw [if_neg ht]
          exact hs

theorem advanceTimersAux_nodupIds (n : Nat) (ct : Int) (s : SchedulerState)
    (hnd : (s.taskQueue.map Prod.snd ++ s.timerQueue.map Prod.snd).Nodup) :
    ((advanceTimersAux n ct s).taskQueue.map Prod.snd ++
      (advanceTimersAux n ct s).timerQueue.map Prod.snd).Nodup := by
  induction n generalizing s with
  | zero => exact hnd
  | succ n ih =>
    rw [advanceTimersAux]
    rcases h : s.timerQueue with _ | ⟨⟨k, tid⟩, rest⟩
    · exact hnd
    · rw [h] at hnd
      simp only [List.map_cons] at hnd
      have hmid : (s.taskQueue.map Prod.snd ++ tid :: rest.map Prod.snd).Perm
          (tid :: (s.taskQueue.map Prod.snd ++ rest.map Prod.snd)) :=
        List.perm_middle
      have hcons : (tid :: (s.taskQueue.map Prod.snd ++
          rest.map Prod.snd)).Nodup := hmid.nodup hnd
      rcases hc : (findTask s.store tid).callback with _ | cb
      · simp only [hc]
        exact ih _ (by
          rw [dropTimerHead_taskQueue, dropTimerHead_timerQueue, h]
          exact (List.nodup_cons.mp hcons).2)
      · by_cases ht : (findTask s.store tid).startTime ≤ ct
        · simp only [hc, ht, if_true]
          refine ih _ ?_
          rw [promoteHead_taskQueue, promoteHead_timerQueue, h]
          have hperm : ((heapPush s.taskQueue
              ((findTask s.store tid).expirationTime, tid)).map Prod.snd ++
              rest.map Prod.snd).Perm
              ((tid :: s.taskQueue.map Prod.snd) ++ rest.map Prod.snd) :=
            List.Perm.append_right _ (by
              simpa using (heapPush_perm s.taskQueue
                ((findTask s.store tid).expirationTime, tid)).map Prod.snd)
          refine hperm.symm.nodup ?_
          simpa [List.cons_append] using hcons
        · simp only [hc]
          rw [if_neg ht, h]
          simpa using hnd

theorem advanceTimersAux_head_pending (n : Nat) (ct : Int)
    (s : SchedulerState) (k2 : Int) (tid2 : Nat) (rest2 : List HeapKey)
    (hn : s.timerQueue.length ≤ n)
    (hhd : (advanceTimersAux n ct s).timerQueue = (k2, tid2) :: rest2)
    (hcb : (findTask (advanceTimersAux n ct s).store tid2).callback ≠ none) :
    ct < (findTask (advanceTimersAux n ct s).store tid2).startTime := by
  induction n generalizing s with
  | zero =>
    rw [advanceTimersAux] at hhd
    rw [hhd] at hn
    simp at hn
  | succ n ih =>
    rw [advanceTimersAux] at hhd hcb ⊢
    rcases h : s.timerQueue with _ | ⟨⟨k, tid⟩, rest⟩ <;>
      rw [h] at hhd hcb
    · dsimp only at hhd
      rw [h] at hhd
      cases hhd
    · rw [h, List.length_cons] at hn
      dsimp only at hhd hcb ⊢
      rcases hc : (findTask s.store tid).callback with _ | cb <;>
        simp only [hc] at hhd hcb ⊢
      · refine ih _ ?_ hhd hcb
        rw [dropTimerHead_timerQueue, h]
        simpa using Nat.le_of_succ_le_succ hn
      · by_cases ht : (findTask s.store tid).startTime ≤ ct <;>
          simp only [ht, if_true, if_false, ite_true, ite_false]
            at hhd hcb ⊢
        · refine ih _ ?_ hhd hcb
          rw [promoteHead_timerQueue, h]
          simpa using Nat.le_of_succ_le_succ hn
        · rw [h] at hhd
          injection hhd with he htl
          injection he with h1 h2
          subst h2
          omega

theorem keyLt_not_keyLe (a b : HeapKey) (h1 : keyLt a b) (h2 : keyLe b a) :
    False := by
  obtain ⟨a1, a2⟩ := a
  obtain ⟨b1, b2⟩ := b
  simp only [keyLt, keyLe] at h1 h2
  omega

theorem ids_nodup_key_eq (l : List HeapKey)
    (hnd : (l.map Prod.snd).Nodup) (a b : Int) (i : Nat)
    (ha : (a, i) ∈ l) (hb : (b, i) ∈ l) : a = b := by
  induction l with
  | nil => cases ha
  | cons x xs ih =>
    simp only [List.map_cons, List.nodup_cons] at hnd
    obtain ⟨hx, hnd2⟩ := hnd
    rcases List.mem_cons.mp ha with rfl | ha2
    · rcases List.mem_cons.mp hb with he | hb2
      · injection he with h1 h2
        exact h1.symm
      · exact absurd (List.mem_map.mpr ⟨(b, i), hb2, rfl⟩) hx
    · rcases List.mem_cons.mp hb with rfl | hb2
      · exact absurd (List.mem_map.mpr ⟨(a, i), ha2, rfl⟩) hx
      · exact ih hnd2 ha2 hb2

theorem setCallback_then_lookup (A : SchedulerState) (tid : Nat)
    (c : Option Callback) (hmem : tid ∈ A.store.map Prod.fst) :
    (findTask (setCallback A tid c).store tid).callback = c := by
  simp only [setCallback]
  rw [findTask_updTask_self_of_mem _ _ _ hmem]

theorem wlContinue (fuel : Nat) (ct : Int) (s0 : SchedulerState)
    (k : Int) (tid : Nat) (rest : List HeapKey) (cb cont : Callback)
    (r : LoopRes)
    (hq : s0.taskQueue = (k, tid) :: rest)
    (hcb : (findTask s0.store tid).callback = some cb)
    (hg : (yieldCheck ct (findTask s0.store tid)
      (setCurrentTask s0 (some tid))).1 = false)
    (hrun : cb.run (decide ((findTask s0.store tid).expirationTime ≤ ct)) =
      Except.ok (some cont))
    (h : workLoopAux (fuel + 1) ct s0 = some r) :
    r.ret = .ok true ∧ r.exit = .continuation ∧
    r.trace = [(tid, decide ((findTask s0.store tid).expirationTime ≤ ct),
      ct)] ∧
    (findTask r.st.store tid).callback = some cont ∧
    (k, tid) ∈ r.st.taskQueue ∧
    (∀ k2 tid2 rest2, r.st.timerQueue = (k2, tid2) :: rest2 →
      (findTask r.st.store tid2).callback ≠ none →
      r.st.lastTime < (findTask r.st.store tid2).startTime) := by
  rw [workLoopAux] at h
  rw [hq] at h
  simp only [] at h
  simp only [setCurrentTask_store] at h
  split at h
  case isTrue hcond =>
    exact Bool.noConfusion (hg.symm.trans hcond)
  case isFalse hcond =>
    rw [hcb] at h
    dsimp only at h
    rw [hrun] at h
    obtain rfl := Option.some.inj h
    refine ⟨rfl, rfl, rfl, ?_, ?_, ?_⟩
    · rw [advanceTimers_callback]
      refine setCallback_then_lookup _ _ _ ?_
      simp only [readClock_snd_store, setCurrentPriority_store,
        setCallback, updTask_map_fst, yieldCheck_snd_store,
        setCurrentTask_store]
      exact mem_fst_of_callback_some _ _ _ hcb
    · rw [advanceTimers]
      refine advanceTimersAux_taskQueue_mono _ _ _ _ ?_
      simp only [setCallback_taskQueue, readClock_snd_taskQueue,
        setCurrentPriority_taskQueue, yieldCheck_snd_taskQueue,
        setCurrentTask_taskQueue, hq]
      exact List.mem_cons_self _ _
    · intro k2 tid2 rest2 hq2 hcb2
      simp only [advanceTimers_lastTime, setCallback_lastTime,
        readClock_snd_lastTime_eq]
      rw [advanceTimers] at hq2 hcb2 ⊢
      exact advanceTimersAux_head_pending _ _ _ _ _ _ (le_refl _) hq2 hcb2

theorem wlReinvoke (fuel : Nat) (ct2 : Int) (s0 : SchedulerState)
    (k : Int) (tid : Nat) (rest : List HeapKey) (cb : Callback)
    (r : LoopRes)
    (hq : s0.taskQueue = (k, tid) :: rest)
    (hcb : (findTask s0.store tid).callback = some cb)
    (hg : (yieldCheck ct2 (findTask s0.store tid)
      (setCurrentTask s0 (some tid))).1 = false)
    (h : workLoopAux (fuel + 1) ct2 s0 = some r) :
    r.trace.head? = some (tid,
      decide ((findTask s0.store tid).expirationTime ≤ ct2), ct2) := by
  rw [workLoopAux] at h
  rw [hq] at h
  simp only [] at h
  simp only [setCurrentTask_store] at h
  split at h
  case isTrue hcond =>
    exact Bool.noConfusion (hg.symm.trans hcond)
  case isFalse hcond =>
    rw [hcb] at h
    dsimp only at h
    split at h
    · obtain rfl := Option.some.inj h
      rfl
    · obtain rfl := Option.some.inj h
      rfl
    · split at h
      · exact absurd h (by simp)
      · obtain rfl := Option.some.inj h
        rfl

theorem runBodyDone_expirationTime (ct2 : Int) (tid j : Nat)
    (A : SchedulerState) :
    (findTask (runBodyDone ct2 tid A).store j).expirationTime =
      (findTask A.store j).expirationTime := by
  rw [runBodyDone, advanceTimers]
  rw [(advanceTimersAux_exp_start _ _ _ _).1]
  split <;> rfl

theorem wlFresh (fuel : Nat) (ct : Int) (s : SchedulerState) (r : LoopRes)
    (h : workLoopAux fuel ct s = some r) :
    ∀ e ∈ r.trace, e.2.1 =
      decide ((findTask s.store e.1).expirationTime ≤ e.2.2) := by
  induction fuel generalizing ct s r with
  | zero => simp [workLoopAux] at h
  | succ fuel ih =>
    rw [workLoopAux] at h
    rcases hq : s.taskQueue with _ | ⟨⟨k, tid⟩, rest⟩ <;> rw [hq] at h
    · obtain rfl := Option.some.inj h
      intro e he
      rw [drainedExit_trace] at he
      cases he
    · simp only [] at h
      simp only [setCurrentTask_store] at h
      split at h
      · obtain rfl := Option.some.inj h
        intro e he
        cases he
      · split at h
        · intro e he
          have hrec := ih _ _ _ h e he
          simp only [popHead_store, yieldCheck_snd_store,
            setCurrentTask_store] at hrec
          exact hrec
        · rename_i cb hcbh
          split at h
          · obtain rfl := Option.some.inj h
            intro e he
            rcases List.mem_singleton.mp he with rfl
            rfl
          · obtain rfl := Option.some.inj h
            intro e he
            rcases List.mem_singleton.mp he with rfl
            rfl
          · split at h
            · exact absurd h (by simp)
            · rename_i r' hr'
              obtain rfl := Option.some.inj h
              intro e he
              rcases List.mem_cons.mp he with rfl | htail
              · rfl
              · have hrec := ih _ _ _ hr' e htail
                rw [runBodyDone_expirationTime] at hrec
                simp only [readClock_snd_store, setCurrentPriority_store,
                  findTask_setCallback_expirationTime, yieldCheck_snd_store,
                  setCurrentTask_store] at hrec
                exact hrec

theorem runBodyDone_cons (ct2 : Int) (tid : Nat) (A : SchedulerState)
    (k : Int) (rest : List HeapKey) (hq : A.taskQueue = (k, tid) :: rest) :
    runBodyDone ct2 tid A = advanceTimers ct2 (popHead A) := by
  rw [runBodyDone, if_pos (by rw [hq]; rfl)]

theorem wlNotBefore (fuel : Nat) (ct : Int) (s : SchedulerState)
    (r : LoopRes) (k1 k2 : Int) (tid1 tid2 : Nat)
    (hs : List.Sorted keyLe s.taskQueue)
    (hnd : (s.taskQueue.map Prod.snd ++ s.timerQueue.map Prod.snd).Nodup)
    (hm1 : (k1, tid1) ∈ s.taskQueue) (hm2 : (k2, tid2) ∈ s.taskQueue)
    (hlt : keyLt (k2, tid2) (k1, tid1))
    (hcb2 : ∃ cb, (findTask s.store tid2).callback = some cb)
    (h : workLoopAux fuel ct s = some r) :
    notBefore tid1 tid2 (r.trace.map Prod.fst) := by
  induction fuel generalizing ct s r with
  | zero => simp [workLoopAux] at h
  | succ fuel ih =>
    have hndT : (s.taskQueue.map Prod.snd).Nodup :=
      List.Nodup.of_append_left hnd
    have hne12 : tid1 ≠ tid2 := by
      intro he
      subst he
      obtain rfl := ids_nodup_key_eq _ hndT k1 k2 tid1 hm1 hm2
      exact keyLt_not_keyLe _ _ hlt (Or.inr ⟨rfl, le_refl _⟩)
    rw [workLoopAux] at h
    rcases hq : s.taskQueue with _ | ⟨⟨kh, tidh⟩, rest⟩ <;>
      rw [hq] at h hm1 hm2 hs hnd hndT
    · cases hm1
    · have hhead : ∀ b ∈ rest, keyLe (kh, tidh) b :=
        (List.sorted_cons.mp hs).1
      have hstail : List.Sorted keyLe rest := (List.sorted_cons.mp hs).2
      have hnd2 : (tidh :: (rest.map Prod.snd ++
          s.timerQueue.map Prod.snd)).Nodup := by
        simpa using hnd
      have hndtail : (rest.map Prod.snd ++
          s.timerQueue.map Prod.snd).Nodup := (List.nodup_cons.mp hnd2).2
      simp only [] at h
      simp only [setCurrentTask_store] at h
      split at h
      · obtain rfl := Option.some.inj h
        exact trivial
      · split at h
        · -- tombstoned head: silent pop, no trace entry
          rename_i hcbh
          have htid2ne : tidh ≠ tid2 := by
            intro he
            subst he
            obtain ⟨cb2, hcx⟩ := hcb2
            rw [hcx] at hcbh
            cases hcbh
          have hm2r : (k2, tid2) ∈ rest := by
            rcases List.mem_cons.mp hm2 with he | h2
            · injection he with e1 e2
              exact absurd e2.symm htid2ne
            · exact h2
          have htid1ne : tidh ≠ tid1 := by
            intro he
            subst he
            obtain rfl := ids_nodup_key_eq _ hndT kh k1 tidh
              (List.mem_cons_self _ _) hm1
            exact keyLt_not_keyLe _ _ hlt (hhead _ hm2r)
          have hm1r : (k1, tid1) ∈ rest := by
            rcases List.mem_cons.mp hm1 with he | h2
            · injection he with e1 e2
              exact absurd e2.symm htid1ne
            · exact h2
          refine ih _ _ _ ?_ ?_ ?_ ?_ ?_ h
          · simp only [popHead_taskQueue, yieldCheck_snd_taskQueue,
              setCurrentTask_taskQueue, hq, List.tail_cons]
            exact hstail
          · simp only [popHead_taskQueue, popHead_timerQueue,
              yieldCheck_snd_taskQueue, yieldCheck_snd_timerQueue,
              setCurrentTask_taskQueue, setCurrentTask_timerQueue, hq,
              List.tail_cons]
            exact hndtail
          · simp only [popHead_taskQueue, yieldCheck_snd_taskQueue,
              setCurrentTask_taskQueue, hq, List.tail_cons]
            exact hm1r
          · simp only [popHead_taskQueue, yieldCheck_snd_taskQueue,
              setCurrentTask_taskQueue, hq, List.tail_cons]
            exact hm2r
          · obtain ⟨cb2, hcx⟩ := hcb2
            refine ⟨cb2, ?_⟩
            simp only [popHead_store, yieldCheck_snd_store,
              setCurrentTask_store]
            exact hcx
        · rename_i cb hcbh
          by_cases htid2 : tidh = tid2
          · have htid1ne : tidh ≠ tid1 := fun he =>
              hne12 (he.symm.trans htid2)
            split at h
            · obtain rfl := Option.some.inj h
              exact ⟨htid1ne, Or.inl htid2⟩
            · obtain rfl := Option.some.inj h
              exact ⟨htid1ne, Or.inl htid2⟩
            · split at h
              · exact absurd h (by simp)
              · rename_i r' hr'
                obtain rfl := Option.some.inj h
                exact ⟨htid1ne, Or.inl htid2⟩
          · have hm2r : (k2, tid2) ∈ rest := by
              rcases List.mem_cons.mp hm2 with he | h2
              · injection he with e1 e2
                exact absurd e2.symm htid2
              · exact h2
            have htid1ne : tidh ≠ tid1 := by
              intro he
              subst he
              obtain rfl := ids_nodup_key_eq _ hndT kh k1 tidh
                (List.mem_cons_self _ _) hm1
              exact keyLt_not_keyLe _ _ hlt (hhead _ hm2r)
            have hm1r : (k1, tid1) ∈ rest := by
              rcases List.mem_cons.mp hm1 with he | h2
              · injection he with e1 e2
                exact absurd e2.symm htid1ne
              · exact h2
            split at h
            · obtain rfl := Option.some.inj h
              exact ⟨htid1ne, Or.inr trivial⟩
            · obtain rfl := Option.some.inj h
              exact ⟨htid1ne, Or.inr trivial⟩
            · split at h
              · exact absurd h (by simp)
              · rename_i r' hr'
                obtain rfl := Option.some.inj h
                refine ⟨htid1ne, Or.inr ?_⟩
                rw [runBodyDone_cons _ _ _ kh rest (by
                  simp only [readClock_snd_taskQueue,
                    setCurrentPriority_taskQueue, setCallback_taskQueue,
                    yieldCheck_snd_taskQueue, setCurrentTask_taskQueue]
                  exact hq)] at hr'
                rw [advanceTimers] at hr'
                refine ih _ _ _ ?_ ?_ ?_ ?_ ?_ hr'
                · refine advanceTimersAux_sorted _ _ _ ?_
                  simp only [popHead_taskQueue, readClock_snd_taskQueue,
                    setCurrentPriority_taskQueue, setCallback_taskQueue,
                    yieldCheck_snd_taskQueue, setCurrentTask_taskQueue, hq,
                    List.tail_cons]
                  exact hstail
                · refine advanceTimersAux_nodupIds _ _ _ ?_
                  simp only [popHead_taskQueue, popHead_timerQueue,
                    readClock_snd_taskQueue, readClock_snd_timerQueue,
                    setCurrentPriority_taskQueue,
                    setCurrentPriority_timerQueue, setCallback_taskQueue,
                    setCallback_timerQueue, yieldCheck_snd_taskQueue,
                    yieldCheck_snd_timerQueue, setCurrentTask_taskQueue,
                    setCurrentTask_timerQueue, hq, List.tail_cons]
                  exact hndtail
                · refine advanceTimersAux_taskQueue_mono _ _ _ _ ?_
                  simp only [popHead_taskQueue, readClock_snd_taskQueue,
                    setCurrentPriority_taskQueue, setCallback_taskQueue,
                    yieldCheck_snd_taskQueue, setCurrentTask_taskQueue, hq,
                    List.tail_cons]
                  exact hm1r
                · refine advanceTimersAux_taskQueue_mono _ _ _ _ ?_
                  simp only [popHead_taskQueue, readClock_snd_taskQueue,
                    setCurrentPriority_taskQueue, setCallback_taskQueue,
                    yieldCheck_snd_taskQueue, setCurrentTask_taskQueue, hq,
                    List.tail_cons]
                  exact hm2r
                · obtain ⟨cb2, hcx⟩ := hcb2
                  refine ⟨cb2, ?_⟩
                  rw [advanceTimersAux_callback]
                  simp only [popHead_store, readClock_snd_store,
                    setCurrentPriority_store]
                  rw [findTask_setCallback_ne _ _ _ _ (Ne.symm htid2)]
                  simp only [yieldCheck_snd_store, setCurrentTask_store]
                  exact hcx

/-- C7 (amended): whenever a task body is invoked — the loop guard
`expirationTime > currentTime && shouldYieldToHost()` evaluated false,
whether or not the task is overdue — and returns a continuation, the
drain stores the continuation back as that same task's body, leaves the
task in the ready queue, re-promotes delayed tasks at the refreshed clock
reading (afterwards no still-pending delay-queue minimum is overdue),
records exactly that one invocation and immediately returns true; a later
drain whose ready-queue minimum is that task re-invokes the same task
identity with a freshly computed `didTimeout` whenever the guard again
evaluates false — which it always does once the task is overdue (third
conjunct), but not necessarily before the deadline (the counterexample
theorem below); every trace entry's flag is recomputed from the invariant
`expirationTime` and the loop time of that iteration; and with a sorted,
duplicate-free queue a task is never invoked before another queued task
with a strictly smaller `(sortIndex, id)` key whose body is still set. -/
theorem c7_continuation_lifecycle :
    (∀ fuel ct s0 k tid rest cb cont r,
      s0.taskQueue = (k, tid) :: rest →
      (findTask s0.store tid).callback = some cb →
      (yieldCheck ct (findTask s0.store tid)
        (setCurrentTask s0 (some tid))).1 = false →
      cb.run (decide ((findTask s0.store tid).expirationTime ≤ ct)) =
        Except.ok (some cont) →
      workLoopAux (fuel + 1) ct s0 = some r →
      (r.ret = .ok true ∧ r.exit = .continuation ∧
       r.trace = [(tid,
         decide ((findTask s0.store tid).expirationTime ≤ ct), ct)] ∧
       (findTask r.st.store tid).callback = some cont ∧
       (k, tid) ∈ r.st.taskQueue ∧
       (∀ k2 tid2 rest2, r.st.timerQueue = (k2, tid2) :: rest2 →
         (findTask r.st.store tid2).callback ≠ none →
         r.st.lastTime < (findTask r.st.store tid2).startTime))) ∧
    (∀ fuel ct2 s0 k tid rest cb r,
      s0.taskQueue = (k, tid) :: rest →
      (findTask s0.store tid).callback = some cb →
      (yieldCheck ct2 (findTask s0.store tid)
        (setCurrentTask s0 (some tid))).1 = false →
      workLoopAux (fuel + 1) ct2 s0 = some r →
      r.trace.head? = some (tid,
        decide ((findTask s0.store tid).expirationTime ≤ ct2), ct2)) ∧
    (∀ ct t s, t.expirationTime ≤ ct → (yieldCheck ct t s).1 = false) ∧
    (∀ fuel ct s r, workLoopAux fuel ct s = some r →
      ∀ e ∈ r.trace, e.2.1 =
        decide ((findTask s.store e.1).expirationTime ≤ e.2.2)) ∧
    (∀ fuel ct s r k1 k2 tid1 tid2,
      List.Sorted keyLe s.taskQueue →
      (s.taskQueue.map Prod.snd ++ s.timerQueue.map Prod.snd).Nodup →
      (k1, tid1) ∈ s.taskQueue → (k2, tid2) ∈ s.taskQueue →
      keyLt (k2, tid2) (k1, tid1) →
      (∃ cb, (findTask s.store tid2).callback = some cb) →
      workLoopAux fuel ct s = some r →
      notBefore tid1 tid2 (r.trace.map Prod.fst)) := by
  refine ⟨?_, ?_, ?_, ?_, ?_⟩
  · intro fuel ct s0 k tid rest cb cont r h1 h2 h3 h4 h5
    exact wlContinue fuel ct s0 k tid rest cb cont r h1 h2 h3 h4 h5
  · intro fuel ct2 s0 k tid rest cb r h1 h2 h3 h4
    exact wlReinvoke fuel ct2 s0 k tid rest cb r h1 h2 h3 h4
  · intro ct t s hle
    rw [yieldCheck, if_neg (not_lt.mpr hle)]
  · intro fuel ct s r h1
    exact wlFresh fuel ct s r h1
  · intro fuel ct s r k1 k2 tid1 tid2 h1 h2 h3 h4 h5 h6 h7
    exact wlNotBefore fuel ct s r k1 k2 tid1 tid2 h1 h2 h3 h4 h5 h6 h7

/-- C7 witness: draining `c7aState` at time 10 hits the continuation
branch on an overdue task (trace `[(0, true, 10)]`, body replaced by the
continuation, task 0 still queued under key 5, delayed task 1 still
pending and not overdue at the refreshed time 11); draining `c7cState` at
time 0 hits it on a not-yet-overdue task (`didTimeout = false`, body
replaced, task kept); draining `c7bState` at time 20 re-invokes head
task 0 with a fresh `didTimeout` (its guard is false since it is
overdue), task 1's entry recomputes `didTimeout` to `false` at its loop
time, and task 1 (key 9) is not run before task 0 (key 5). -/
theorem c7_continuation_lifecycle_witness :
    (c7aRes.ret = .ok true ∧ c7aRes.exit = .continuation ∧
     c7aRes.trace = [(0, true, 10)] ∧
     (findTask c7aRes.st.store 0).callback = some cbDone ∧
     ((5 : Int), 0) ∈ c7aRes.st.taskQueue ∧
     c7aRes.st.lastTime < (findTask c7aRes.st.store 1).startTime) ∧
    (c7cRes.exit = .continuation ∧ c7cRes.trace = [(0, false, 0)] ∧
     (findTask c7cRes.st.store 0).callback = some cbDone ∧
     ((100 : Int), 0) ∈ c7cRes.st.taskQueue) ∧
    c7bRes.trace.head? = some (0, true, 20) ∧
    (yieldCheck 10 (findTask c7aState.store 0) c7aState).1 = false ∧
    (false = decide ((findTask c7bState.store 1).expirationTime ≤ 0)) ∧
    notBefore 1 0 (c7bRes.trace.map Prod.fst) := by
  refine ⟨?_, ?_, ?_, ?_, ?_, ?_⟩
  · obtain ⟨a1, a2, a3, a4, a5, a6⟩ :=
      c7_continuation_lifecycle.1 2 10 c7aState 5 0 [] cbCont cbDone c7aRes
        rfl rfl rfl rfl rfl
    refine ⟨a1, a2, a3, a4, a5, ?_⟩
    refine a6 50 1 [] rfl ?_
    intro hx
    exact Option.noConfusion ((show (findTask c7aRes.st.store 1).callback =
      some cbDone from rfl).symm.trans hx)
  · obtain ⟨b1, b2, b3, b4, b5, b6⟩ :=
      c7_continuation_lifecycle.1 2 0 c7cState 100 0 [] cbCont cbDone c7cRes
        rfl rfl rfl rfl rfl
    exact ⟨b2, b3, b4, b5⟩
  · exact c7_continuation_lifecycle.2.1 3 20 c7bState 5 0 [(9, 1)] cbDone
      c7bRes rfl rfl rfl rfl
  · exact c7_continuation_lifecycle.2.2.1 10 (findTask c7aState.store 0)
      c7aState (by decide)
  · exact c7_continuation_lifecycle.2.2.2.1 4 20 c7bState c7bRes rfl
      (1, false, 0) (by decide)
  · exact c7_continuation_lifecycle.2.2.2.2 4 20 c7bState c7bRes 9 5 1 0
      (by decide) (by decide) (by decide) (by decide) (by decide)
      ⟨cbDone, rfl⟩ rfl

/-- C7 counterexample to the unconditional next-drain re-invocation: a
continuation task invoked before its deadline is not re-invoked on the
next drain. Draining `c7cState` at time 0 stores the continuation
(`didTimeout = false`); the next drain at time 5 trips the loop guard —
`shouldYieldToHost` measures elapsed time from the never-written module
`startTime` (still -1), so it yields at once — and ends with an empty
invocation trace although the stored continuation still heads the ready
queue. -/
theorem c7_no_reinvocation_before_deadline :
    c7cRes.exit = .continuation ∧
    (findTask c7cRes.st.store 0).callback = some cbDone ∧
    c7cRes.st.taskQueue = [(100, 0)] ∧
    c7cRes.st.startTime = -1 ∧
    (findTask c7cRes.st.store 0).expirationTime = 100 ∧
    c7dRes.trace = [] ∧
    c7dRes.exit = .yielded :=
  ⟨rfl, rfl, rfl, rfl, rfl, rfl, rfl⟩

end MiniReact
